import Mathlib

/-!
Power-state sequencer of the MNH companion module (drivers/misc/mnh/mnh-pwr.c).

A shallow embedding of the power sequencer.  The driver singleton
`struct mnh_pwr_data` becomes an explicit record that is passed from call to
call.  Every call into a regulator, a clock, the power-good GPIO or the PCIe
link is appended to a trace; the value such a call returns is drawn from an
environment that may depend on the whole history of calls, so a statement
quantified over environments covers every outcome of the hardware calls.
The mutex only serialises callers and the log messages have no effect on the
state, so neither is modelled.

Conventions of the translation.  A C block of the form
`x = f(); if (x) goto label;` becomes a binding of the pair (result, new state)
followed by a test of the result.  Where the C code makes the call only under a
condition and tests `ret` inside that block, the binding yields 0 for the
skipped call, so that the test that follows passes as it does in C.  Each
error label is a function from the value of `ret` and the state at the `goto`;
labels that fall through call the next label.
-/

namespace MnhPwr

/-! ## Data model -/

/-- Modelled from the spec: `enum mnh_pwr_state` is declared in mnh-pwr.h, which is
not among the sources.  The four enumerators are the states S0, S1, S3 and S4 of
the spec; `other v` stands for any value of the C enum type that is none of the
four enumerators. -/
inductive mnh_pwr_state where
  | MNH_PWR_S0
  | MNH_PWR_S1
  | MNH_PWR_S3
  | MNH_PWR_S4
  | other (v : Int)
  deriving DecidableEq, Repr

/-- The `enum mnh_boot_mode` of mnh-sm.h. -/
inductive mnh_boot_mode where
  | MNH_BOOT_MODE_PCIE
  | MNH_BOOT_MODE_SPI
  deriving DecidableEq, Repr

/-- The four regulator handles of `struct mnh_pwr_data`. -/
inductive regulator where
  | asr_supply
  | sdsr_supply
  | sdldo_supply
  | ioldo_supply
  deriving DecidableEq, Repr

/-- The two clock handles of `struct mnh_pwr_data`. -/
inductive clk where
  | ref_clk
  | sleep_clk
  deriving DecidableEq, Repr

/-- What the sequencer reads of a `struct pci_dev`: its identity, the number of
its bus and the domain of its bus. -/
structure pci_dev where
  devfn : Nat
  bus_number : Nat
  domain_nr : Int
  deriving DecidableEq, Repr

/-- The `enum msm_pcie_pm_opt` values the sequencer passes. -/
inductive msm_pcie_pm_opt where
  | MSM_PCIE_SUSPEND
  | MSM_PCIE_RESUME
  deriving DecidableEq, Repr

/-- The option flags passed to `msm_pcie_pm_control`; a bitwise or of flags is
modelled as the list of the flags. -/
inductive msm_pcie_config where
  | MSM_PCIE_CONFIG_NO_CFG_RESTORE
  | MSM_PCIE_CONFIG_LINKDOWN
  | MSM_PCIE_CONFIG_NO_CFG_FREE
  deriving DecidableEq, Repr

/-- The events of `enum msm_pcie_event` the sequencer distinguishes. -/
inductive msm_pcie_event where
  | MSM_PCIE_EVENT_LINKDOWN
  | MSM_PCIE_EVENT_OTHER (v : Nat)
  deriving DecidableEq, Repr

/-- One call into a collaborator (regulator, clock, GPIO, delay, PCIe link,
state manager), with the arguments that identify it. -/
inductive Call where
  | regulator_enable (r : regulator)
  | regulator_disable (r : regulator)
  | regulator_is_enabled (r : regulator)
  | clk_prepare_enable (c : clk)
  | clk_disable_unprepare (c : clk)
  | gpiod_set_value_cansleep (value : Nat)
  | udelay (usecs : Nat)
  | msm_pcie_set_reset (rc_idx : Nat) (assert : Bool)
  | msm_pcie_enumerate (rc_idx : Nat)
  | pci_get_device (vendor : Nat) (device : Nat) (start : Option pci_dev)
  | pci_save_state (dev : pci_dev)
  | pci_store_saved_state (dev : pci_dev)
  | pci_dev_put (dev : pci_dev)
  | msm_pcie_register_event (user : Option pci_dev)
  | msm_pcie_pm_control (pm_opt : msm_pcie_pm_opt) (busnr : Nat) (user : pci_dev)
      (options : List msm_pcie_config)
  | mnh_pci_suspend (dev : pci_dev)
  | mnh_pci_resume (dev : pci_dev)
  | pci_prepare_to_sleep (dev : pci_dev)
  | pci_back_from_sleep (dev : pci_dev)
  | pci_load_saved_state (dev : pci_dev) (state : Option Nat)
  | pci_restore_state (dev : pci_dev)
  | mnh_sm_pwr_error_cb
  deriving DecidableEq, Repr

/-- The collaborators.  Each answer may depend on the history of calls made so
far: `ret` is the integer a call returns, `boot_mode` the answer of
`mnh_sm_get_boot_mode`, `pci_devices` the devices with the MNH vendor and device
id in the order `pci_get_device` walks them, and `saved_state` the pointer
returned by `pci_store_saved_state` (`none` is NULL). -/
structure Env where
  ret : List Call → Call → Int
  boot_mode : List Call → mnh_boot_mode
  pci_devices : List Call → List pci_dev
  saved_state : List Call → Option Nat

/-- The fields of `struct msm_pcie_register_event` the sequencer fills in. -/
structure msm_pcie_register_event where
  events : List msm_pcie_event
  user : Option pci_dev
  deriving DecidableEq, Repr

/-- The mutable fields of `struct mnh_pwr_data`.  A NULL pointer is `none`;
`shutdown_work` is the pending bit of the work item. -/
structure mnh_pwr_data where
  ref_clk_enabled : Bool
  sleep_clk_enabled : Bool
  pcidev : Option pci_dev
  pristine_state : Option Nat
  pci_link_event : msm_pcie_register_event
  shutdown_work : Bool
  pcie_failure : Bool
  state : mnh_pwr_state
  deriving DecidableEq, Repr

/-- The driver singleton together with the history of collaborator calls. -/
structure Sys where
  mnh_pwr : mnh_pwr_data
  trace : List Call
  deriving DecidableEq, Repr

/-- The root complex the module hangs off (`#define MNH_PCIE_RC_INDEX 0`). -/
def MNH_PCIE_RC_INDEX : Nat := 0

/-- The vendor id searched for (`#define MNH_PCIE_VENDOR_ID 0x8086`). -/
def MNH_PCIE_VENDOR_ID : Nat := 0x8086

/-- The device id searched for (`#define MNH_PCIE_DEVICE_ID 0x3140`). -/
def MNH_PCIE_DEVICE_ID : Nat := 0x3140

/-- The options of a link suspend (`#define PM_OPT_SUSPEND MSM_PCIE_CONFIG_LINKDOWN`). -/
def PM_OPT_SUSPEND : List msm_pcie_config := [.MSM_PCIE_CONFIG_LINKDOWN]

/-- The options of a link resume (`#define PM_OPT_RESUME MSM_PCIE_CONFIG_NO_CFG_FREE`). -/
def PM_OPT_RESUME : List msm_pcie_config := [.MSM_PCIE_CONFIG_NO_CFG_FREE]

/-- The errno value EINVAL of the kernel headers. -/
def EINVAL : Int := 22

/-- The errno value ENODEV of the kernel headers. -/
def ENODEV : Int := 19

/-! ## Collaborator calls -/

/-- A call whose return value the caller reads. -/
def hw_call (env : Env) (c : Call) (s : Sys) : Int × Sys :=
  (env.ret s.trace c, { s with trace := s.trace ++ [c] })

/-- A call whose return value the caller does not read. -/
def hw_void (c : Call) (s : Sys) : Sys :=
  { s with trace := s.trace ++ [c] }

/-! ## Link bring-up and suspend -/

/-- The do/while loop of `mnh_pwr_pcie_enumerate`: ask `pci_get_device` for the
next matching device until it returns NULL or a device in our domain. -/
def pci_get_device_loop (start : Option pci_dev) : List pci_dev → Sys → Option pci_dev × Sys
  | [], s =>
    (none, hw_void (.pci_get_device MNH_PCIE_VENDOR_ID MNH_PCIE_DEVICE_ID start) s)
  | d :: rest, s =>
    let s := hw_void (.pci_get_device MNH_PCIE_VENDOR_ID MNH_PCIE_DEVICE_ID start) s
    if d.domain_nr = (MNH_PCIE_RC_INDEX : Int) then (some d, s)
    else pci_get_device_loop (some d) rest s

/-- The function `mnh_pwr_pcie_enumerate` (mnh-pwr.c, lines 190-241). -/
def mnh_pwr_pcie_enumerate (env : Env) (s : Sys) : Int × Sys :=
  -- enumerate PCIE
  let (ret, s) := hw_call env (.msm_pcie_enumerate MNH_PCIE_RC_INDEX) s
  if ret < 0 then (ret, s) else
  -- search for PCIE device in our domain
  let (found, s) := pci_get_device_loop none (env.pci_devices s.trace) s
  match found with
  | none => (-ENODEV, s)
  | some pcidev =>
    -- save current state in pcidev
    let (ret, s) := hw_call env (.pci_save_state pcidev) s
    if ret ≠ 0 then (ret, hw_void (.pci_dev_put pcidev) s) else
    -- store saved state so we can recall it after resume
    let stored := env.saved_state s.trace
    let s := hw_void (.pci_store_saved_state pcidev) s
    let s := { s with mnh_pwr := { s.mnh_pwr with pristine_state := stored } }
    if stored.isNone then (ret, hw_void (.pci_dev_put pcidev) s) else
    -- save device to driver struct
    (0, { s with mnh_pwr := { s.mnh_pwr with pcidev := some pcidev } })

/-- The function `mnh_pwr_pcie_suspend` (mnh-pwr.c, lines 243-302). -/
def mnh_pwr_pcie_suspend (env : Env) (s : Sys) : Int × Sys :=
  match s.mnh_pwr.pcidev with
  | none => (-ENODEV, s)
  | some pcidev =>
    if s.mnh_pwr.pcie_failure then
      -- call the platform driver to update link status
      let (ret, s) := hw_call env (.msm_pcie_pm_control .MSM_PCIE_SUSPEND pcidev.bus_number
        pcidev (PM_OPT_SUSPEND ++ [.MSM_PCIE_CONFIG_NO_CFG_RESTORE])) s
      if ret ≠ 0 then (ret, s) else
      -- suspend the driver state only after updating link status
      let (_, s) := hw_call env (.mnh_pci_suspend pcidev) s
      (0, { s with mnh_pwr := { s.mnh_pwr with pcie_failure := false } })
    else
      -- suspend the driver state
      let (_, s) := hw_call env (.mnh_pci_suspend pcidev) s
      -- prepare the root complex and endpoint for going to suspend
      let (_, s) := hw_call env (.pci_prepare_to_sleep pcidev) s
      -- call the platform driver to suspend PCIe link
      let (ret, s) := hw_call env (.msm_pcie_pm_control .MSM_PCIE_SUSPEND pcidev.bus_number
        pcidev PM_OPT_SUSPEND) s
      if ret ≠ 0 then (ret, s) else
      (0, s)

/-- The label `fail_pcie_resume_awake` of `mnh_pwr_pcie_resume`. -/
def fail_pcie_resume_awake (pcidev : pci_dev) (ret : Int) (s : Sys) : Int × Sys :=
  let s := hw_void (.msm_pcie_pm_control .MSM_PCIE_SUSPEND pcidev.bus_number pcidev
    PM_OPT_SUSPEND) s
  (ret, s)

/-- The labels `fail_pcie_resume_mnh_init` and `fail_pcie_resume_load_state` of
`mnh_pwr_pcie_resume`, which fall through to `fail_pcie_resume_awake`. -/
def fail_pcie_resume_load_state (pcidev : pci_dev) (ret : Int) (s : Sys) : Int × Sys :=
  let s := hw_void (.pci_prepare_to_sleep pcidev) s
  fail_pcie_resume_awake pcidev ret s

/-- The function `mnh_pwr_pcie_resume` (mnh-pwr.c, lines 304-386). -/
def mnh_pwr_pcie_resume (env : Env) (s : Sys) : Int × Sys :=
  match s.mnh_pwr.pcidev with
  | none =>
    -- enumerate pci device
    let (ret, s) := mnh_pwr_pcie_enumerate env s
    if ret ≠ 0 then (ret, s) else
    -- save the newly enumerated device to the local copy
    let pcidev := s.mnh_pwr.pcidev
    -- register for link down events so we can handle them
    let s := { s with mnh_pwr := { s.mnh_pwr with
      pci_link_event := { events := [.MSM_PCIE_EVENT_LINKDOWN], user := pcidev } } }
    let (_, s) := hw_call env (.msm_pcie_register_event pcidev) s
    (0, { s with mnh_pwr := { s.mnh_pwr with pcie_failure := false } })
  | some pcidev =>
    let (ret, s) := hw_call env (.msm_pcie_pm_control .MSM_PCIE_RESUME pcidev.bus_number
      pcidev PM_OPT_RESUME) s
    if ret ≠ 0 then (ret, s) else
    -- prepare the root complex and endpoint
    let (ret, s) := hw_call env (.pci_back_from_sleep pcidev) s
    if ret ≠ 0 then fail_pcie_resume_awake pcidev ret s else
    -- load the saved state in the device buffer
    let (ret, s) := hw_call env (.pci_load_saved_state pcidev s.mnh_pwr.pristine_state) s
    if ret ≠ 0 then fail_pcie_resume_load_state pcidev ret s else
    -- apply the saved state to the device
    let s := hw_void (.pci_restore_state pcidev) s
    -- resume the driver state
    let (ret, s) := hw_call env (.mnh_pci_resume pcidev) s
    if ret ≠ 0 then fail_pcie_resume_load_state pcidev ret s else
    (0, { s with mnh_pwr := { s.mnh_pwr with pcie_failure := false } })

/-! ## Transition procedures -/

/-- The guarded disable of a rail,
`if (regulator_is_enabled(r)) { ret = regulator_disable(r); ... }`, together with
the value that the test after it reads: the result of the disable, and 0 when the
rail is reported disabled and the block is skipped. -/
def regulator_disable_if_enabled (env : Env) (r : regulator) (s : Sys) : Int × Sys :=
  let (en, s) := hw_call env (.regulator_is_enabled r) s
  if en ≠ 0 then hw_call env (.regulator_disable r) s else (0, s)

/-- The unwind statement `if (regulator_is_enabled(r)) regulator_disable(r);`,
which does not read the result of the disable. -/
def disable_if_enabled (env : Env) (r : regulator) (s : Sys) : Sys :=
  (regulator_disable_if_enabled env r s).2

/-- The guarded enable of a rail in `mnh_pwr_up`,
`if (mnh_pwr->state == MNH_PWR_S4) { ret = regulator_enable(r); ... }`, together
with the value that the test reads (0 when the block is skipped). -/
def regulator_enable_from_S4 (env : Env) (r : regulator) (s : Sys) : Int × Sys :=
  if s.mnh_pwr.state = .MNH_PWR_S4 then hw_call env (.regulator_enable r) s else (0, s)

/-- The reference-clock block of `mnh_pwr_up`:
`if (!ref_clk_enabled) { ret = clk_prepare_enable(ref_clk); if (ret) goto ...;
ref_clk_enabled = true; }`, together with the value that the test reads. -/
def enable_ref_clk (env : Env) (s : Sys) : Int × Sys :=
  if ¬ s.mnh_pwr.ref_clk_enabled then
    let (ret, s) := hw_call env (.clk_prepare_enable .ref_clk) s
    if ret ≠ 0 then (ret, s)
    else (0, { s with mnh_pwr := { s.mnh_pwr with ref_clk_enabled := true } })
  else (0, s)

/-- The sleep-clock block of `mnh_pwr_up`:
`if (!sleep_clk_enabled) { ret = clk_prepare_enable(sleep_clk); if (ret) goto ...;
sleep_clk_enabled = true; }`, together with the value that the test reads. -/
def enable_sleep_clk (env : Env) (s : Sys) : Int × Sys :=
  if ¬ s.mnh_pwr.sleep_clk_enabled then
    let (ret, s) := hw_call env (.clk_prepare_enable .sleep_clk) s
    if ret ≠ 0 then (ret, s)
    else (0, { s with mnh_pwr := { s.mnh_pwr with sleep_clk_enabled := true } })
  else (0, s)

/-- The statement
`if (ref_clk_enabled) { clk_disable_unprepare(ref_clk); ref_clk_enabled = false; }`. -/
def disable_ref_clk (s : Sys) : Sys :=
  if s.mnh_pwr.ref_clk_enabled then
    let s := hw_void (.clk_disable_unprepare .ref_clk) s
    { s with mnh_pwr := { s.mnh_pwr with ref_clk_enabled := false } }
  else s

/-- The statement
`if (sleep_clk_enabled) { clk_disable_unprepare(sleep_clk); sleep_clk_enabled = false; }`. -/
def disable_sleep_clk (s : Sys) : Sys :=
  if s.mnh_pwr.sleep_clk_enabled then
    let s := hw_void (.clk_disable_unprepare .sleep_clk) s
    { s with mnh_pwr := { s.mnh_pwr with sleep_clk_enabled := false } }
  else s

/-- The label `fail_pwr_down_sdldo` of `mnh_pwr_down`. -/
def fail_pwr_down_sdldo (ret : Int) (s : Sys) : Int × Sys :=
  (ret, { s with mnh_pwr := { s.mnh_pwr with state := .MNH_PWR_S4 } })

/-- The label `fail_pwr_down_ioldo` of `mnh_pwr_down`. -/
def fail_pwr_down_ioldo (env : Env) (ret : Int) (s : Sys) : Int × Sys :=
  let s := disable_if_enabled env .sdldo_supply s
  fail_pwr_down_sdldo ret s

/-- The label `fail_pwr_down_asr` of `mnh_pwr_down`. -/
def fail_pwr_down_asr (env : Env) (ret : Int) (s : Sys) : Int × Sys :=
  let s := disable_if_enabled env .ioldo_supply s
  fail_pwr_down_ioldo env ret s

/-- The label `fail_pwr_down_sdsr` of `mnh_pwr_down`. -/
def fail_pwr_down_sdsr (env : Env) (ret : Int) (s : Sys) : Int × Sys :=
  let s := disable_if_enabled env .asr_supply s
  fail_pwr_down_asr env ret s

/-- The label `fail_pwr_down_pcie` of `mnh_pwr_down`. -/
def fail_pwr_down_pcie (env : Env) (ret : Int) (s : Sys) : Int × Sys :=
  let s := hw_void (.gpiod_set_value_cansleep 0) s
  let s := disable_sleep_clk s
  let s := disable_ref_clk s
  let s := disable_if_enabled env .sdsr_supply s
  fail_pwr_down_sdsr env ret s

/-- The function `mnh_pwr_down` (mnh-pwr.c, lines 388-490). -/
def mnh_pwr_down (env : Env) (s : Sys) : Int × Sys :=
  let (ret, s) :=
    if s.mnh_pwr.state ≠ .MNH_PWR_S3 ∧ env.boot_mode s.trace = .MNH_BOOT_MODE_PCIE then
      -- suspend pcie link
      mnh_pwr_pcie_suspend env s
    else
      -- assert reset
      (0, hw_void (.msm_pcie_set_reset MNH_PCIE_RC_INDEX true) s)
  if ret ≠ 0 then fail_pwr_down_pcie env ret s else
  -- deassert soc_pwr_good
  let s := hw_void (.gpiod_set_value_cansleep 0) s
  -- disable clocks
  let s := disable_ref_clk s
  let s := disable_sleep_clk s
  -- disable supplies: sdsr -> asr -> ioldo -> sdldo
  let (ret, s) := regulator_disable_if_enabled env .sdsr_supply s
  if ret ≠ 0 then fail_pwr_down_sdsr env ret s else
  let (ret, s) := regulator_disable_if_enabled env .asr_supply s
  if ret ≠ 0 then fail_pwr_down_asr env ret s else
  let (ret, s) := regulator_disable_if_enabled env .ioldo_supply s
  if ret ≠ 0 then fail_pwr_down_ioldo env ret s else
  let (ret, s) := regulator_disable_if_enabled env .sdldo_supply s
  if ret ≠ 0 then fail_pwr_down_sdldo ret s else
  (0, { s with mnh_pwr := { s.mnh_pwr with state := .MNH_PWR_S4 } })

/-- The label `fail_pwr_suspend_regulators` of `mnh_pwr_suspend`. -/
def fail_pwr_suspend_regulators (env : Env) (ret : Int) (s : Sys) : Int × Sys :=
  let s := disable_if_enabled env .sdsr_supply s
  let s := disable_if_enabled env .asr_supply s
  let s := disable_if_enabled env .ioldo_supply s
  let s := disable_if_enabled env .sdldo_supply s
  (ret, { s with mnh_pwr := { s.mnh_pwr with state := .MNH_PWR_S4 } })

/-- The label `fail_pwr_suspend_pcie` of `mnh_pwr_suspend`. -/
def fail_pwr_suspend_pcie (env : Env) (ret : Int) (s : Sys) : Int × Sys :=
  let s := hw_void (.gpiod_set_value_cansleep 0) s
  let s := disable_sleep_clk s
  let s := disable_ref_clk s
  fail_pwr_suspend_regulators env ret s

/-- The function `mnh_pwr_suspend` (mnh-pwr.c, lines 492-568). -/
def mnh_pwr_suspend (env : Env) (s : Sys) : Int × Sys :=
  let (ret, s) :=
    if env.boot_mode s.trace = .MNH_BOOT_MODE_PCIE then
      -- suspend pcie link
      mnh_pwr_pcie_suspend env s
    else
      -- assert reset
      (0, hw_void (.msm_pcie_set_reset MNH_PCIE_RC_INDEX true) s)
  if ret ≠ 0 then fail_pwr_suspend_pcie env ret s else
  -- deassert soc_pwr_good
  let s := hw_void (.gpiod_set_value_cansleep 0) s
  -- disable clocks
  let s := disable_ref_clk s
  let s := disable_sleep_clk s
  -- disable core supplies
  let (ret, s) := hw_call env (.regulator_disable .asr_supply) s
  if ret ≠ 0 then fail_pwr_suspend_regulators env ret s else
  -- the result of this disable is dropped: the test below reads the old `ret`
  let (_, s) := hw_call env (.regulator_disable .ioldo_supply) s
  if ret ≠ 0 then fail_pwr_suspend_regulators env ret s else
  (0, { s with mnh_pwr := { s.mnh_pwr with state := .MNH_PWR_S3 } })

/-- The function `mnh_pwr_partial` (mnh-pwr.c, lines 570-595). -/
def mnh_pwr_partial (env : Env) (s : Sys) : Int × Sys :=
  -- disable DRAM core supply
  let (_, s) := regulator_disable_if_enabled env .sdsr_supply s
  -- disable DRAM I/O supply
  let (_, s) := regulator_disable_if_enabled env .sdldo_supply s
  (0, { s with mnh_pwr := { s.mnh_pwr with state := .MNH_PWR_S1 } })

/-- The labels `fail_pwr_up_ref_clk` and `fail_pwr_up_regulators` of `mnh_pwr_up`. -/
def fail_pwr_up_regulators (env : Env) (ret : Int) (s : Sys) : Int × Sys :=
  let s := disable_if_enabled env .sdsr_supply s
  let s := disable_if_enabled env .asr_supply s
  let s := disable_if_enabled env .ioldo_supply s
  let s := disable_if_enabled env .sdldo_supply s
  (ret, { s with mnh_pwr := { s.mnh_pwr with state := .MNH_PWR_S4 } })

/-- The label `fail_pwr_up_sleep_clk` of `mnh_pwr_up`. -/
def fail_pwr_up_sleep_clk (env : Env) (ret : Int) (s : Sys) : Int × Sys :=
  let s := disable_ref_clk s
  fail_pwr_up_regulators env ret s

/-- The label `fail_pwr_up_pcie` of `mnh_pwr_up`. -/
def fail_pwr_up_pcie (env : Env) (ret : Int) (s : Sys) : Int × Sys :=
  let s := hw_void (.gpiod_set_value_cansleep 0) s
  let s := disable_sleep_clk s
  fail_pwr_up_sleep_clk env ret s

/-- The function `mnh_pwr_up` (mnh-pwr.c, lines 597-712). -/
def mnh_pwr_up (env : Env) (next_state : mnh_pwr_state) (s : Sys) : Int × Sys :=
  -- enable supplies: sdldo -> ioldo -> asr -> sdsr
  let (ret, s) := regulator_enable_from_S4 env .sdldo_supply s
  if ret ≠ 0 then fail_pwr_up_regulators env ret s else
  let (ret, s) := hw_call env (.regulator_enable .ioldo_supply) s
  if ret ≠ 0 then fail_pwr_up_regulators env ret s else
  let (ret, s) := hw_call env (.regulator_enable .asr_supply) s
  if ret ≠ 0 then fail_pwr_up_regulators env ret s else
  let (ret, s) := regulator_enable_from_S4 env .sdsr_supply s
  if ret ≠ 0 then fail_pwr_up_regulators env ret s else
  -- turn on clocks
  let (ret, s) := enable_ref_clk env s
  if ret ≠ 0 then fail_pwr_up_regulators env ret s else
  let (ret, s) := enable_sleep_clk env s
  if ret ≠ 0 then fail_pwr_up_sleep_clk env ret s else
  -- assert soc_pwr_good
  let s := hw_void (.gpiod_set_value_cansleep 1) s
  -- give the PLLs some time to initialize
  let s := hw_void (.udelay 60) s
  let (ret, s) :=
    if env.boot_mode s.trace = .MNH_BOOT_MODE_PCIE then
      -- resume pcie link
      mnh_pwr_pcie_resume env s
    else
      -- deassert reset
      (0, hw_void (.msm_pcie_set_reset MNH_PCIE_RC_INDEX false) s)
  if ret ≠ 0 then fail_pwr_up_pcie env ret s else
  (0, { s with mnh_pwr := { s.mnh_pwr with state := next_state } })

/-! ## Public interface -/

/-- The function `mnh_pwr_get_state` (mnh-pwr.c, lines 875-885). -/
def mnh_pwr_get_state (s : Sys) : mnh_pwr_state :=
  s.mnh_pwr.state

/-- The function `mnh_pwr_set_state` (mnh-pwr.c, lines 827-873).  The state read
into `curr_state` before the lock is taken is only logged. -/
def mnh_pwr_set_state (env : Env) (system_state : mnh_pwr_state) (s : Sys) : Int × Sys :=
  if system_state ≠ s.mnh_pwr.state then
    match system_state with
    | .MNH_PWR_S0 => mnh_pwr_up env system_state s
    | .MNH_PWR_S1 => mnh_pwr_partial env s
    | .MNH_PWR_S3 => mnh_pwr_suspend env s
    | .MNH_PWR_S4 => mnh_pwr_down env s
    | .other _ => (-EINVAL, s)
  else
    (0, s)

/-! ## Fault notifications and the emergency shutdown -/

/-- The value REGULATOR_EVENT_FAIL of linux/regulator/consumer.h. -/
def REGULATOR_EVENT_FAIL : Nat := 0x08

/-- The call `schedule_work(&mnh_pwr->shutdown_work)`: it sets the pending bit of
the work item and changes nothing when the bit is already set. -/
def schedule_work (s : Sys) : Sys :=
  { s with mnh_pwr := { s.mnh_pwr with shutdown_work := true } }

/-- The work function `mnh_pwr_shutdown_work` (mnh-pwr.c, lines 79-85). -/
def mnh_pwr_shutdown_work (env : Env) (s : Sys) : Sys :=
  let (_, s) := mnh_pwr_set_state env .MNH_PWR_S4 s
  hw_void .mnh_sm_pwr_error_cb s

/-- The notifier `mnh_pwr_asr_notifier_cb` (mnh-pwr.c, lines 87-105). -/
def mnh_pwr_asr_notifier_cb (event : Nat) (s : Sys) : Int × Sys :=
  let s := { s with mnh_pwr := { s.mnh_pwr with pcie_failure := true } }
  -- force emergency shutdown if regulator output has failed
  let s :=
    if event = REGULATOR_EVENT_FAIL then
      if s.mnh_pwr.state ≠ .MNH_PWR_S4 then schedule_work s else s
    else s
  (0, s)

/-- The notifier `mnh_pwr_sdsr_notifier_cb` (mnh-pwr.c, lines 107-125). -/
def mnh_pwr_sdsr_notifier_cb (event : Nat) (s : Sys) : Int × Sys :=
  let s := { s with mnh_pwr := { s.mnh_pwr with pcie_failure := true } }
  -- force emergency shutdown if regulator output has failed
  let s :=
    if event = REGULATOR_EVENT_FAIL then
      if s.mnh_pwr.state ≠ .MNH_PWR_S4 then schedule_work s else s
    else s
  (0, s)

/-- The notifier `mnh_pwr_ioldo_notifier_cb` (mnh-pwr.c, lines 127-145). -/
def mnh_pwr_ioldo_notifier_cb (event : Nat) (s : Sys) : Int × Sys :=
  let s := { s with mnh_pwr := { s.mnh_pwr with pcie_failure := true } }
  -- force emergency shutdown if regulator output has failed
  let s :=
    if event = REGULATOR_EVENT_FAIL then
      if s.mnh_pwr.state ≠ .MNH_PWR_S4 then schedule_work s else s
    else s
  (0, s)

/-- The notifier `mnh_pwr_sdldo_notifier_cb` (mnh-pwr.c, lines 147-165). -/
def mnh_pwr_sdldo_notifier_cb (event : Nat) (s : Sys) : Int × Sys :=
  let s := { s with mnh_pwr := { s.mnh_pwr with pcie_failure := true } }
  -- force emergency shutdown if regulator output has failed
  let s :=
    if event = REGULATOR_EVENT_FAIL then
      if s.mnh_pwr.state ≠ .MNH_PWR_S4 then schedule_work s else s
    else s
  (0, s)

/-- The callback `mnh_pwr_pcie_link_state_cb` (mnh-pwr.c, lines 167-188). -/
def mnh_pwr_pcie_link_state_cb (event : msm_pcie_event) (s : Sys) : Sys :=
  match event with
  | .MSM_PCIE_EVENT_LINKDOWN =>
    let s := { s with mnh_pwr := { s.mnh_pwr with pcie_failure := true } }
    -- force emergency shutdown
    schedule_work s
  | _ => s

/-! ## Specification vocabulary -/

/-- The calls one rail contributes to a shutdown sweep after history `t`: the
query, followed by a disable exactly when the query reports the rail enabled. -/
def sweep_rail (env : Env) (r : regulator) (t : List Call) : List Call :=
  if env.ret t (.regulator_is_enabled r) ≠ 0 then
    t ++ [.regulator_is_enabled r, .regulator_disable r]
  else
    t ++ [.regulator_is_enabled r]

/-- The shutdown sweep over the four rails in the order sdsr, asr, ioldo, sdldo. -/
def rail_sweep (env : Env) (t : List Call) : List Call :=
  sweep_rail env .sdldo_supply (sweep_rail env .ioldo_supply
    (sweep_rail env .asr_supply (sweep_rail env .sdsr_supply t)))

/-- The clock disables issued for the device record `d`: one for each clock whose
flag is set, the sleep clock first when `sleep_first` holds and the reference
clock first otherwise. -/
def clk_off_calls (d : mnh_pwr_data) (sleep_first : Bool) : List Call :=
  let r := if d.ref_clk_enabled then [Call.clk_disable_unprepare .ref_clk] else []
  let sl := if d.sleep_clk_enabled then [Call.clk_disable_unprepare .sleep_clk] else []
  if sleep_first then sl ++ r else r ++ sl

/-- The level last written to the power-good pin in a history of calls. -/
def pin_level (t : List Call) : Option Nat :=
  t.foldl (fun acc c => match c with
    | .gpiod_set_value_cansleep v => some v
    | _ => acc) none

/-- How a transition towards `n` ends: success in state `n`, or an error in S4. -/
def Outcome (n : mnh_pwr_state) (r : Int × Sys) : Prop :=
  (r.1 = 0 ∧ r.2.mnh_pwr.state = n) ∨ (r.1 ≠ 0 ∧ r.2.mnh_pwr.state = .MNH_PWR_S4)

/-- What a link procedure leaves alone: the clock flags, the power state, and the
calls already made. -/
def LinkFrame (s s' : Sys) : Prop :=
  s'.mnh_pwr.ref_clk_enabled = s.mnh_pwr.ref_clk_enabled ∧
  s'.mnh_pwr.sleep_clk_enabled = s.mnh_pwr.sleep_clk_enabled ∧
  s'.mnh_pwr.state = s.mnh_pwr.state ∧
  s.trace <+: s'.trace

/-- The `pci_get_device` calls of the device lookup of `mnh_pwr_pcie_enumerate`
over the matching devices `devs`: one call per device up to and including the
first device in our domain, and a last call that returns NULL when there is none. -/
def pci_lookup_calls (start : Option pci_dev) : List pci_dev → List Call
  | [] => [.pci_get_device MNH_PCIE_VENDOR_ID MNH_PCIE_DEVICE_ID start]
  | d :: rest =>
    .pci_get_device MNH_PCIE_VENDOR_ID MNH_PCIE_DEVICE_ID start ::
      (if d.domain_nr = (MNH_PCIE_RC_INDEX : Int) then [] else pci_lookup_calls (some d) rest)

/-- The device the lookup ends with: the first matching device in our domain. -/
def mnh_device (devs : List pci_dev) : Option pci_dev :=
  devs.find? (fun d => decide (d.domain_nr = (MNH_PCIE_RC_INDEX : Int)))

/-- The shutdown unwind of a failed transition from `s` to `s'`: the state is
forced to S4, a clock flag is set only if it was set before the call, the pin
was last written high only if that was so before the call, and the history ends
with the rail sweep. -/
def Unwound (env : Env) (s s' : Sys) : Prop :=
  s'.mnh_pwr.state = .MNH_PWR_S4 ∧
  (s'.mnh_pwr.ref_clk_enabled = true → s.mnh_pwr.ref_clk_enabled = true) ∧
  (s'.mnh_pwr.sleep_clk_enabled = true → s.mnh_pwr.sleep_clk_enabled = true) ∧
  (pin_level s'.trace = some 1 → pin_level s.trace = some 1) ∧
  ∃ t, s.trace <+: t ∧ s'.trace = rail_sweep env t

/-- The state a failed transition towards S3 or S4 is left in: S4 with both
clock flags false, the pin last written low and the history ending with the
rail sweep. -/
def ShutDown (env : Env) (s s' : Sys) : Prop :=
  s'.mnh_pwr.state = .MNH_PWR_S4 ∧
  s'.mnh_pwr.ref_clk_enabled = false ∧
  s'.mnh_pwr.sleep_clk_enabled = false ∧
  pin_level s'.trace = some 0 ∧
  ∃ t, s.trace <+: t ∧ s'.trace = rail_sweep env t

/-- The history of `a` extends the history of `s` by calls that do not write the
power-good pin. -/
def Grown (s a : Sys) : Prop :=
  ∃ l, a.trace = s.trace ++ l ∧ ∀ c ∈ l, ∀ w, c ≠ Call.gpiod_set_value_cansleep w

/-- A result that, when it is an error, satisfies `P`. -/
def FailsInto (P : Sys → Prop) (r : Int × Sys) : Prop :=
  r.1 ≠ 0 → P r.2

/-! ## Runs of the sequencer -/

/-- The notifier that `mnh_pwr_get_resources` registers on the rail `r`. -/
def regulator_notifier_cb (r : regulator) (event : Nat) (s : Sys) : Int × Sys :=
  match r with
  | .asr_supply => mnh_pwr_asr_notifier_cb event s
  | .sdsr_supply => mnh_pwr_sdsr_notifier_cb event s
  | .ioldo_supply => mnh_pwr_ioldo_notifier_cb event s
  | .sdldo_supply => mnh_pwr_sdldo_notifier_cb event s

/-- The delivery of one failure event on each rail of the list `rs`, in order. -/
def deliver_faults (rs : List regulator) (s : Sys) : Sys :=
  rs.foldl (fun a r => (regulator_notifier_cb r REGULATOR_EVENT_FAIL a).2) s

/-- What can happen to the sequencer: a caller requests a state, a regulator or
the link delivers a notification, or the pending emergency task runs. -/
inductive Event where
  | set_state (target : mnh_pwr_state)
  | regulator_event (r : regulator) (event : Nat)
  | link_event (event : msm_pcie_event)
  | shutdown_work
  deriving DecidableEq, Repr

/-- The state after one event. -/
def deliver (env : Env) (s : Sys) : Event → Sys
  | .set_state target => (mnh_pwr_set_state env target s).2
  | .regulator_event r event => (regulator_notifier_cb r event s).2
  | .link_event event => mnh_pwr_pcie_link_state_cb event s
  | .shutdown_work => mnh_pwr_shutdown_work env s

/-- The state after a sequence of events. -/
def run (env : Env) (s : Sys) (evs : List Event) : Sys :=
  evs.foldl (deliver env) s

/-- The calls the sequencer issues other than the rail enables, the clock calls
and the power-error callback: the rail queries and disables, the pin write, the
delay and the link calls. -/
def Call.plain : Call → Bool
  | .regulator_enable _ => false
  | .clk_prepare_enable _ => false
  | .clk_disable_unprepare _ => false
  | .mnh_sm_pwr_error_cb => false
  | _ => true

/-- A relation between states of the sequencer that every elementary step of a
transition other than a rail enable respects: it is reflexive and transitive,
and it relates a state to the state after a plain call, after an update of the
device record that leaves the clock flags alone, and after each guarded clock
block. -/
structure StepClosed (env : Env) (R : Sys → Sys → Prop) : Prop where
  refl : ∀ a, R a a
  trans : ∀ a b c, R a b → R b c → R a c
  call : ∀ a c, c.plain = true → R a ⟨a.mnh_pwr, a.trace ++ [c]⟩
  update : ∀ a d, d.ref_clk_enabled = a.mnh_pwr.ref_clk_enabled →
    d.sleep_clk_enabled = a.mnh_pwr.sleep_clk_enabled → R a ⟨d, a.trace⟩
  ref_on : ∀ a, R a (enable_ref_clk env a).2
  sleep_on : ∀ a, R a (enable_sleep_clk env a).2
  ref_off : ∀ a, R a (disable_ref_clk a)
  sleep_off : ∀ a, R a (disable_sleep_clk a)

/-- The history of `a` extends the history of `s` by calls that satisfy `p`. -/
def AddsOnly (p : Call → Bool) (s a : Sys) : Prop :=
  ∃ l, a.trace = s.trace ++ l ∧ ∀ c ∈ l, p c = true

/-- A relation between states of the sequencer that a rail enable respects. -/
def EnableClosed (R : Sys → Sys → Prop) : Prop :=
  ∀ (a : Sys) (r : regulator), R a ⟨a.mnh_pwr, a.trace ++ [Call.regulator_enable r]⟩

/-- Whether a call is a rail enable. -/
def Call.is_enable : Call → Bool
  | .regulator_enable _ => true
  | _ => false

/-- Whether a call is the power-error callback. -/
def Call.is_error_cb : Call → Bool
  | .mnh_sm_pwr_error_cb => true
  | _ => false

/-! ## Clocks and rails as the hardware sees them -/

/-- One step of the replay of a history for the clock `c`.  The accumulator holds
the history replayed so far, whether the clock is running, and whether so far no
enable was issued for a running clock and no disable for a stopped one.  An
enable that returns 0 starts the clock, an enable that fails leaves it as it was,
a disable stops it. -/
def clk_step (env : Env) (c : clk) (acc : List Call × Bool × Bool) (x : Call) :
    List Call × Bool × Bool :=
  match x with
  | .clk_prepare_enable c' =>
    if c' = c then
      (acc.1 ++ [x], (if env.ret acc.1 x = 0 then true else acc.2.1), acc.2.2 && !acc.2.1)
    else (acc.1 ++ [x], acc.2)
  | .clk_disable_unprepare c' =>
    if c' = c then (acc.1 ++ [x], false, acc.2.2 && acc.2.1)
    else (acc.1 ++ [x], acc.2)
  | _ => (acc.1 ++ [x], acc.2)

/-- The replay of a whole history for the clock `c`, from a stopped clock. -/
def clk_replay (env : Env) (c : clk) (t : List Call) : List Call × Bool × Bool :=
  t.foldl (clk_step env c) ([], false, true)

/-- Whether the clock `c` is running after the history `t`. -/
def clk_running (env : Env) (c : clk) (t : List Call) : Bool :=
  (clk_replay env c t).2.1

/-- Whether the history `t` holds no enable of the clock `c` issued while it was
running and no disable issued while it was stopped. -/
def clk_no_duplicate (env : Env) (c : clk) (t : List Call) : Bool :=
  (clk_replay env c t).2.2

/-- The clock invariant: each software flag equals the state of its clock, and
the history holds no duplicate enable or disable of either clock. -/
def ClocksTracked (env : Env) (s : Sys) : Prop :=
  clk_replay env .ref_clk s.trace = (s.trace, s.mnh_pwr.ref_clk_enabled, true) ∧
  clk_replay env .sleep_clk s.trace = (s.trace, s.mnh_pwr.sleep_clk_enabled, true)

/-- The step from `s` to `a` keeps the clock invariant. -/
def ClkStep (env : Env) (s a : Sys) : Prop :=
  ClocksTracked env s → ClocksTracked env a

/-- Whether the rail `r` is enabled after the history `t`, when every enable and
every disable succeeds: the last enable or disable of the rail decides, and the
rail is off when there is none. -/
def rail_on (r : regulator) (t : List Call) : Bool :=
  t.foldl (fun b c =>
    match c with
    | .regulator_enable r' => if r' = r then true else b
    | .regulator_disable r' => if r' = r then false else b
    | _ => b) false

/-! ## The steps of a power-up before the link -/

/-- Whether each call of the list `l`, issued in order after the history `t`,
returns 0. -/
def all_succeed (env : Env) : List Call → List Call → Bool
  | _, [] => true
  | t, c :: l => decide (env.ret t c = 0) && all_succeed env (t ++ [c]) l

/-- The rail enables of a power-up from the state `st`, in the order of
`mnh_pwr_up`: the sdldo and sdsr rails are enabled only from S4. -/
def up_rail_calls (st : mnh_pwr_state) : List Call :=
  if st = .MNH_PWR_S4 then
    [.regulator_enable .sdldo_supply, .regulator_enable .ioldo_supply,
      .regulator_enable .asr_supply, .regulator_enable .sdsr_supply]
  else
    [.regulator_enable .ioldo_supply, .regulator_enable .asr_supply]

/-- The clock enables of a power-up for the device record `d`: one for each clock
whose flag is not set, the reference clock first. -/
def up_clk_calls (d : mnh_pwr_data) : List Call :=
  (if d.ref_clk_enabled then [] else [Call.clk_prepare_enable .ref_clk]) ++
  (if d.sleep_clk_enabled then [] else [Call.clk_prepare_enable .sleep_clk])

/-- The rail and clock enables of a power-up for the device record `d`. -/
def up_enable_calls (d : mnh_pwr_data) : List Call :=
  up_rail_calls d.state ++ up_clk_calls d

/-- The state in which a power-up from `s` reaches its link step when every
enable succeeds: both clock flags are set and the history holds the enables, the
pin write and the delay. -/
def up_before_link (s : Sys) : Sys :=
  ⟨{ s.mnh_pwr with ref_clk_enabled := true, sleep_clk_enabled := true },
    s.trace ++ up_enable_calls s.mnh_pwr ++ [.gpiod_set_value_cansleep 1, .udelay 60]⟩

/-- A sub-step of the link bring-up started in the state `b` fails.  On the first
bring-up (no device recorded): the bus enumeration returns a negative value, or
the lookup finds no device in our domain, or saving the state of the device
found returns an error.  On a later bring-up: the resume control, the return
from sleep, the load of the saved state or the resume of the driver returns an
error.  Each call is taken at the history at which the bring-up issues it when
the sub-steps before it succeed. -/
def LinkStepFails (env : Env) (b : Sys) : Prop :=
  match b.mnh_pwr.pcidev with
  | none =>
    env.ret b.trace (.msm_pcie_enumerate MNH_PCIE_RC_INDEX) < 0 ∨
    mnh_device (env.pci_devices (b.trace ++ [.msm_pcie_enumerate MNH_PCIE_RC_INDEX])) = none ∨
    ∃ dev,
      mnh_device (env.pci_devices (b.trace ++ [.msm_pcie_enumerate MNH_PCIE_RC_INDEX])) =
        some dev ∧
      env.ret (b.trace ++ [.msm_pcie_enumerate MNH_PCIE_RC_INDEX] ++
        pci_lookup_calls none
          (env.pci_devices (b.trace ++ [.msm_pcie_enumerate MNH_PCIE_RC_INDEX])))
        (.pci_save_state dev) ≠ 0
  | some pcidev =>
    env.ret b.trace
      (.msm_pcie_pm_control .MSM_PCIE_RESUME pcidev.bus_number pcidev PM_OPT_RESUME) ≠ 0 ∨
    env.ret (b.trace ++
      [.msm_pcie_pm_control .MSM_PCIE_RESUME pcidev.bus_number pcidev PM_OPT_RESUME])
      (.pci_back_from_sleep pcidev) ≠ 0 ∨
    env.ret (b.trace ++
      [.msm_pcie_pm_control .MSM_PCIE_RESUME pcidev.bus_number pcidev PM_OPT_RESUME,
        .pci_back_from_sleep pcidev])
      (.pci_load_saved_state pcidev b.mnh_pwr.pristine_state) ≠ 0 ∨
    env.ret (b.trace ++
      [.msm_pcie_pm_control .MSM_PCIE_RESUME pcidev.bus_number pcidev PM_OPT_RESUME,
        .pci_back_from_sleep pcidev,
        .pci_load_saved_state pcidev b.mnh_pwr.pristine_state,
        .pci_restore_state pcidev])
      (.mnh_pci_resume pcidev) ≠ 0

/-! ## The link session -/

/-- The value REGULATOR_EVENT_DISABLE of linux/regulator/consumer.h, the event a
rail delivers when it is switched off. -/
def REGULATOR_EVENT_DISABLE : Nat := 0x80

/-- The link calls: the calls into the PCIe platform driver, the PCI core and
the MNH PCIe driver. -/
def Call.link : Call → Bool
  | .msm_pcie_set_reset _ _ => true
  | .msm_pcie_enumerate _ => true
  | .pci_get_device _ _ _ => true
  | .pci_save_state _ => true
  | .pci_store_saved_state _ => true
  | .pci_dev_put _ => true
  | .msm_pcie_register_event _ => true
  | .msm_pcie_pm_control _ _ _ _ => true
  | .mnh_pci_suspend _ => true
  | .mnh_pci_resume _ => true
  | .pci_prepare_to_sleep _ => true
  | .pci_back_from_sleep _ => true
  | .pci_load_saved_state _ _ => true
  | .pci_restore_state _ => true
  | _ => false

/-- Whether a call is the bus enumeration `msm_pcie_enumerate`. -/
def Call.is_enumerate : Call → Bool
  | .msm_pcie_enumerate _ => true
  | _ => false

/-- A relation between states of the sequencer that every step of the sequencer
respects once the first enumeration is set apart: it is reflexive and
transitive, and it relates a state to the state after any call other than the
bus enumeration, after an update of the device record that leaves the recorded
link device and its saved state alone, and after `mnh_pwr_pcie_enumerate` run
while no device is recorded. -/
structure SessionClosed (env : Env) (R : Sys → Sys → Prop) : Prop where
  refl : ∀ a, R a a
  trans : ∀ a b c, R a b → R b c → R a c
  call : ∀ a c, c.is_enumerate = false → R a ⟨a.mnh_pwr, a.trace ++ [c]⟩
  update : ∀ a d, d.pcidev = a.mnh_pwr.pcidev →
    d.pristine_state = a.mnh_pwr.pristine_state → R a ⟨d, a.trace⟩
  first : ∀ a, a.mnh_pwr.pcidev = none → R a (mnh_pwr_pcie_enumerate env a).2

/-- The link session of `s` is kept in `a`: the recorded device and the saved
pristine state are the same, and the history of `a` extends that of `s` by calls
none of which is the bus enumeration. -/
def SessionKept (s a : Sys) : Prop :=
  a.mnh_pwr.pcidev = s.mnh_pwr.pcidev ∧
  a.mnh_pwr.pristine_state = s.mnh_pwr.pristine_state ∧
  AddsOnly (fun c => !c.is_enumerate) s a

/-- A recorded link device comes with a stored pristine state. -/
def DeviceHasState (s : Sys) : Prop :=
  s.mnh_pwr.pcidev ≠ none → s.mnh_pwr.pristine_state ≠ none

/-- The step from `s` to `a` keeps the link session when there is one, and keeps
the invariant that a recorded device comes with a stored pristine state. -/
def SessionStep (s a : Sys) : Prop :=
  (s.mnh_pwr.pcidev ≠ none → SessionKept s a) ∧ (DeviceHasState s → DeviceHasState a)

/-- At full power both clock flags are set and the power-good pin was last
written high. -/
def PoweredInS0 (s : Sys) : Prop :=
  s.mnh_pwr.state = .MNH_PWR_S0 →
    s.mnh_pwr.ref_clk_enabled = true ∧ s.mnh_pwr.sleep_clk_enabled = true ∧
      pin_level s.trace = some 1

/-! ## Concrete collaborators and device records -/

/-- The MNH endpoint as found on bus 1 of root complex 0. -/
def mnh_dev : pci_dev := ⟨0, 1, 0⟩

/-- Collaborators under which every call succeeds: every fallible call returns 0,
every rail is reported enabled, the boot mode is PCIe, the device lookup finds
`mnh_dev` and the saved state can be stored. -/
def env_ok : Env where
  ret := fun _ c =>
    match c with
    | .regulator_is_enabled _ => 1
    | _ => 0
  boot_mode := fun _ => .MNH_BOOT_MODE_PCIE
  pci_devices := fun _ => [mnh_dev]
  saved_state := fun _ => some 1

/-- The collaborators of `env_ok`, except that the call `c` returns `e`. -/
def env_fail (c : Call) (e : Int) : Env where
  ret := fun t c' => if c' = c then e else env_ok.ret t c'
  boot_mode := env_ok.boot_mode
  pci_devices := env_ok.pci_devices
  saved_state := env_ok.saved_state

/-- The collaborators of `env_fail c e` in SPI boot mode. -/
def env_fail_spi (c : Call) (e : Int) : Env where
  ret := (env_fail c e).ret
  boot_mode := fun _ => .MNH_BOOT_MODE_SPI
  pci_devices := env_ok.pci_devices
  saved_state := env_ok.saved_state

/-- The device record after `devm_kzalloc` and `state = MNH_PWR_S4`, with an
empty history. -/
def sys_init : Sys :=
  ⟨⟨false, false, none, none, ⟨[], none⟩, false, false, .MNH_PWR_S4⟩, []⟩

/-- The device record of a module at full power whose link has been enumerated,
with an empty history. -/
def sys_S0 : Sys :=
  ⟨⟨true, true, some mnh_dev, some 1, ⟨[.MSM_PCIE_EVENT_LINKDOWN], some mnh_dev⟩, false, false,
    .MNH_PWR_S0⟩, []⟩

/-- The collaborators of `env_ok`, except that the call `c` returns `e` once the
history holds at least `n` calls. -/
def env_fail_from (n : Nat) (c : Call) (e : Int) : Env where
  ret := fun t c' => if c' = c ∧ n ≤ t.length then e else env_ok.ret t c'
  boot_mode := env_ok.boot_mode
  pci_devices := env_ok.pci_devices
  saved_state := env_ok.saved_state

/-- Collaborators under which every call succeeds and the rails are booleans:
`regulator_is_enabled` reports whether the rail is enabled after the calls made
so far, every other call returns 0, the boot mode is PCIe, the device lookup
finds `mnh_dev` and the saved state can be stored. -/
def env_rails : Env where
  ret := fun t c =>
    match c with
    | .regulator_is_enabled r => if rail_on r t then 1 else 0
    | _ => 0
  boot_mode := fun _ => .MNH_BOOT_MODE_PCIE
  pci_devices := fun _ => [mnh_dev]
  saved_state := fun _ => some 1

/-- The collaborators of `env_ok`, except that `pci_store_saved_state` returns
NULL. -/
def env_store_fails : Env where
  ret := env_ok.ret
  boot_mode := env_ok.boot_mode
  pci_devices := env_ok.pci_devices
  saved_state := fun _ => none

/-- The collaborators of `env_rails`, except that the call `c` returns `e`. -/
def env_rails_fail (c : Call) (e : Int) : Env where
  ret := fun t c' => if c' = c then e else env_rails.ret t c'
  boot_mode := env_rails.boot_mode
  pci_devices := env_rails.pci_devices
  saved_state := env_rails.saved_state

/-! ## Step lemmas -/

theorem hw_call_fst (env : Env) (c : Call) (s : Sys) :
    (hw_call env c s).1 = env.ret s.trace c := rfl

theorem hw_call_snd (env : Env) (c : Call) (s : Sys) :
    (hw_call env c s).2 = ⟨s.mnh_pwr, s.trace ++ [c]⟩ := rfl

theorem hw_void_eq (c : Call) (s : Sys) :
    hw_void c s = ⟨s.mnh_pwr, s.trace ++ [c]⟩ := rfl

theorem regulator_disable_if_enabled_snd (env : Env) (r : regulator) (s : Sys) :
    (regulator_disable_if_enabled env r s).2 = ⟨s.mnh_pwr, sweep_rail env r s.trace⟩ := by
  unfold regulator_disable_if_enabled sweep_rail hw_call
  by_cases h : env.ret s.trace (.regulator_is_enabled r) = 0 <;> simp [h]

theorem disable_if_enabled_eq (env : Env) (r : regulator) (s : Sys) :
    disable_if_enabled env r s = ⟨s.mnh_pwr, sweep_rail env r s.trace⟩ :=
  regulator_disable_if_enabled_snd env r s

theorem disable_ref_clk_eq (s : Sys) :
    disable_ref_clk s = ⟨{ s.mnh_pwr with ref_clk_enabled := false },
      s.trace ++ (if s.mnh_pwr.ref_clk_enabled then [Call.clk_disable_unprepare .ref_clk]
        else [])⟩ := by
  obtain ⟨⟨r, sl, p, q, e, w, f, st⟩, t⟩ := s
  cases r <;> simp [disable_ref_clk, hw_void]

theorem disable_sleep_clk_eq (s : Sys) :
    disable_sleep_clk s = ⟨{ s.mnh_pwr with sleep_clk_enabled := false },
      s.trace ++ (if s.mnh_pwr.sleep_clk_enabled then [Call.clk_disable_unprepare .sleep_clk]
        else [])⟩ := by
  obtain ⟨⟨r, sl, p, q, e, w, f, st⟩, t⟩ := s
  cases sl <;> simp [disable_sleep_clk, hw_void]

theorem fail_pwr_up_regulators_eq (env : Env) (ret : Int) (s : Sys) :
    fail_pwr_up_regulators env ret s =
      (ret, ⟨{ s.mnh_pwr with state := .MNH_PWR_S4 }, rail_sweep env s.trace⟩) := by
  simp only [fail_pwr_up_regulators, disable_if_enabled_eq, rail_sweep]

theorem fail_pwr_suspend_regulators_eq (env : Env) (ret : Int) (s : Sys) :
    fail_pwr_suspend_regulators env ret s =
      (ret, ⟨{ s.mnh_pwr with state := .MNH_PWR_S4 }, rail_sweep env s.trace⟩) := by
  simp only [fail_pwr_suspend_regulators, disable_if_enabled_eq, rail_sweep]

theorem fail_pwr_down_sdldo_eq (ret : Int) (s : Sys) :
    fail_pwr_down_sdldo ret s = (ret, ⟨{ s.mnh_pwr with state := .MNH_PWR_S4 }, s.trace⟩) := rfl

theorem fail_pwr_down_ioldo_eq (env : Env) (ret : Int) (s : Sys) :
    fail_pwr_down_ioldo env ret s =
      (ret, ⟨{ s.mnh_pwr with state := .MNH_PWR_S4 },
        sweep_rail env .sdldo_supply s.trace⟩) := by
  simp only [fail_pwr_down_ioldo, fail_pwr_down_sdldo, disable_if_enabled_eq]

theorem fail_pwr_down_asr_eq (env : Env) (ret : Int) (s : Sys) :
    fail_pwr_down_asr env ret s =
      (ret, ⟨{ s.mnh_pwr with state := .MNH_PWR_S4 },
        sweep_rail env .sdldo_supply (sweep_rail env .ioldo_supply s.trace)⟩) := by
  simp only [fail_pwr_down_asr, fail_pwr_down_ioldo_eq, disable_if_enabled_eq]

theorem fail_pwr_down_sdsr_eq (env : Env) (ret : Int) (s : Sys) :
    fail_pwr_down_sdsr env ret s =
      (ret, ⟨{ s.mnh_pwr with state := .MNH_PWR_S4 },
        sweep_rail env .sdldo_supply (sweep_rail env .ioldo_supply
          (sweep_rail env .asr_supply s.trace))⟩) := by
  simp only [fail_pwr_down_sdsr, fail_pwr_down_asr_eq, disable_if_enabled_eq]

theorem fail_pwr_down_pcie_eq (env : Env) (ret : Int) (s : Sys) :
    fail_pwr_down_pcie env ret s =
      (ret, ⟨{ s.mnh_pwr with
                ref_clk_enabled := false, sleep_clk_enabled := false, state := .MNH_PWR_S4 },
        rail_sweep env (s.trace ++ [.gpiod_set_value_cansleep 0] ++
          clk_off_calls s.mnh_pwr true)⟩) := by
  simp only [fail_pwr_down_pcie, fail_pwr_down_sdsr_eq, disable_if_enabled_eq,
    disable_ref_clk_eq, disable_sleep_clk_eq, hw_void_eq, rail_sweep, clk_off_calls,
    if_true, List.append_assoc]

theorem mnh_pwr_down_snd (env : Env) (s : Sys) :
    (mnh_pwr_down env s).2 =
      (fun l : Int × Sys =>
        (⟨{ l.2.mnh_pwr with
              ref_clk_enabled := false, sleep_clk_enabled := false, state := .MNH_PWR_S4 },
          rail_sweep env (l.2.trace ++ [Call.gpiod_set_value_cansleep 0] ++
            clk_off_calls l.2.mnh_pwr (decide (l.1 ≠ 0)))⟩ : Sys))
        (if s.mnh_pwr.state ≠ .MNH_PWR_S3 ∧ env.boot_mode s.trace = .MNH_BOOT_MODE_PCIE then
          mnh_pwr_pcie_suspend env s
        else (0, hw_void (.msm_pcie_set_reset MNH_PCIE_RC_INDEX true) s)) := by
  unfold mnh_pwr_down
  generalize (if s.mnh_pwr.state ≠ .MNH_PWR_S3 ∧ env.boot_mode s.trace = .MNH_BOOT_MODE_PCIE then
          mnh_pwr_pcie_suspend env s
        else (0, hw_void (.msm_pcie_set_reset MNH_PCIE_RC_INDEX true) s)) = l
  obtain ⟨ret, s1⟩ := l
  by_cases hr : ret = 0
  · subst hr
    simp only [ne_eq, not_true_eq_false, if_false, decide_False]
    split_ifs <;>
      simp only [fail_pwr_down_sdsr_eq, fail_pwr_down_asr_eq, fail_pwr_down_ioldo_eq,
        fail_pwr_down_sdldo_eq, regulator_disable_if_enabled_snd, disable_ref_clk_eq,
        disable_sleep_clk_eq, hw_void_eq, rail_sweep, clk_off_calls, List.append_assoc] <;> rfl
  · simp only [hr, ne_eq, not_false_eq_true, if_true, fail_pwr_down_pcie_eq, decide_True]

/-! ## Link procedures leave clocks and state alone -/

theorem LinkFrame.frame_refl (s : Sys) : LinkFrame s s :=
  ⟨rfl, rfl, rfl, List.prefix_refl _⟩

theorem LinkFrame.frame_trans {a b c : Sys} (h1 : LinkFrame a b) (h2 : LinkFrame b c) :
    LinkFrame a c :=
  ⟨h2.1.trans h1.1, h2.2.1.trans h1.2.1, h2.2.2.1.trans h1.2.2.1,
    h1.2.2.2.trans h2.2.2.2⟩

theorem LinkFrame.frame_log (s : Sys) (d : mnh_pwr_data) (l : List Call)
    (h1 : d.ref_clk_enabled = s.mnh_pwr.ref_clk_enabled)
    (h2 : d.sleep_clk_enabled = s.mnh_pwr.sleep_clk_enabled)
    (h3 : d.state = s.mnh_pwr.state) : LinkFrame s ⟨d, s.trace ++ l⟩ :=
  ⟨h1, h2, h3, List.prefix_append _ _⟩

theorem pci_get_device_loop_frame (devs : List pci_dev) :
    ∀ (start : Option pci_dev) (s : Sys), LinkFrame s (pci_get_device_loop start devs s).2 := by
  induction devs with
  | nil =>
    intro start s
    exact LinkFrame.frame_log s _ _ rfl rfl rfl
  | cons d rest ih =>
    intro start s
    unfold pci_get_device_loop
    by_cases hd : d.domain_nr = (MNH_PCIE_RC_INDEX : Int)
    · simp only [hd, if_true]
      exact LinkFrame.frame_log s _ _ rfl rfl rfl
    · simp only [hd, if_false]
      exact (LinkFrame.frame_log s _ _ rfl rfl rfl).frame_trans (ih _ _)

theorem mnh_pwr_pcie_suspend_frame (env : Env) (s : Sys) :
    LinkFrame s (mnh_pwr_pcie_suspend env s).2 := by
  unfold mnh_pwr_pcie_suspend
  split
  · exact LinkFrame.frame_refl s
  · split
    · simp only [hw_call]
      split_ifs
      · exact LinkFrame.frame_log s _ _ rfl rfl rfl
      · simp only [List.append_assoc]
        exact LinkFrame.frame_log s _ _ rfl rfl rfl
    · simp only [hw_call]
      split_ifs <;> simp only [List.append_assoc] <;> exact LinkFrame.frame_log s _ _ rfl rfl rfl

theorem mnh_pwr_pcie_enumerate_frame (env : Env) (s : Sys) :
    LinkFrame s (mnh_pwr_pcie_enumerate env s).2 := by
  unfold mnh_pwr_pcie_enumerate
  have h0 : LinkFrame s (hw_call env (.msm_pcie_enumerate MNH_PCIE_RC_INDEX) s).2 :=
    LinkFrame.frame_log s _ _ rfl rfl rfl
  generalize hw_call env (.msm_pcie_enumerate MNH_PCIE_RC_INDEX) s = p at h0 ⊢
  obtain ⟨ret, s1⟩ := p
  simp only
  split_ifs
  · exact h0
  · have h1 := pci_get_device_loop_frame (env.pci_devices s1.trace) none s1
    generalize pci_get_device_loop none (env.pci_devices s1.trace) s1 = q at h1 ⊢
    obtain ⟨found, s2⟩ := q
    simp only
    cases found with
    | none => exact h0.frame_trans h1
    | some pcidev =>
      simp only [hw_call, hw_void]
      split_ifs <;> simp only [List.append_assoc] <;>
        exact (h0.frame_trans h1).frame_trans (LinkFrame.frame_log s2 _ _ rfl rfl rfl)

theorem mnh_pwr_pcie_resume_frame (env : Env) (s : Sys) :
    LinkFrame s (mnh_pwr_pcie_resume env s).2 := by
  unfold mnh_pwr_pcie_resume
  split
  · have h0 := mnh_pwr_pcie_enumerate_frame env s
    generalize mnh_pwr_pcie_enumerate env s = p at h0 ⊢
    obtain ⟨ret, s1⟩ := p
    simp only [hw_call]
    split_ifs
    · exact h0
    · exact h0.frame_trans (LinkFrame.frame_log s1 _ _ rfl rfl rfl)
  · simp only [hw_call, hw_void, fail_pcie_resume_awake, fail_pcie_resume_load_state]
    split_ifs <;> simp only [List.append_assoc] <;> exact LinkFrame.frame_log s _ _ rfl rfl rfl

/-! ## How each transition procedure ends -/

theorem fail_pwr_up_sleep_clk_eq (env : Env) (ret : Int) (s : Sys) :
    fail_pwr_up_sleep_clk env ret s =
      (ret, ⟨{ s.mnh_pwr with ref_clk_enabled := false, state := .MNH_PWR_S4 },
        rail_sweep env (s.trace ++
          (if s.mnh_pwr.ref_clk_enabled then [Call.clk_disable_unprepare .ref_clk] else []))⟩) := by
  simp only [fail_pwr_up_sleep_clk, fail_pwr_up_regulators_eq, disable_ref_clk_eq]

theorem fail_pwr_up_pcie_eq (env : Env) (ret : Int) (s : Sys) :
    fail_pwr_up_pcie env ret s =
      (ret, ⟨{ s.mnh_pwr with
                ref_clk_enabled := false, sleep_clk_enabled := false, state := .MNH_PWR_S4 },
        rail_sweep env (s.trace ++ [.gpiod_set_value_cansleep 0] ++
          clk_off_calls s.mnh_pwr true)⟩) := by
  simp only [fail_pwr_up_pcie, fail_pwr_up_sleep_clk_eq, disable_sleep_clk_eq, hw_void_eq,
    clk_off_calls, if_true, List.append_assoc]

theorem fail_pwr_suspend_pcie_eq (env : Env) (ret : Int) (s : Sys) :
    fail_pwr_suspend_pcie env ret s =
      (ret, ⟨{ s.mnh_pwr with
                ref_clk_enabled := false, sleep_clk_enabled := false, state := .MNH_PWR_S4 },
        rail_sweep env (s.trace ++ [.gpiod_set_value_cansleep 0] ++
          clk_off_calls s.mnh_pwr true)⟩) := by
  simp only [fail_pwr_suspend_pcie, fail_pwr_suspend_regulators_eq, disable_sleep_clk_eq,
    disable_ref_clk_eq, hw_void_eq, clk_off_calls, if_true, List.append_assoc]

theorem mnh_pwr_up_outcome (env : Env) (n : mnh_pwr_state) (s : Sys) :
    Outcome n (mnh_pwr_up env n s) := by
  unfold mnh_pwr_up
  simp only []
  split_ifs
  all_goals first
    | exact Or.inl ⟨rfl, rfl⟩
    | exact Or.inr ⟨by assumption, rfl⟩

theorem mnh_pwr_suspend_outcome (env : Env) (s : Sys) :
    Outcome .MNH_PWR_S3 (mnh_pwr_suspend env s) := by
  unfold mnh_pwr_suspend
  simp only []
  split_ifs
  all_goals first
    | exact Or.inl ⟨rfl, rfl⟩
    | exact Or.inr ⟨by assumption, rfl⟩

theorem mnh_pwr_down_state (env : Env) (s : Sys) :
    (mnh_pwr_down env s).2.mnh_pwr.state = .MNH_PWR_S4 := by
  rw [mnh_pwr_down_snd]

theorem mnh_pwr_partial_eq (env : Env) (s : Sys) :
    mnh_pwr_partial env s =
      (0, ⟨{ s.mnh_pwr with state := .MNH_PWR_S1 },
        sweep_rail env .sdldo_supply (sweep_rail env .sdsr_supply s.trace)⟩) := by
  unfold mnh_pwr_partial
  simp only [regulator_disable_if_enabled_snd]

theorem mnh_pwr_set_state_outcome (env : Env) (target : mnh_pwr_state) (s : Sys)
    (hvalid : ∀ v, target ≠ .other v) (hne : target ≠ s.mnh_pwr.state) :
    Outcome target (mnh_pwr_set_state env target s) := by
  unfold mnh_pwr_set_state
  rw [if_pos hne]
  cases target with
  | MNH_PWR_S0 => exact mnh_pwr_up_outcome env _ s
  | MNH_PWR_S1 =>
    simp only [mnh_pwr_partial_eq]
    exact Or.inl ⟨rfl, rfl⟩
  | MNH_PWR_S3 => exact mnh_pwr_suspend_outcome env s
  | MNH_PWR_S4 =>
    by_cases h : (mnh_pwr_down env s).1 = 0
    · exact Or.inl ⟨h, mnh_pwr_down_state env s⟩
    · exact Or.inr ⟨h, mnh_pwr_down_state env s⟩
  | other v => exact absurd rfl (hvalid v)

theorem pci_get_device_loop_eq (devs : List pci_dev) :
    ∀ (start : Option pci_dev) (s : Sys),
      pci_get_device_loop start devs s =
        (mnh_device devs, ⟨s.mnh_pwr, s.trace ++ pci_lookup_calls start devs⟩) := by
  induction devs with
  | nil =>
    intro start s
    rfl
  | cons d rest ih =>
    intro start s
    unfold pci_get_device_loop pci_lookup_calls mnh_device
    by_cases hd : d.domain_nr = (MNH_PCIE_RC_INDEX : Int)
    · simp [hd, hw_void_eq]
    · simp [hd, hw_void_eq, ih, mnh_device]

theorem pci_lookup_calls_ne_nil (start : Option pci_dev) (devs : List pci_dev) :
    pci_lookup_calls start devs ≠ [] := by
  cases devs <;> simp [pci_lookup_calls]

theorem pci_lookup_calls_mem (devs : List pci_dev) :
    ∀ (start : Option pci_dev), ∀ c ∈ pci_lookup_calls start devs,
      ∃ st, c = Call.pci_get_device MNH_PCIE_VENDOR_ID MNH_PCIE_DEVICE_ID st := by
  induction devs with
  | nil =>
    intro start c hc
    exact ⟨start, by simpa [pci_lookup_calls] using hc⟩
  | cons d rest ih =>
    intro start c hc
    unfold pci_lookup_calls at hc
    rcases List.mem_cons.mp hc with rfl | hc
    · exact ⟨start, rfl⟩
    · split at hc
      · simp at hc
      · exact ih _ c hc

theorem mnh_device_of_mem (devs : List pci_dev)
    (h : ∃ d ∈ devs, d.domain_nr = (MNH_PCIE_RC_INDEX : Int)) :
    ∃ dev, mnh_device devs = some dev := by
  obtain ⟨d, hd, hd0⟩ := h
  cases hf : mnh_device devs with
  | some dev => exact ⟨dev, rfl⟩
  | none =>
    unfold mnh_device at hf
    rw [List.find?_eq_none] at hf
    exact absurd hd0 (by simpa using hf d hd)

/-! ## The pin level and the rail sweep -/

theorem pin_level_append_pin (t l : List Call) (v : Nat)
    (h : ∀ c ∈ l, ∀ w, c ≠ Call.gpiod_set_value_cansleep w) :
    pin_level (t ++ [Call.gpiod_set_value_cansleep v] ++ l) = some v := by
  induction l using List.reverseRecOn with
  | nil => simp [pin_level]
  | append_singleton l c ih =>
    have hl : ∀ c ∈ l, ∀ w, c ≠ Call.gpiod_set_value_cansleep w :=
      fun x hx => h x (List.mem_append_left _ hx)
    have hc : ∀ w, c ≠ Call.gpiod_set_value_cansleep w :=
      h c (List.mem_append_right _ (List.mem_singleton_self c))
    have ih' := ih hl
    unfold pin_level at ih' ⊢
    rw [← List.append_assoc, List.foldl_append, ih']
    cases c <;> first | rfl | exact absurd rfl (hc _)

theorem pin_level_append (t l : List Call)
    (h : ∀ c ∈ l, ∀ w, c ≠ Call.gpiod_set_value_cansleep w) :
    pin_level (t ++ l) = pin_level t := by
  induction l using List.reverseRecOn with
  | nil => simp
  | append_singleton l c ih =>
    have hl : ∀ c ∈ l, ∀ w, c ≠ Call.gpiod_set_value_cansleep w :=
      fun x hx => h x (List.mem_append_left _ hx)
    have hc : ∀ w, c ≠ Call.gpiod_set_value_cansleep w :=
      h c (List.mem_append_right _ (List.mem_singleton_self c))
    have ih' := ih hl
    unfold pin_level at ih' ⊢
    rw [← List.append_assoc, List.foldl_append, ih']
    cases c <;> first | rfl | exact absurd rfl (hc _)

theorem sweep_rail_eq_append (env : Env) (r : regulator) (t : List Call) :
    ∃ l, sweep_rail env r t = t ++ l ∧ ∀ c ∈ l, ∀ w, c ≠ Call.gpiod_set_value_cansleep w := by
  unfold sweep_rail
  split
  · exact ⟨_, rfl, by simp⟩
  · exact ⟨_, rfl, by simp⟩

theorem rail_sweep_eq_append (env : Env) (t : List Call) :
    ∃ l, rail_sweep env t = t ++ l ∧ ∀ c ∈ l, ∀ w, c ≠ Call.gpiod_set_value_cansleep w := by
  unfold rail_sweep
  obtain ⟨l1, h1, p1⟩ := sweep_rail_eq_append env .sdsr_supply t
  obtain ⟨l2, h2, p2⟩ := sweep_rail_eq_append env .asr_supply (t ++ l1)
  obtain ⟨l3, h3, p3⟩ := sweep_rail_eq_append env .ioldo_supply (t ++ l1 ++ l2)
  obtain ⟨l4, h4, p4⟩ := sweep_rail_eq_append env .sdldo_supply (t ++ l1 ++ l2 ++ l3)
  refine ⟨l1 ++ l2 ++ l3 ++ l4, ?_, ?_⟩
  · rw [h1, h2, h3, h4]
    simp only [List.append_assoc]
  · intro c hc
    simp only [List.mem_append] at hc
    rcases hc with ((hc | hc) | hc) | hc
    · exact p1 c hc
    · exact p2 c hc
    · exact p3 c hc
    · exact p4 c hc

theorem pin_level_rail_sweep (env : Env) (t : List Call) :
    pin_level (rail_sweep env t) = pin_level t := by
  obtain ⟨l, h, p⟩ := rail_sweep_eq_append env t
  rw [h, pin_level_append t l p]

theorem clk_off_calls_no_pin (d : mnh_pwr_data) (b : Bool) :
    ∀ c ∈ clk_off_calls d b, ∀ w, c ≠ Call.gpiod_set_value_cansleep w := by
  intro c hc w
  unfold clk_off_calls at hc
  simp only at hc
  split_ifs at hc <;> simp at hc <;> rcases hc with rfl | rfl <;> simp

/-- Every unwind that lowers the pin and does not write it again ends shut down. -/
theorem shut_down_of_pin_low (env : Env) (s a : Sys) (l : List Call) (d : mnh_pwr_data)
    (hpre : s.trace <+: a.trace)
    (hl : ∀ c ∈ l, ∀ w, c ≠ Call.gpiod_set_value_cansleep w)
    (hd1 : d.state = .MNH_PWR_S4) (hd2 : d.ref_clk_enabled = false)
    (hd3 : d.sleep_clk_enabled = false) :
    ShutDown env s ⟨d, rail_sweep env (a.trace ++ [.gpiod_set_value_cansleep 0] ++ l)⟩ := by
  refine ⟨hd1, hd2, hd3, ?_, _, ?_, rfl⟩
  · show pin_level (rail_sweep env _) = some 0
    rw [pin_level_rail_sweep]
    exact pin_level_append_pin _ _ 0 hl
  · rw [List.append_assoc]
    exact hpre.trans (List.prefix_append _ _)

theorem ShutDown.to_unwound {env : Env} {s s' : Sys} (h : ShutDown env s s') :
    Unwound env s s' := by
  obtain ⟨h1, h2, h3, h4, h5⟩ := h
  refine ⟨h1, ?_, ?_, ?_, h5⟩
  · intro h
    rw [h2] at h
    exact absurd h (by decide)
  · intro h
    rw [h3] at h
    exact absurd h (by decide)
  · intro h
    rw [h4] at h
    exact absurd h (by decide)

theorem Grown.grown_refl (s : Sys) : Grown s s :=
  ⟨[], by simp, by simp⟩

theorem Grown.grown_call {s a : Sys} (h : Grown s a) (env : Env) (c : Call)
    (hc : ∀ w, c ≠ Call.gpiod_set_value_cansleep w) : Grown s (hw_call env c a).2 := by
  obtain ⟨l, hl, hp⟩ := h
  refine ⟨l ++ [c], ?_, ?_⟩
  · show a.trace ++ [c] = _
    rw [hl, List.append_assoc]
  · intro x hx
    rcases List.mem_append.mp hx with hx | hx
    · exact hp x hx
    · rw [List.mem_singleton.mp hx]
      exact hc

theorem regulator_enable_from_S4_mnh_pwr (env : Env) (r : regulator) (s : Sys) :
    (regulator_enable_from_S4 env r s).2.mnh_pwr = s.mnh_pwr := by
  unfold regulator_enable_from_S4
  split <;> rfl

theorem Grown.from_S4_step {s a : Sys} (h : Grown s a) (env : Env) (r : regulator) :
    Grown s (regulator_enable_from_S4 env r a).2 := by
  unfold regulator_enable_from_S4
  split
  · exact h.grown_call env _ (fun _ => Call.noConfusion)
  · exact h

theorem enable_ref_clk_mnh_pwr_of_ne (env : Env) (s : Sys) (h : (enable_ref_clk env s).1 ≠ 0) :
    (enable_ref_clk env s).2.mnh_pwr = s.mnh_pwr := by
  unfold enable_ref_clk at h ⊢
  simp only [hw_call] at h ⊢
  split_ifs at h ⊢ <;> first | rfl | exact absurd rfl h

theorem enable_ref_clk_sleep (env : Env) (s : Sys) :
    (enable_ref_clk env s).2.mnh_pwr.sleep_clk_enabled = s.mnh_pwr.sleep_clk_enabled := by
  unfold enable_ref_clk
  simp only [hw_call]
  split_ifs <;> rfl

theorem Grown.ref_clk_step {s a : Sys} (h : Grown s a) (env : Env) :
    Grown s (enable_ref_clk env a).2 := by
  have hc := h.grown_call env (.clk_prepare_enable .ref_clk) (fun _ => Call.noConfusion)
  unfold enable_ref_clk
  simp only [hw_call] at hc ⊢
  split_ifs
  all_goals first
    | exact h
    | exact hc

theorem enable_sleep_clk_mnh_pwr_of_ne (env : Env) (s : Sys)
    (h : (enable_sleep_clk env s).1 ≠ 0) :
    (enable_sleep_clk env s).2.mnh_pwr = s.mnh_pwr := by
  unfold enable_sleep_clk at h ⊢
  simp only [hw_call] at h ⊢
  split_ifs at h ⊢ <;> first | rfl | exact absurd rfl h

theorem Grown.sleep_clk_step {s a : Sys} (h : Grown s a) (env : Env) :
    Grown s (enable_sleep_clk env a).2 := by
  have hc := h.grown_call env (.clk_prepare_enable .sleep_clk) (fun _ => Call.noConfusion)
  unfold enable_sleep_clk
  simp only [hw_call] at hc ⊢
  split_ifs
  all_goals first
    | exact h
    | exact hc

/-- An unwind that only sweeps the rails, and perhaps disables the reference
clock before, after steps that did not write the pin. -/
theorem unwound_of_grown (env : Env) (s a : Sys) (l : List Call) (d : mnh_pwr_data)
    (hg : Grown s a) (hl : ∀ c ∈ l, ∀ w, c ≠ Call.gpiod_set_value_cansleep w)
    (hd1 : d.state = .MNH_PWR_S4)
    (hd2 : d.ref_clk_enabled = true → s.mnh_pwr.ref_clk_enabled = true)
    (hd3 : d.sleep_clk_enabled = true → s.mnh_pwr.sleep_clk_enabled = true) :
    Unwound env s ⟨d, rail_sweep env (a.trace ++ l)⟩ := by
  obtain ⟨m, hm, hp⟩ := hg
  refine ⟨hd1, hd2, hd3, ?_, _, ?_, rfl⟩
  · show pin_level (rail_sweep env _) = some 1 → _
    rw [pin_level_rail_sweep, hm, List.append_assoc, pin_level_append]
    · exact id
    · intro c hc
      rcases List.mem_append.mp hc with hc | hc
      · exact hp c hc
      · exact hl c hc
  · rw [hm, List.append_assoc]
    exact List.prefix_append _ _

/-! ## Failed transitions -/

theorem mnh_pwr_down_shut_down (env : Env) (s : Sys) :
    ShutDown env s (mnh_pwr_down env s).2 := by
  rw [mnh_pwr_down_snd]
  refine shut_down_of_pin_low env s _ _ _ ?_ (clk_off_calls_no_pin _ _) rfl rfl rfl
  split
  · exact (mnh_pwr_pcie_suspend_frame env s).2.2.2
  · exact List.prefix_append _ _

theorem mnh_pwr_suspend_failed (env : Env) (s : Sys) :
    FailsInto (ShutDown env s) (mnh_pwr_suspend env s) := by
  unfold mnh_pwr_suspend
  have hl : s.trace <+: (if env.boot_mode s.trace = .MNH_BOOT_MODE_PCIE then
      mnh_pwr_pcie_suspend env s
    else (0, hw_void (.msm_pcie_set_reset MNH_PCIE_RC_INDEX true) s)).2.trace := by
    split
    · exact (mnh_pwr_pcie_suspend_frame env s).2.2.2
    · exact List.prefix_append _ _
  generalize (if env.boot_mode s.trace = .MNH_BOOT_MODE_PCIE then
      mnh_pwr_pcie_suspend env s
    else (0, hw_void (.msm_pcie_set_reset MNH_PCIE_RC_INDEX true) s)) = l at hl ⊢
  obtain ⟨ret, a⟩ := l
  simp only []
  split_ifs
  · intro _
    rw [fail_pwr_suspend_pcie_eq]
    exact shut_down_of_pin_low env s a _ _ hl (clk_off_calls_no_pin _ _) rfl rfl rfl
  · intro _
    have := shut_down_of_pin_low env s a
      ((if a.mnh_pwr.ref_clk_enabled then [Call.clk_disable_unprepare .ref_clk] else []) ++
        ((if a.mnh_pwr.sleep_clk_enabled then [Call.clk_disable_unprepare .sleep_clk] else [])
          ++ [Call.regulator_disable .asr_supply]))
      { a.mnh_pwr with
        ref_clk_enabled := false, sleep_clk_enabled := false, state := .MNH_PWR_S4 }
      hl (by
        intro c hc w
        simp only [List.mem_append, List.mem_singleton] at hc
        rcases hc with hc | hc | hc
        · split_ifs at hc <;> simp at hc
          subst hc
          exact Call.noConfusion
        · split_ifs at hc <;> simp at hc
          subst hc
          exact Call.noConfusion
        · subst hc
          exact Call.noConfusion) rfl rfl rfl
    simpa only [fail_pwr_suspend_regulators_eq, disable_ref_clk_eq, disable_sleep_clk_eq,
      hw_void_eq, hw_call_snd, List.append_assoc] using this
  · intro h
    exact absurd rfl h

theorem unwound_regulators (env : Env) (s a : Sys) (ret : Int)
    (hg : Grown s a) (hm : a.mnh_pwr = s.mnh_pwr) :
    FailsInto (Unwound env s) (fail_pwr_up_regulators env ret a) := by
  intro _
  rw [fail_pwr_up_regulators_eq]
  have := unwound_of_grown env s a [] { a.mnh_pwr with state := .MNH_PWR_S4 } hg (by simp) rfl
    (by rw [hm]; exact id) (by rw [hm]; exact id)
  simpa only [List.append_nil] using this

theorem unwound_sleep_clk (env : Env) (s a : Sys) (ret : Int)
    (hg : Grown s a)
    (hsl : a.mnh_pwr.sleep_clk_enabled = s.mnh_pwr.sleep_clk_enabled) :
    FailsInto (Unwound env s) (fail_pwr_up_sleep_clk env ret a) := by
  intro _
  rw [fail_pwr_up_sleep_clk_eq]
  refine unwound_of_grown env s a _ _ hg ?_ rfl ?_ ?_
  · intro c hc w
    split_ifs at hc <;> simp at hc
    subst hc
    exact Call.noConfusion
  · intro h
    exact absurd h Bool.false_ne_true
  · intro h
    rw [← hsl]
    exact h

theorem unwound_pcie (env : Env) (s a : Sys) (ret : Int) (hpre : s.trace <+: a.trace) :
    FailsInto (Unwound env s) (fail_pwr_up_pcie env ret a) := by
  intro _
  rw [fail_pwr_up_pcie_eq]
  exact (shut_down_of_pin_low env s a _ _ hpre (clk_off_calls_no_pin _ _) rfl rfl rfl).to_unwound

theorem Grown.trace_le {s a : Sys} (h : Grown s a) : s.trace <+: a.trace := by
  obtain ⟨l, hl, _⟩ := h
  rw [hl]
  exact List.prefix_append _ _

theorem mnh_pwr_up_failed (env : Env) (n : mnh_pwr_state) (s : Sys) :
    FailsInto (Unwound env s) (mnh_pwr_up env n s) := by
  unfold mnh_pwr_up
  simp only []
  have g1 := (Grown.grown_refl s).from_S4_step env .sdldo_supply
  have m1 := regulator_enable_from_S4_mnh_pwr env .sdldo_supply s
  generalize regulator_enable_from_S4 env .sdldo_supply s = e1 at g1 m1 ⊢
  have g2 := g1.grown_call env (.regulator_enable .ioldo_supply) (fun _ => Call.noConfusion)
  have m2 : (hw_call env (.regulator_enable .ioldo_supply) e1.2).2.mnh_pwr = s.mnh_pwr := m1
  generalize hw_call env (.regulator_enable .ioldo_supply) e1.2 = e2 at g2 m2 ⊢
  have g3 := g2.grown_call env (.regulator_enable .asr_supply) (fun _ => Call.noConfusion)
  have m3 : (hw_call env (.regulator_enable .asr_supply) e2.2).2.mnh_pwr = s.mnh_pwr := m2
  generalize hw_call env (.regulator_enable .asr_supply) e2.2 = e3 at g3 m3 ⊢
  have g4 := g3.from_S4_step env .sdsr_supply
  have m4 := (regulator_enable_from_S4_mnh_pwr env .sdsr_supply e3.2).trans m3
  generalize regulator_enable_from_S4 env .sdsr_supply e3.2 = e4 at g4 m4 ⊢
  have g5 := g4.ref_clk_step env
  have m5 : (enable_ref_clk env e4.2).1 ≠ 0 → (enable_ref_clk env e4.2).2.mnh_pwr = s.mnh_pwr :=
    fun h => (enable_ref_clk_mnh_pwr_of_ne env e4.2 h).trans m4
  have sl5 : (enable_ref_clk env e4.2).2.mnh_pwr.sleep_clk_enabled =
      s.mnh_pwr.sleep_clk_enabled := by
    rw [enable_ref_clk_sleep, m4]
  generalize enable_ref_clk env e4.2 = c1 at g5 m5 sl5 ⊢
  have g6 := g5.sleep_clk_step env
  have sl6 : (enable_sleep_clk env c1.2).1 ≠ 0 →
      (enable_sleep_clk env c1.2).2.mnh_pwr.sleep_clk_enabled =
        s.mnh_pwr.sleep_clk_enabled := by
    intro h
    rw [enable_sleep_clk_mnh_pwr_of_ne env c1.2 h, sl5]
  generalize enable_sleep_clk env c1.2 = c2 at g6 sl6 ⊢
  have hlk : c2.2.trace <+:
      (if env.boot_mode (hw_void (.udelay 60)
            (hw_void (.gpiod_set_value_cansleep 1) c2.2)).trace = .MNH_BOOT_MODE_PCIE then
          mnh_pwr_pcie_resume env (hw_void (.udelay 60)
            (hw_void (.gpiod_set_value_cansleep 1) c2.2))
        else
          (0, hw_void (.msm_pcie_set_reset MNH_PCIE_RC_INDEX false)
            (hw_void (.udelay 60) (hw_void (.gpiod_set_value_cansleep 1) c2.2)))).2.trace := by
    have h0 : c2.2.trace <+:
        (hw_void (.udelay 60) (hw_void (.gpiod_set_value_cansleep 1) c2.2)).trace :=
      (List.prefix_append _ _).trans (List.prefix_append _ _)
    split
    · exact h0.trans (mnh_pwr_pcie_resume_frame env _).2.2.2
    · exact h0.trans (List.prefix_append _ _)
  generalize (if env.boot_mode (hw_void (.udelay 60)
            (hw_void (.gpiod_set_value_cansleep 1) c2.2)).trace = .MNH_BOOT_MODE_PCIE then
          mnh_pwr_pcie_resume env (hw_void (.udelay 60)
            (hw_void (.gpiod_set_value_cansleep 1) c2.2))
        else
          (0, hw_void (.msm_pcie_set_reset MNH_PCIE_RC_INDEX false)
            (hw_void (.udelay 60) (hw_void (.gpiod_set_value_cansleep 1) c2.2)))) = lk at hlk ⊢
  split_ifs with h1 h2 h3 h4 h5 h6 h7
  · exact unwound_regulators env s e1.2 _ g1 m1
  · exact unwound_regulators env s e2.2 _ g2 m2
  · exact unwound_regulators env s e3.2 _ g3 m3
  · exact unwound_regulators env s e4.2 _ g4 m4
  · exact unwound_regulators env s c1.2 _ g5 (m5 h5)
  · exact unwound_sleep_clk env s c2.2 _ g6 (sl6 h6)
  · exact unwound_pcie env s _ _ (g6.trace_le.trans hlk)
  · intro h
    exact absurd rfl h

theorem mnh_pwr_set_state_same (env : Env) (s : Sys) :
    mnh_pwr_set_state env s.mnh_pwr.state s = (0, s) := by
  simp [mnh_pwr_set_state]

/-- The state field only ever holds one of the four enumerators. -/
theorem mnh_pwr_set_state_keeps_enumerator (env : Env) (target : mnh_pwr_state) (s : Sys)
    (h : ∀ v, s.mnh_pwr.state ≠ .other v) :
    ∀ v, (mnh_pwr_set_state env target s).2.mnh_pwr.state ≠ .other v := by
  intro v
  by_cases hne : target = s.mnh_pwr.state
  · subst hne
    rw [mnh_pwr_set_state_same]
    exact h v
  · by_cases hvalid : ∀ w, target ≠ .other w
    · rcases mnh_pwr_set_state_outcome env target s hvalid hne with ho | ho
      · rw [ho.2]
        exact hvalid v
      · rw [ho.2]
        exact mnh_pwr_state.noConfusion
    · obtain ⟨w, hw⟩ := not_forall.mp hvalid
      have hw' : target = .other w := not_not.mp hw
      subst hw'
      unfold mnh_pwr_set_state
      rw [if_pos hne]
      exact h v


/-! ## Relations respected by every step -/

section Closed

variable {env : Env} {R : Sys → Sys → Prop}

theorem closed_hw_call (h : StepClosed env R) (a : Sys) (c : Call) (hc : c.plain = true) :
    R a (hw_call env c a).2 :=
  h.call a c hc

theorem closed_hw_void (h : StepClosed env R) (a : Sys) (c : Call) (hc : c.plain = true) :
    R a (hw_void c a) :=
  h.call a c hc

theorem closed_pci_get_device_loop (h : StepClosed env R) (devs : List pci_dev) :
    ∀ (start : Option pci_dev) (a : Sys), R a (pci_get_device_loop start devs a).2 := by
  induction devs with
  | nil =>
    intro start a
    exact closed_hw_void h a (.pci_get_device MNH_PCIE_VENDOR_ID MNH_PCIE_DEVICE_ID start) rfl
  | cons d rest ih =>
    intro start a
    unfold pci_get_device_loop
    by_cases hd : d.domain_nr = (MNH_PCIE_RC_INDEX : Int)
    · simp only [hd, if_true]
      exact closed_hw_void h a (.pci_get_device MNH_PCIE_VENDOR_ID MNH_PCIE_DEVICE_ID start) rfl
    · simp only [hd, if_false]
      exact h.trans _ _ _
        (closed_hw_void h a (.pci_get_device MNH_PCIE_VENDOR_ID MNH_PCIE_DEVICE_ID start) rfl)
        (ih _ _)

theorem closed_pcie_enumerate (h : StepClosed env R) (a : Sys) :
    R a (mnh_pwr_pcie_enumerate env a).2 := by
  unfold mnh_pwr_pcie_enumerate
  have k0 := closed_hw_call h a (.msm_pcie_enumerate MNH_PCIE_RC_INDEX) rfl
  generalize hw_call env (.msm_pcie_enumerate MNH_PCIE_RC_INDEX) a = p at k0 ⊢
  obtain ⟨ret, s1⟩ := p
  simp only
  split_ifs
  · exact k0
  · have k1 := h.trans _ _ _ k0
      (closed_pci_get_device_loop h (env.pci_devices s1.trace) none s1)
    generalize pci_get_device_loop none (env.pci_devices s1.trace) s1 = q at k1 ⊢
    obtain ⟨found, s2⟩ := q
    simp only
    cases found with
    | none => exact k1
    | some pcidev =>
      have k2 := h.trans _ _ _ k1 (closed_hw_call h s2 (.pci_save_state pcidev) rfl)
      simp only
      generalize hw_call env (.pci_save_state pcidev) s2 = p2 at k2 ⊢
      obtain ⟨ret2, s3⟩ := p2
      simp only
      have k3 := h.trans _ _ _ k2 (closed_hw_void h s3 (.pci_store_saved_state pcidev) rfl)
      split_ifs
      · exact h.trans _ _ _ k2 (closed_hw_void h s3 (.pci_dev_put pcidev) rfl)
      · refine h.trans _ _ _ ?_ (closed_hw_void h _ (.pci_dev_put pcidev) rfl)
        exact h.trans _ _ _ k3 (h.update _ _ rfl rfl)
      · exact h.trans _ _ _ k3 (h.update _ _ rfl rfl)

theorem closed_calls (h : StepClosed env R) (a : Sys) (l : List Call) (d : mnh_pwr_data)
    (hl : ∀ c ∈ l, c.plain = true)
    (h1 : d.ref_clk_enabled = a.mnh_pwr.ref_clk_enabled)
    (h2 : d.sleep_clk_enabled = a.mnh_pwr.sleep_clk_enabled) :
    R a ⟨d, a.trace ++ l⟩ := by
  induction l using List.reverseRecOn generalizing d with
  | nil =>
    rw [List.append_nil]
    exact h.update a d h1 h2
  | append_singleton l c ih =>
    have k := ih a.mnh_pwr (fun x hx => hl x (List.mem_append_left _ hx)) rfl rfl
    have kc := h.call ⟨a.mnh_pwr, a.trace ++ l⟩ c
      (hl c (List.mem_append_right _ (List.mem_singleton_self c)))
    have ku := h.update ⟨a.mnh_pwr, a.trace ++ l ++ [c]⟩ d h1 h2
    rw [← List.append_assoc]
    exact h.trans _ _ _ k (h.trans _ _ _ kc ku)

theorem closed_pcie_suspend (h : StepClosed env R) (a : Sys) :
    R a (mnh_pwr_pcie_suspend env a).2 := by
  unfold mnh_pwr_pcie_suspend
  split
  · exact h.refl a
  · split
    · simp only [hw_call]
      split_ifs <;> simp only [List.append_assoc] <;>
        exact closed_calls h a _ _ (by simp [Call.plain]) rfl rfl
    · simp only [hw_call]
      split_ifs <;> simp only [List.append_assoc] <;>
        exact closed_calls h a _ _ (by simp [Call.plain]) rfl rfl

theorem closed_pcie_resume (h : StepClosed env R) (a : Sys) :
    R a (mnh_pwr_pcie_resume env a).2 := by
  unfold mnh_pwr_pcie_resume
  split
  · have k0 := closed_pcie_enumerate h a
    generalize mnh_pwr_pcie_enumerate env a = p at k0 ⊢
    obtain ⟨ret, s1⟩ := p
    simp only [hw_call]
    split_ifs
    · exact k0
    · exact h.trans _ _ _ k0
        (closed_calls h s1 [.msm_pcie_register_event s1.mnh_pwr.pcidev] _
          (by simp [Call.plain]) rfl rfl)
  · simp only [hw_call, hw_void, fail_pcie_resume_awake, fail_pcie_resume_load_state]
    split_ifs <;> simp only [List.append_assoc] <;>
      exact closed_calls h a _ _ (by simp [Call.plain]) rfl rfl

theorem closed_regulator_disable_if_enabled (h : StepClosed env R) (a : Sys) (r : regulator) :
    R a (regulator_disable_if_enabled env r a).2 := by
  rw [regulator_disable_if_enabled_snd]
  unfold sweep_rail
  split_ifs <;> exact closed_calls h a _ _ (by simp [Call.plain]) rfl rfl

theorem closed_sweep_rail (h : StepClosed env R) (a : Sys) (r : regulator) (d : mnh_pwr_data)
    (h1 : d.ref_clk_enabled = a.mnh_pwr.ref_clk_enabled)
    (h2 : d.sleep_clk_enabled = a.mnh_pwr.sleep_clk_enabled) :
    R a ⟨d, sweep_rail env r a.trace⟩ := by
  unfold sweep_rail
  split_ifs <;> exact closed_calls h a _ _ (by simp [Call.plain]) h1 h2

theorem closed_rail_sweep (h : StepClosed env R) (a : Sys) (d : mnh_pwr_data)
    (h1 : d.ref_clk_enabled = a.mnh_pwr.ref_clk_enabled)
    (h2 : d.sleep_clk_enabled = a.mnh_pwr.sleep_clk_enabled) :
    R a ⟨d, rail_sweep env a.trace⟩ := by
  unfold rail_sweep
  have k1 := closed_sweep_rail h a .sdsr_supply a.mnh_pwr rfl rfl
  have k2 := closed_sweep_rail h ⟨a.mnh_pwr, sweep_rail env .sdsr_supply a.trace⟩
    .asr_supply a.mnh_pwr rfl rfl
  have k3 := closed_sweep_rail h
    ⟨a.mnh_pwr, sweep_rail env .asr_supply (sweep_rail env .sdsr_supply a.trace)⟩
    .ioldo_supply a.mnh_pwr rfl rfl
  have k4 := closed_sweep_rail h
    ⟨a.mnh_pwr, sweep_rail env .ioldo_supply (sweep_rail env .asr_supply
      (sweep_rail env .sdsr_supply a.trace))⟩
    .sdldo_supply d h1 h2
  exact h.trans _ _ _ k1 (h.trans _ _ _ k2 (h.trans _ _ _ k3 k4))

theorem closed_regulator_enable_from_S4 (h : StepClosed env R) (he : EnableClosed R) (a : Sys)
    (r : regulator) : R a (regulator_enable_from_S4 env r a).2 := by
  unfold regulator_enable_from_S4
  split
  · exact he a r
  · exact h.refl a

theorem closed_fail_pwr_up_regulators (h : StepClosed env R) (a : Sys) (ret : Int) :
    R a (fail_pwr_up_regulators env ret a).2 := by
  rw [fail_pwr_up_regulators_eq]
  exact closed_rail_sweep h a _ rfl rfl

theorem closed_fail_pwr_up_sleep_clk (h : StepClosed env R) (a : Sys) (ret : Int) :
    R a (fail_pwr_up_sleep_clk env ret a).2 :=
  h.trans _ _ _ (h.ref_off a) (closed_fail_pwr_up_regulators h _ ret)

theorem closed_fail_pwr_up_pcie (h : StepClosed env R) (a : Sys) (ret : Int) :
    R a (fail_pwr_up_pcie env ret a).2 :=
  h.trans _ _ _ (closed_hw_void h a (.gpiod_set_value_cansleep 0) rfl)
    (h.trans _ _ _ (h.sleep_off _) (closed_fail_pwr_up_sleep_clk h _ ret))

theorem closed_fail_pwr_suspend_regulators (h : StepClosed env R) (a : Sys) (ret : Int) :
    R a (fail_pwr_suspend_regulators env ret a).2 := by
  rw [fail_pwr_suspend_regulators_eq]
  exact closed_rail_sweep h a _ rfl rfl

theorem closed_fail_pwr_suspend_pcie (h : StepClosed env R) (a : Sys) (ret : Int) :
    R a (fail_pwr_suspend_pcie env ret a).2 :=
  h.trans _ _ _ (closed_hw_void h a (.gpiod_set_value_cansleep 0) rfl)
    (h.trans _ _ _ (h.sleep_off _)
      (h.trans _ _ _ (h.ref_off _) (closed_fail_pwr_suspend_regulators h _ ret)))

theorem closed_disable_if_enabled (h : StepClosed env R) (a : Sys) (r : regulator) :
    R a (disable_if_enabled env r a) :=
  closed_regulator_disable_if_enabled h a r

theorem closed_fail_pwr_down_sdldo (h : StepClosed env R) (a : Sys) (ret : Int) :
    R a (fail_pwr_down_sdldo ret a).2 :=
  h.update a _ rfl rfl

theorem closed_fail_pwr_down_ioldo (h : StepClosed env R) (a : Sys) (ret : Int) :
    R a (fail_pwr_down_ioldo env ret a).2 :=
  h.trans _ _ _ (closed_disable_if_enabled h a .sdldo_supply)
    (closed_fail_pwr_down_sdldo h _ ret)

theorem closed_fail_pwr_down_asr (h : StepClosed env R) (a : Sys) (ret : Int) :
    R a (fail_pwr_down_asr env ret a).2 :=
  h.trans _ _ _ (closed_disable_if_enabled h a .ioldo_supply)
    (closed_fail_pwr_down_ioldo h _ ret)

theorem closed_fail_pwr_down_sdsr (h : StepClosed env R) (a : Sys) (ret : Int) :
    R a (fail_pwr_down_sdsr env ret a).2 :=
  h.trans _ _ _ (closed_disable_if_enabled h a .asr_supply)
    (closed_fail_pwr_down_asr h _ ret)

theorem closed_fail_pwr_down_pcie (h : StepClosed env R) (a : Sys) (ret : Int) :
    R a (fail_pwr_down_pcie env ret a).2 :=
  h.trans _ _ _ (closed_hw_void h a (.gpiod_set_value_cansleep 0) rfl)
    (h.trans _ _ _ (h.sleep_off _)
      (h.trans _ _ _ (h.ref_off _)
        (h.trans _ _ _ (closed_disable_if_enabled h _ .sdsr_supply)
          (closed_fail_pwr_down_sdsr h _ ret))))

theorem closed_mnh_pwr_down (h : StepClosed env R) (s : Sys) :
    R s (mnh_pwr_down env s).2 := by
  unfold mnh_pwr_down
  have k0 : R s (if s.mnh_pwr.state ≠ .MNH_PWR_S3 ∧
      env.boot_mode s.trace = .MNH_BOOT_MODE_PCIE then mnh_pwr_pcie_suspend env s
    else (0, hw_void (.msm_pcie_set_reset MNH_PCIE_RC_INDEX true) s)).2 := by
    split
    · exact closed_pcie_suspend h s
    · exact closed_hw_void h s _ rfl
  generalize (if s.mnh_pwr.state ≠ .MNH_PWR_S3 ∧
      env.boot_mode s.trace = .MNH_BOOT_MODE_PCIE then mnh_pwr_pcie_suspend env s
    else (0, hw_void (.msm_pcie_set_reset MNH_PCIE_RC_INDEX true) s)) = l at k0 ⊢
  simp only []
  have k1 := h.trans _ _ _ k0 (closed_hw_void h l.2 (.gpiod_set_value_cansleep 0) rfl)
  have k2 := h.trans _ _ _ k1 (h.ref_off _)
  have k3 := h.trans _ _ _ k2 (h.sleep_off _)
  have k4 := h.trans _ _ _ k3 (closed_regulator_disable_if_enabled h _ .sdsr_supply)
  generalize regulator_disable_if_enabled env .sdsr_supply
    (disable_sleep_clk (disable_ref_clk (hw_void (.gpiod_set_value_cansleep 0) l.2))) = e1
    at k4 ⊢
  have k5 := h.trans _ _ _ k4 (closed_regulator_disable_if_enabled h e1.2 .asr_supply)
  generalize regulator_disable_if_enabled env .asr_supply e1.2 = e2 at k5 ⊢
  have k6 := h.trans _ _ _ k5 (closed_regulator_disable_if_enabled h e2.2 .ioldo_supply)
  generalize regulator_disable_if_enabled env .ioldo_supply e2.2 = e3 at k6 ⊢
  have k7 := h.trans _ _ _ k6 (closed_regulator_disable_if_enabled h e3.2 .sdldo_supply)
  generalize regulator_disable_if_enabled env .sdldo_supply e3.2 = e4 at k7 ⊢
  split_ifs
  · exact h.trans _ _ _ k0 (closed_fail_pwr_down_pcie h _ _)
  · exact h.trans _ _ _ k4 (closed_fail_pwr_down_sdsr h _ _)
  · exact h.trans _ _ _ k5 (closed_fail_pwr_down_asr h _ _)
  · exact h.trans _ _ _ k6 (closed_fail_pwr_down_ioldo h _ _)
  · exact h.trans _ _ _ k7 (closed_fail_pwr_down_sdldo h _ _)
  · exact h.trans _ _ _ k7 (h.update _ _ rfl rfl)

theorem closed_mnh_pwr_suspend (h : StepClosed env R) (s : Sys) :
    R s (mnh_pwr_suspend env s).2 := by
  unfold mnh_pwr_suspend
  have k0 : R s (if env.boot_mode s.trace = .MNH_BOOT_MODE_PCIE then mnh_pwr_pcie_suspend env s
    else (0, hw_void (.msm_pcie_set_reset MNH_PCIE_RC_INDEX true) s)).2 := by
    split
    · exact closed_pcie_suspend h s
    · exact closed_hw_void h s _ rfl
  generalize (if env.boot_mode s.trace = .MNH_BOOT_MODE_PCIE then mnh_pwr_pcie_suspend env s
    else (0, hw_void (.msm_pcie_set_reset MNH_PCIE_RC_INDEX true) s)) = l at k0 ⊢
  simp only []
  have k1 := h.trans _ _ _ k0 (closed_hw_void h l.2 (.gpiod_set_value_cansleep 0) rfl)
  have k2 := h.trans _ _ _ k1 (h.ref_off _)
  have k3 := h.trans _ _ _ k2 (h.sleep_off _)
  have k4 := h.trans _ _ _ k3 (closed_hw_call h _ (.regulator_disable .asr_supply) rfl)
  generalize hw_call env (.regulator_disable .asr_supply)
    (disable_sleep_clk (disable_ref_clk (hw_void (.gpiod_set_value_cansleep 0) l.2))) = e1
    at k4 ⊢
  have k5 := h.trans _ _ _ k4 (closed_hw_call h e1.2 (.regulator_disable .ioldo_supply) rfl)
  generalize hw_call env (.regulator_disable .ioldo_supply) e1.2 = e2 at k5 ⊢
  split_ifs
  · exact h.trans _ _ _ k0 (closed_fail_pwr_suspend_pcie h _ _)
  · exact h.trans _ _ _ k4 (closed_fail_pwr_suspend_regulators h _ _)
  · exact h.trans _ _ _ k5 (h.update _ _ rfl rfl)

theorem closed_mnh_pwr_partial (h : StepClosed env R) (s : Sys) :
    R s ( mnh_pwr_partial env s).2 := by
  rw [mnh_pwr_partial_eq]
  exact h.trans _ _ _ (closed_sweep_rail h s .sdsr_supply s.mnh_pwr rfl rfl)
    (closed_sweep_rail h ⟨s.mnh_pwr, sweep_rail env .sdsr_supply s.trace⟩ .sdldo_supply _
      rfl rfl)

theorem closed_mnh_pwr_up (h : StepClosed env R) (he : EnableClosed R) (n : mnh_pwr_state)
    (s : Sys) :
    R s (mnh_pwr_up env n s).2 := by
  unfold mnh_pwr_up
  simp only []
  have k1 := closed_regulator_enable_from_S4 h he s .sdldo_supply
  generalize regulator_enable_from_S4 env .sdldo_supply s = e1 at k1 ⊢
  have k2 : R s (hw_call env (.regulator_enable .ioldo_supply) e1.2).2 :=
    h.trans _ _ _ k1 (he e1.2 .ioldo_supply)
  generalize hw_call env (.regulator_enable .ioldo_supply) e1.2 = e2 at k2 ⊢
  have k3 : R s (hw_call env (.regulator_enable .asr_supply) e2.2).2 :=
    h.trans _ _ _ k2 (he e2.2 .asr_supply)
  generalize hw_call env (.regulator_enable .asr_supply) e2.2 = e3 at k3 ⊢
  have k4 := h.trans _ _ _ k3 (closed_regulator_enable_from_S4 h he e3.2 .sdsr_supply)
  generalize regulator_enable_from_S4 env .sdsr_supply e3.2 = e4 at k4 ⊢
  have k5 := h.trans _ _ _ k4 (h.ref_on e4.2)
  generalize enable_ref_clk env e4.2 = c1 at k5 ⊢
  have k6 := h.trans _ _ _ k5 (h.sleep_on c1.2)
  generalize enable_sleep_clk env c1.2 = c2 at k6 ⊢
  have k7 : R s
      (if env.boot_mode (hw_void (.udelay 60)
            (hw_void (.gpiod_set_value_cansleep 1) c2.2)).trace = .MNH_BOOT_MODE_PCIE then
          mnh_pwr_pcie_resume env (hw_void (.udelay 60)
            (hw_void (.gpiod_set_value_cansleep 1) c2.2))
        else
          (0, hw_void (.msm_pcie_set_reset MNH_PCIE_RC_INDEX false)
            (hw_void (.udelay 60) (hw_void (.gpiod_set_value_cansleep 1) c2.2)))).2 := by
    have k := h.trans _ _ _ k6
      (h.trans _ _ _ (closed_hw_void h c2.2 (.gpiod_set_value_cansleep 1) rfl)
        (closed_hw_void h _ (.udelay 60) rfl))
    split
    · exact h.trans _ _ _ k (closed_pcie_resume h _)
    · exact h.trans _ _ _ k (closed_hw_void h _ _ rfl)
  generalize (if env.boot_mode (hw_void (.udelay 60)
            (hw_void (.gpiod_set_value_cansleep 1) c2.2)).trace = .MNH_BOOT_MODE_PCIE then
          mnh_pwr_pcie_resume env (hw_void (.udelay 60)
            (hw_void (.gpiod_set_value_cansleep 1) c2.2))
        else
          (0, hw_void (.msm_pcie_set_reset MNH_PCIE_RC_INDEX false)
            (hw_void (.udelay 60) (hw_void (.gpiod_set_value_cansleep 1) c2.2)))) = lk at k7 ⊢
  split_ifs
  · exact h.trans _ _ _ k1 (closed_fail_pwr_up_regulators h _ _)
  · exact h.trans _ _ _ k2 (closed_fail_pwr_up_regulators h _ _)
  · exact h.trans _ _ _ k3 (closed_fail_pwr_up_regulators h _ _)
  · exact h.trans _ _ _ k4 (closed_fail_pwr_up_regulators h _ _)
  · exact h.trans _ _ _ k5 (closed_fail_pwr_up_regulators h _ _)
  · exact h.trans _ _ _ k6 (closed_fail_pwr_up_sleep_clk h _ _)
  · exact h.trans _ _ _ k7 (closed_fail_pwr_up_pcie h _ _)
  · exact h.trans _ _ _ k7 (h.update _ _ rfl rfl)

theorem closed_mnh_pwr_set_state (h : StepClosed env R) (he : EnableClosed R)
    (target : mnh_pwr_state) (s : Sys) : R s (mnh_pwr_set_state env target s).2 := by
  unfold mnh_pwr_set_state
  split_ifs
  · cases target with
    | MNH_PWR_S0 => exact closed_mnh_pwr_up h he _ s
    | MNH_PWR_S1 => exact closed_mnh_pwr_partial h s
    | MNH_PWR_S3 => exact closed_mnh_pwr_suspend h s
    | MNH_PWR_S4 => exact closed_mnh_pwr_down h s
    | other v => exact h.refl s
  · exact h.refl s

theorem closed_regulator_notifier_cb (h : StepClosed env R) (r : regulator) (event : Nat)
    (s : Sys) : R s (regulator_notifier_cb r event s).2 := by
  cases r <;>
    simp only [regulator_notifier_cb, mnh_pwr_asr_notifier_cb, mnh_pwr_sdsr_notifier_cb,
      mnh_pwr_ioldo_notifier_cb, mnh_pwr_sdldo_notifier_cb, schedule_work] <;>
    split_ifs <;> exact h.update s _ rfl rfl

theorem closed_link_state_cb (h : StepClosed env R) (event : msm_pcie_event) (s : Sys) :
    R s (mnh_pwr_pcie_link_state_cb event s) := by
  cases event with
  | MSM_PCIE_EVENT_LINKDOWN => exact h.update s _ rfl rfl
  | MSM_PCIE_EVENT_OTHER v => exact h.refl s

end Closed

/-! ## Two relations that every step respects -/

theorem AddsOnly.adds_refl (p : Call → Bool) (a : Sys) : AddsOnly p a a :=
  ⟨[], by simp, by simp⟩

theorem AddsOnly.adds_trans {p : Call → Bool} {a b c : Sys} (h1 : AddsOnly p a b)
    (h2 : AddsOnly p b c) : AddsOnly p a c := by
  obtain ⟨l1, e1, q1⟩ := h1
  obtain ⟨l2, e2, q2⟩ := h2
  refine ⟨l1 ++ l2, by rw [e2, e1, List.append_assoc], ?_⟩
  intro c hc
  rcases List.mem_append.mp hc with hc | hc
  · exact q1 c hc
  · exact q2 c hc

theorem AddsOnly.adds_call (p : Call → Bool) (a : Sys) (d : mnh_pwr_data) (c : Call)
    (hc : p c = true) : AddsOnly p a ⟨d, a.trace ++ [c]⟩ :=
  ⟨[c], rfl, by simpa using hc⟩

theorem adds_only_closed (env : Env) (p : Call → Bool)
    (hp : ∀ c : Call, c.plain = true → p c = true)
    (hon : ∀ k, p (.clk_prepare_enable k) = true)
    (hoff : ∀ k, p (.clk_disable_unprepare k) = true) :
    StepClosed env (AddsOnly p) where
  refl := AddsOnly.adds_refl p
  trans := fun _ _ _ h1 h2 => h1.adds_trans h2
  call := fun a c hc => AddsOnly.adds_call p a _ c (hp c hc)
  update := fun a d _ _ => ⟨[], by simp, by simp⟩
  ref_on := by
    intro a
    unfold enable_ref_clk hw_call
    simp only []
    split_ifs
    all_goals first
      | exact AddsOnly.adds_refl p a
      | exact AddsOnly.adds_call p a _ _ (hon _)
  sleep_on := by
    intro a
    unfold enable_sleep_clk hw_call
    simp only []
    split_ifs
    all_goals first
      | exact AddsOnly.adds_refl p a
      | exact AddsOnly.adds_call p a _ _ (hon _)
  ref_off := by
    intro a
    unfold disable_ref_clk hw_void
    simp only []
    split_ifs
    all_goals first
      | exact AddsOnly.adds_refl p a
      | exact AddsOnly.adds_call p a _ _ (hoff _)
  sleep_off := by
    intro a
    unfold disable_sleep_clk hw_void
    simp only []
    split_ifs
    all_goals first
      | exact AddsOnly.adds_refl p a
      | exact AddsOnly.adds_call p a _ _ (hoff _)

theorem clk_replay_append (env : Env) (c : clk) (t : List Call) (x : Call) :
    clk_replay env c (t ++ [x]) = clk_step env c (clk_replay env c t) x := by
  simp [clk_replay, List.foldl_append]

theorem clocks_tracked_call (env : Env) (a : Sys) (d : mnh_pwr_data) (x : Call)
    (hon : ∀ k, x ≠ .clk_prepare_enable k) (hoff : ∀ k, x ≠ .clk_disable_unprepare k)
    (h1 : d.ref_clk_enabled = a.mnh_pwr.ref_clk_enabled)
    (h2 : d.sleep_clk_enabled = a.mnh_pwr.sleep_clk_enabled)
    (h : ClocksTracked env a) : ClocksTracked env ⟨d, a.trace ++ [x]⟩ := by
  obtain ⟨hr, hs⟩ := h
  unfold ClocksTracked
  simp only [clk_replay_append, hr, hs, h1, h2]
  cases x <;> first
    | exact ⟨rfl, rfl⟩
    | exact absurd rfl (hon _)
    | exact absurd rfl (hoff _)

theorem clk_step_closed (env : Env) : StepClosed env (ClkStep env) where
  refl := fun _ h => h
  trans := fun _ _ _ h1 h2 h => h2 (h1 h)
  call := by
    intro a c hc h
    refine clocks_tracked_call env a _ c ?_ ?_ rfl rfl h
    · intro k hk
      rw [hk] at hc
      exact Bool.false_ne_true hc
    · intro k hk
      rw [hk] at hc
      exact Bool.false_ne_true hc
  update := by
    intro a d h1 h2 h
    obtain ⟨hr, hs⟩ := h
    exact ⟨by rw [hr, h1], by rw [hs, h2]⟩
  ref_on := by
    intro a h
    obtain ⟨hr, hs⟩ := h
    obtain ⟨⟨r, sl, p, q, e, w, f, st⟩, t⟩ := a
    simp only at hr hs
    unfold enable_ref_clk hw_call ClocksTracked
    cases r
    · by_cases hret : env.ret t (.clk_prepare_enable .ref_clk) = 0 <;>
        simp [hret, clk_replay_append, hr, hs, clk_step]
    · simp [hr, hs]
  sleep_on := by
    intro a h
    obtain ⟨hr, hs⟩ := h
    obtain ⟨⟨r, sl, p, q, e, w, f, st⟩, t⟩ := a
    simp only at hr hs
    unfold enable_sleep_clk hw_call ClocksTracked
    cases sl
    · by_cases hret : env.ret t (.clk_prepare_enable .sleep_clk) = 0 <;>
        simp [hret, clk_replay_append, hr, hs, clk_step]
    · simp [hr, hs]
  ref_off := by
    intro a h
    obtain ⟨hr, hs⟩ := h
    obtain ⟨⟨r, sl, p, q, e, w, f, st⟩, t⟩ := a
    simp only at hr hs
    unfold disable_ref_clk hw_void ClocksTracked
    cases r
    · simp [hr, hs]
    · simp [clk_replay_append, hr, hs, clk_step]
  sleep_off := by
    intro a h
    obtain ⟨hr, hs⟩ := h
    obtain ⟨⟨r, sl, p, q, e, w, f, st⟩, t⟩ := a
    simp only at hr hs
    unfold disable_sleep_clk hw_void ClocksTracked
    cases sl
    · simp [hr, hs]
    · simp [clk_replay_append, hr, hs, clk_step]

theorem clk_step_enable_closed (env : Env) : EnableClosed (ClkStep env) := by
  intro a r h
  exact clocks_tracked_call env a _ _ (fun _ => Call.noConfusion) (fun _ => Call.noConfusion)
    rfl rfl h

theorem clocks_tracked_shutdown_work (env : Env) (s : Sys) (h : ClocksTracked env s) :
    ClocksTracked env (mnh_pwr_shutdown_work env s) := by
  have k := closed_mnh_pwr_set_state (clk_step_closed env) (clk_step_enable_closed env)
    .MNH_PWR_S4 s h
  exact clocks_tracked_call env _ _ _ (fun _ => Call.noConfusion) (fun _ => Call.noConfusion)
    rfl rfl k

theorem clocks_tracked_deliver (env : Env) (s : Sys) (ev : Event) (h : ClocksTracked env s) :
    ClocksTracked env (deliver env s ev) := by
  cases ev with
  | set_state target =>
    exact closed_mnh_pwr_set_state (clk_step_closed env) (clk_step_enable_closed env) target s h
  | regulator_event r event =>
    exact closed_regulator_notifier_cb (clk_step_closed env) r event s h
  | link_event event => exact closed_link_state_cb (clk_step_closed env) event s h
  | shutdown_work => exact clocks_tracked_shutdown_work env s h

theorem clocks_tracked_run (env : Env) (evs : List Event) :
    ∀ s, ClocksTracked env s → ClocksTracked env (run env s evs) := by
  induction evs with
  | nil => exact fun _ h => h
  | cons ev rest ih =>
    intro s h
    exact ih _ (clocks_tracked_deliver env s ev h)

/-! ## The emergency shutdown -/

theorem mnh_pwr_set_state_S4_state (env : Env) (s : Sys) :
    (mnh_pwr_set_state env .MNH_PWR_S4 s).2.mnh_pwr.state = .MNH_PWR_S4 := by
  unfold mnh_pwr_set_state
  split_ifs with h
  · exact mnh_pwr_down_state env s
  · exact (not_not.mp h).symm

theorem mnh_pwr_shutdown_work_eq (env : Env) (s : Sys) :
    mnh_pwr_shutdown_work env s =
      ⟨(mnh_pwr_set_state env .MNH_PWR_S4 s).2.mnh_pwr,
        (mnh_pwr_set_state env .MNH_PWR_S4 s).2.trace ++ [.mnh_sm_pwr_error_cb]⟩ := rfl

theorem mnh_pwr_shutdown_work_state (env : Env) (s : Sys) :
    (mnh_pwr_shutdown_work env s).mnh_pwr.state = .MNH_PWR_S4 :=
  mnh_pwr_set_state_S4_state env s

theorem deliver_faults_pending (rs : List regulator) :
    ∀ s : Sys, s.mnh_pwr.state ≠ .MNH_PWR_S4 → rs ≠ [] →
      deliver_faults rs s =
        ⟨{ s.mnh_pwr with pcie_failure := true, shutdown_work := true }, s.trace⟩ := by
  induction rs with
  | nil => exact fun _ _ h => absurd rfl h
  | cons r rest ih =>
    intro s hs _
    have h1 : (regulator_notifier_cb r REGULATOR_EVENT_FAIL s).2 =
        ⟨{ s.mnh_pwr with pcie_failure := true, shutdown_work := true }, s.trace⟩ := by
      cases r <;>
        simp [regulator_notifier_cb, mnh_pwr_asr_notifier_cb, mnh_pwr_sdsr_notifier_cb,
          mnh_pwr_ioldo_notifier_cb, mnh_pwr_sdldo_notifier_cb, schedule_work, hs]
    unfold deliver_faults
    rw [List.foldl_cons, h1]
    cases rest with
    | nil => rfl
    | cons r2 rest2 =>
      exact ih _ hs (List.cons_ne_nil _ _)

theorem plain_is_not_error_cb (c : Call) (h : c.plain = true) : (!c.is_error_cb) = true := by
  cases c <;> first | rfl | exact absurd h Bool.false_ne_true

theorem set_state_adds_no_error_cb (env : Env) (target : mnh_pwr_state) (s : Sys) :
    AddsOnly (fun c => !c.is_error_cb) s (mnh_pwr_set_state env target s).2 :=
  closed_mnh_pwr_set_state
    (adds_only_closed env (fun c => !c.is_error_cb) plain_is_not_error_cb (fun _ => rfl)
      (fun _ => rfl))
    (fun a _ => AddsOnly.adds_call _ a _ _ rfl) target s

/-! ## A power-up whose enables succeed -/

theorem mnh_pwr_up_reaches_link (env : Env) (n : mnh_pwr_state) (s : Sys)
    (hen : all_succeed env s.trace (up_enable_calls s.mnh_pwr) = true)
    (hboot : env.boot_mode (up_before_link s).trace = .MNH_BOOT_MODE_PCIE) :
    mnh_pwr_up env n s =
      if (mnh_pwr_pcie_resume env (up_before_link s)).1 ≠ 0 then
        fail_pwr_up_pcie env (mnh_pwr_pcie_resume env (up_before_link s)).1
          (mnh_pwr_pcie_resume env (up_before_link s)).2
      else
        (0, ⟨{ (mnh_pwr_pcie_resume env (up_before_link s)).2.mnh_pwr with state := n },
          (mnh_pwr_pcie_resume env (up_before_link s)).2.trace⟩) := by
  obtain ⟨⟨r, sl, p, q, e, w, f, st⟩, t⟩ := s
  by_cases hst : st = .MNH_PWR_S4 <;> cases r <;> cases sl <;>
    simp [all_succeed, up_enable_calls, up_rail_calls, up_clk_calls, hst] at hen <;>
    simp [up_before_link, up_enable_calls, up_rail_calls, up_clk_calls, hst] at hboot <;>
    simp only [mnh_pwr_up, regulator_enable_from_S4, enable_ref_clk, enable_sleep_clk, hw_call,
      hw_void, hst, hen, hboot, if_true, if_false, Bool.false_eq_true, not_false_eq_true,
      ne_eq, not_true_eq_false, List.append_assoc, List.cons_append, List.nil_append,
      reduceCtorEq, up_before_link, up_enable_calls, up_rail_calls, up_clk_calls]

theorem mnh_pwr_up_link_failed (env : Env) (n : mnh_pwr_state) (s : Sys)
    (hen : all_succeed env s.trace (up_enable_calls s.mnh_pwr) = true)
    (hboot : env.boot_mode (up_before_link s).trace = .MNH_BOOT_MODE_PCIE)
    (hfail : (mnh_pwr_pcie_resume env (up_before_link s)).1 ≠ 0) :
    mnh_pwr_up env n s =
      ((mnh_pwr_pcie_resume env (up_before_link s)).1,
        ⟨{ (mnh_pwr_pcie_resume env (up_before_link s)).2.mnh_pwr with
            ref_clk_enabled := false, sleep_clk_enabled := false, state := .MNH_PWR_S4 },
          rail_sweep env ((mnh_pwr_pcie_resume env (up_before_link s)).2.trace ++
            [.gpiod_set_value_cansleep 0, .clk_disable_unprepare .sleep_clk,
              .clk_disable_unprepare .ref_clk])⟩) := by
  rw [mnh_pwr_up_reaches_link env n s hen hboot, if_pos hfail, fail_pwr_up_pcie_eq]
  obtain ⟨h1, h2, _, _⟩ := mnh_pwr_pcie_resume_frame env (up_before_link s)
  have h1' : (mnh_pwr_pcie_resume env (up_before_link s)).2.mnh_pwr.ref_clk_enabled = true := h1
  have h2' : (mnh_pwr_pcie_resume env (up_before_link s)).2.mnh_pwr.sleep_clk_enabled = true :=
    h2
  simp only [clk_off_calls, h1', h2', if_true, List.append_assoc, List.cons_append,
    List.nil_append]

theorem mnh_pwr_pcie_enumerate_fst (env : Env) (s : Sys) :
    (mnh_pwr_pcie_enumerate env s).1 =
      if env.ret s.trace (.msm_pcie_enumerate MNH_PCIE_RC_INDEX) < 0 then
        env.ret s.trace (.msm_pcie_enumerate MNH_PCIE_RC_INDEX)
      else
        match mnh_device (env.pci_devices (s.trace ++ [.msm_pcie_enumerate MNH_PCIE_RC_INDEX])) with
        | none => -ENODEV
        | some dev =>
          env.ret (s.trace ++ [.msm_pcie_enumerate MNH_PCIE_RC_INDEX] ++
            pci_lookup_calls none
              (env.pci_devices (s.trace ++ [.msm_pcie_enumerate MNH_PCIE_RC_INDEX])))
            (.pci_save_state dev) := by
  simp only [mnh_pwr_pcie_enumerate, hw_call, hw_void, pci_get_device_loop_eq]
  split_ifs with h1
  · rfl
  · cases mnh_device (env.pci_devices (s.trace ++ [.msm_pcie_enumerate MNH_PCIE_RC_INDEX])) with
    | none => rfl
    | some dev =>
      simp only
      split_ifs with h2 h3
      · rfl
      · show env.ret _ _ = _
        rfl
      · show (0 : Int) = _
        exact (not_not.mp h2).symm

theorem link_step_fails_resume (env : Env) (b : Sys) (h : LinkStepFails env b) :
    (mnh_pwr_pcie_resume env b).1 ≠ 0 := by
  unfold LinkStepFails at h
  unfold mnh_pwr_pcie_resume
  cases hp : b.mnh_pwr.pcidev with
  | none =>
    rw [hp] at h
    simp only at h ⊢
    have hE : (mnh_pwr_pcie_enumerate env b).1 ≠ 0 := by
      rw [mnh_pwr_pcie_enumerate_fst]
      rcases h with h | h | ⟨dev, hd, h⟩
      · rw [if_pos h]
        exact ne_of_lt h
      · split_ifs with h1
        · exact ne_of_lt h1
        · rw [h]
          exact (by decide : (-ENODEV : Int) ≠ 0)
      · split_ifs with h1
        · exact ne_of_lt h1
        · rw [hd]
          exact h
    rw [if_pos hE]
    exact hE
  | some pcidev =>
    rw [hp] at h
    simp only [hw_call, hw_void, fail_pcie_resume_awake, fail_pcie_resume_load_state,
      List.append_assoc, List.cons_append, List.nil_append] at h ⊢
    split_ifs with h1 h2 h3 h4
    · exact h1
    · exact h2
    · exact h3
    · exact h4
    · rcases h with h | h | h | h
      · exact absurd h h1
      · exact absurd h h2
      · exact absurd h h3
      · exact absurd h h4

section Closed

variable {env : Env} {R : Sys → Sys → Prop}

theorem closed_up_after_rails (h : StepClosed env R) (n : mnh_pwr_state) (s : Sys)
    (hr : all_succeed env s.trace (up_rail_calls s.mnh_pwr.state) = true) :
    R ⟨s.mnh_pwr, s.trace ++ up_rail_calls s.mnh_pwr.state⟩ (mnh_pwr_up env n s).2 := by
  obtain ⟨x, hx1, hx2, hx3, hx4, hx⟩ : ∃ x : Sys,
      (regulator_enable_from_S4 env .sdldo_supply s).1 = 0 ∧
      (hw_call env (.regulator_enable .ioldo_supply)
        (regulator_enable_from_S4 env .sdldo_supply s).2).1 = 0 ∧
      (hw_call env (.regulator_enable .asr_supply)
        (hw_call env (.regulator_enable .ioldo_supply)
          (regulator_enable_from_S4 env .sdldo_supply s).2).2).1 = 0 ∧
      regulator_enable_from_S4 env .sdsr_supply
        (hw_call env (.regulator_enable .asr_supply)
          (hw_call env (.regulator_enable .ioldo_supply)
            (regulator_enable_from_S4 env .sdldo_supply s).2).2).2 = (0, x) ∧
      x = ⟨s.mnh_pwr, s.trace ++ up_rail_calls s.mnh_pwr.state⟩ := by
    by_cases hst : s.mnh_pwr.state = .MNH_PWR_S4
    · simp [all_succeed, up_rail_calls, hst] at hr
      simp [regulator_enable_from_S4, hw_call, hst, hr, up_rail_calls]
    · simp [all_succeed, up_rail_calls, hst] at hr
      simp [regulator_enable_from_S4, hw_call, hst, hr, up_rail_calls]
  rw [← hx]
  unfold mnh_pwr_up
  simp only []
  rw [if_neg (not_not.mpr hx1), if_neg (not_not.mpr hx2), if_neg (not_not.mpr hx3), hx4]
  simp only []
  rw [if_neg (not_not.mpr rfl)]
  have k5 := h.ref_on x
  generalize enable_ref_clk env x = c1 at k5 ⊢
  have k6 := h.trans _ _ _ k5 (h.sleep_on c1.2)
  generalize enable_sleep_clk env c1.2 = c2 at k6 ⊢
  have k7 : R x
      (if env.boot_mode (hw_void (.udelay 60)
            (hw_void (.gpiod_set_value_cansleep 1) c2.2)).trace = .MNH_BOOT_MODE_PCIE then
          mnh_pwr_pcie_resume env (hw_void (.udelay 60)
            (hw_void (.gpiod_set_value_cansleep 1) c2.2))
        else
          (0, hw_void (.msm_pcie_set_reset MNH_PCIE_RC_INDEX false)
            (hw_void (.udelay 60) (hw_void (.gpiod_set_value_cansleep 1) c2.2)))).2 := by
    have k := h.trans _ _ _ k6
      (h.trans _ _ _ (closed_hw_void h c2.2 (.gpiod_set_value_cansleep 1) rfl)
        (closed_hw_void h _ (.udelay 60) rfl))
    split
    · exact h.trans _ _ _ k (closed_pcie_resume h _)
    · exact h.trans _ _ _ k (closed_hw_void h _ _ rfl)
  generalize (if env.boot_mode (hw_void (.udelay 60)
            (hw_void (.gpiod_set_value_cansleep 1) c2.2)).trace = .MNH_BOOT_MODE_PCIE then
          mnh_pwr_pcie_resume env (hw_void (.udelay 60)
            (hw_void (.gpiod_set_value_cansleep 1) c2.2))
        else
          (0, hw_void (.msm_pcie_set_reset MNH_PCIE_RC_INDEX false)
            (hw_void (.udelay 60) (hw_void (.gpiod_set_value_cansleep 1) c2.2)))) = lk at k7 ⊢
  split_ifs
  · exact h.trans _ _ _ k5 (closed_fail_pwr_up_regulators h _ _)
  · exact h.trans _ _ _ k6 (closed_fail_pwr_up_sleep_clk h _ _)
  · exact h.trans _ _ _ k7 (closed_fail_pwr_up_pcie h _ _)
  · exact h.trans _ _ _ k7 (h.update _ _ rfl rfl)

end Closed

theorem plain_is_not_enable (c : Call) (h : c.plain = true) : (!c.is_enable) = true := by
  cases c <;> first | rfl | exact absurd h Bool.false_ne_true

theorem up_adds_no_enable_after_rails (env : Env) (n : mnh_pwr_state) (s : Sys)
    (hr : all_succeed env s.trace (up_rail_calls s.mnh_pwr.state) = true) :
    ∃ rest : List Call,
      (mnh_pwr_up env n s).2.trace = s.trace ++ up_rail_calls s.mnh_pwr.state ++ rest ∧
      ∀ c ∈ rest, ∀ r, c ≠ .regulator_enable r := by
  obtain ⟨rest, h1, h2⟩ := closed_up_after_rails
    (adds_only_closed env (fun c => !c.is_enable) plain_is_not_enable (fun _ => rfl)
      (fun _ => rfl)) n s hr
  refine ⟨rest, h1, ?_⟩
  intro c hc r he
  have := h2 c hc
  rw [he] at this
  exact Bool.false_ne_true this


/-! ## The link procedures, call by call -/

theorem mnh_pwr_pcie_suspend_eq (env : Env) (s : Sys) (dev : pci_dev)
    (hdev : s.mnh_pwr.pcidev = some dev) :
    mnh_pwr_pcie_suspend env s =
      if s.mnh_pwr.pcie_failure = true then
        if env.ret s.trace (.msm_pcie_pm_control .MSM_PCIE_SUSPEND dev.bus_number dev
            (PM_OPT_SUSPEND ++ [.MSM_PCIE_CONFIG_NO_CFG_RESTORE])) ≠ 0 then
          (env.ret s.trace (.msm_pcie_pm_control .MSM_PCIE_SUSPEND dev.bus_number dev
            (PM_OPT_SUSPEND ++ [.MSM_PCIE_CONFIG_NO_CFG_RESTORE])),
            ⟨s.mnh_pwr, s.trace ++
              [.msm_pcie_pm_control .MSM_PCIE_SUSPEND dev.bus_number dev
                (PM_OPT_SUSPEND ++ [.MSM_PCIE_CONFIG_NO_CFG_RESTORE])]⟩)
        else
          (0, ⟨{ s.mnh_pwr with pcie_failure := false }, s.trace ++
              [.msm_pcie_pm_control .MSM_PCIE_SUSPEND dev.bus_number dev
                (PM_OPT_SUSPEND ++ [.MSM_PCIE_CONFIG_NO_CFG_RESTORE]),
                .mnh_pci_suspend dev]⟩)
      else
        (env.ret (s.trace ++ [.mnh_pci_suspend dev, .pci_prepare_to_sleep dev])
            (.msm_pcie_pm_control .MSM_PCIE_SUSPEND dev.bus_number dev PM_OPT_SUSPEND),
          ⟨s.mnh_pwr, s.trace ++
            [.mnh_pci_suspend dev, .pci_prepare_to_sleep dev,
              .msm_pcie_pm_control .MSM_PCIE_SUSPEND dev.bus_number dev PM_OPT_SUSPEND]⟩) := by
  unfold mnh_pwr_pcie_suspend
  rw [hdev]
  simp only [hw_call, List.append_assoc, List.cons_append, List.nil_append]
  split_ifs with h1 h2 h3
  · rfl
  · rfl
  · rfl
  · exact Prod.ext (not_not.mp h3).symm rfl

theorem mnh_pwr_pcie_resume_eq (env : Env) (s : Sys) (dev : pci_dev)
    (hdev : s.mnh_pwr.pcidev = some dev) :
    mnh_pwr_pcie_resume env s =
      if env.ret s.trace
          (.msm_pcie_pm_control .MSM_PCIE_RESUME dev.bus_number dev PM_OPT_RESUME) ≠ 0 then
        (env.ret s.trace
            (.msm_pcie_pm_control .MSM_PCIE_RESUME dev.bus_number dev PM_OPT_RESUME),
          ⟨s.mnh_pwr, s.trace ++
            [.msm_pcie_pm_control .MSM_PCIE_RESUME dev.bus_number dev PM_OPT_RESUME]⟩)
      else if env.ret (s.trace ++
          [.msm_pcie_pm_control .MSM_PCIE_RESUME dev.bus_number dev PM_OPT_RESUME])
          (.pci_back_from_sleep dev) ≠ 0 then
        (env.ret (s.trace ++
            [.msm_pcie_pm_control .MSM_PCIE_RESUME dev.bus_number dev PM_OPT_RESUME])
            (.pci_back_from_sleep dev),
          ⟨s.mnh_pwr, s.trace ++
            [.msm_pcie_pm_control .MSM_PCIE_RESUME dev.bus_number dev PM_OPT_RESUME,
              .pci_back_from_sleep dev,
              .msm_pcie_pm_control .MSM_PCIE_SUSPEND dev.bus_number dev PM_OPT_SUSPEND]⟩)
      else if env.ret (s.trace ++
          [.msm_pcie_pm_control .MSM_PCIE_RESUME dev.bus_number dev PM_OPT_RESUME,
            .pci_back_from_sleep dev])
          (.pci_load_saved_state dev s.mnh_pwr.pristine_state) ≠ 0 then
        (env.ret (s.trace ++
            [.msm_pcie_pm_control .MSM_PCIE_RESUME dev.bus_number dev PM_OPT_RESUME,
              .pci_back_from_sleep dev])
            (.pci_load_saved_state dev s.mnh_pwr.pristine_state),
          ⟨s.mnh_pwr, s.trace ++
            [.msm_pcie_pm_control .MSM_PCIE_RESUME dev.bus_number dev PM_OPT_RESUME,
              .pci_back_from_sleep dev,
              .pci_load_saved_state dev s.mnh_pwr.pristine_state,
              .pci_prepare_to_sleep dev,
              .msm_pcie_pm_control .MSM_PCIE_SUSPEND dev.bus_number dev PM_OPT_SUSPEND]⟩)
      else if env.ret (s.trace ++
          [.msm_pcie_pm_control .MSM_PCIE_RESUME dev.bus_number dev PM_OPT_RESUME,
            .pci_back_from_sleep dev,
            .pci_load_saved_state dev s.mnh_pwr.pristine_state,
            .pci_restore_state dev])
          (.mnh_pci_resume dev) ≠ 0 then
        (env.ret (s.trace ++
            [.msm_pcie_pm_control .MSM_PCIE_RESUME dev.bus_number dev PM_OPT_RESUME,
              .pci_back_from_sleep dev,
              .pci_load_saved_state dev s.mnh_pwr.pristine_state,
              .pci_restore_state dev])
            (.mnh_pci_resume dev),
          ⟨s.mnh_pwr, s.trace ++
            [.msm_pcie_pm_control .MSM_PCIE_RESUME dev.bus_number dev PM_OPT_RESUME,
              .pci_back_from_sleep dev,
              .pci_load_saved_state dev s.mnh_pwr.pristine_state,
              .pci_restore_state dev,
              .mnh_pci_resume dev,
              .pci_prepare_to_sleep dev,
              .msm_pcie_pm_control .MSM_PCIE_SUSPEND dev.bus_number dev PM_OPT_SUSPEND]⟩)
      else
        (0, ⟨{ s.mnh_pwr with pcie_failure := false }, s.trace ++
            [.msm_pcie_pm_control .MSM_PCIE_RESUME dev.bus_number dev PM_OPT_RESUME,
              .pci_back_from_sleep dev,
              .pci_load_saved_state dev s.mnh_pwr.pristine_state,
              .pci_restore_state dev,
              .mnh_pci_resume dev]⟩) := by
  unfold mnh_pwr_pcie_resume
  rw [hdev]
  simp only [hw_call, hw_void, fail_pcie_resume_awake, fail_pcie_resume_load_state,
    List.append_assoc, List.cons_append, List.nil_append]

theorem mnh_pwr_pcie_enumerate_failure_flag (env : Env) (s : Sys) :
    (mnh_pwr_pcie_enumerate env s).2.mnh_pwr.pcie_failure = s.mnh_pwr.pcie_failure := by
  simp only [mnh_pwr_pcie_enumerate, hw_call, hw_void, pci_get_device_loop_eq]
  split_ifs
  · rfl
  · cases mnh_device
        (env.pci_devices (s.trace ++ [.msm_pcie_enumerate MNH_PCIE_RC_INDEX])) with
    | none => rfl
    | some dev =>
      simp only
      split_ifs <;> rfl

theorem mnh_pwr_pcie_suspend_flag (env : Env) (s : Sys) :
    (mnh_pwr_pcie_suspend env s).2.mnh_pwr.pcie_failure =
      if (mnh_pwr_pcie_suspend env s).1 = 0 then false else s.mnh_pwr.pcie_failure := by
  cases hp : s.mnh_pwr.pcidev with
  | none =>
    unfold mnh_pwr_pcie_suspend
    rw [hp]
    simp only
    rw [if_neg (by decide)]
  | some dev =>
    rw [mnh_pwr_pcie_suspend_eq env s dev hp]
    by_cases hf : s.mnh_pwr.pcie_failure = true
    · rw [if_pos hf]
      by_cases h1 : env.ret s.trace (.msm_pcie_pm_control .MSM_PCIE_SUSPEND dev.bus_number dev
          (PM_OPT_SUSPEND ++ [.MSM_PCIE_CONFIG_NO_CFG_RESTORE])) ≠ 0
      · rw [if_pos h1]
        simp only
        rw [if_neg h1]
      · rw [if_neg h1]
        simp only
        rfl
    · rw [if_neg hf]
      simp only
      split_ifs
      · exact Bool.eq_false_iff.mpr hf
      · rfl

theorem mnh_pwr_pcie_resume_flag (env : Env) (s : Sys) :
    (mnh_pwr_pcie_resume env s).2.mnh_pwr.pcie_failure =
      if (mnh_pwr_pcie_resume env s).1 = 0 then false else s.mnh_pwr.pcie_failure := by
  cases hp : s.mnh_pwr.pcidev with
  | none =>
    unfold mnh_pwr_pcie_resume
    rw [hp]
    simp only
    have hE := mnh_pwr_pcie_enumerate_failure_flag env s
    generalize mnh_pwr_pcie_enumerate env s = p at hE ⊢
    obtain ⟨ret, s1⟩ := p
    simp only at hE ⊢
    by_cases h1 : ret = 0
    · rw [if_neg (not_not.mpr h1)]
      simp only [hw_call]
      rfl
    · rw [if_pos h1]
      simp only
      rw [if_neg h1]
      exact hE
  | some dev =>
    rw [mnh_pwr_pcie_resume_eq env s dev hp]
    split_ifs <;> first | rfl | contradiction

/-! ## Rails as booleans -/

theorem sweep_rail_of_on (env : Env) (r : regulator) (t : List Call)
    (hq : ∀ t r, env.ret t (.regulator_is_enabled r) ≠ 0 ↔ rail_on r t = true)
    (h : rail_on r t = true) :
    sweep_rail env r t = t ++ [.regulator_is_enabled r, .regulator_disable r] := by
  unfold sweep_rail
  rw [if_pos ((hq t r).mpr h)]

/-! ## The suspend transition, call by call -/

theorem mnh_pwr_suspend_eq (env : Env) (s : Sys) :
    mnh_pwr_suspend env s =
      (fun l : Int × Sys =>
        if l.1 ≠ 0 then
          (l.1, (⟨{ l.2.mnh_pwr with
              ref_clk_enabled := false, sleep_clk_enabled := false, state := .MNH_PWR_S4 },
            rail_sweep env (l.2.trace ++ [Call.gpiod_set_value_cansleep 0] ++
              clk_off_calls l.2.mnh_pwr true)⟩ : Sys))
        else if env.ret (l.2.trace ++ [Call.gpiod_set_value_cansleep 0] ++
            clk_off_calls l.2.mnh_pwr false) (.regulator_disable .asr_supply) ≠ 0 then
          (env.ret (l.2.trace ++ [Call.gpiod_set_value_cansleep 0] ++
              clk_off_calls l.2.mnh_pwr false) (.regulator_disable .asr_supply),
            ⟨{ l.2.mnh_pwr with
              ref_clk_enabled := false, sleep_clk_enabled := false, state := .MNH_PWR_S4 },
            rail_sweep env (l.2.trace ++ [Call.gpiod_set_value_cansleep 0] ++
              clk_off_calls l.2.mnh_pwr false ++ [.regulator_disable .asr_supply])⟩)
        else
          (0, ⟨{ l.2.mnh_pwr with
              ref_clk_enabled := false, sleep_clk_enabled := false, state := .MNH_PWR_S3 },
            l.2.trace ++ [Call.gpiod_set_value_cansleep 0] ++
              clk_off_calls l.2.mnh_pwr false ++
              [.regulator_disable .asr_supply, .regulator_disable .ioldo_supply]⟩))
        (if env.boot_mode s.trace = .MNH_BOOT_MODE_PCIE then mnh_pwr_pcie_suspend env s
        else (0, hw_void (.msm_pcie_set_reset MNH_PCIE_RC_INDEX true) s)) := by
  unfold mnh_pwr_suspend
  generalize (if env.boot_mode s.trace = .MNH_BOOT_MODE_PCIE then mnh_pwr_pcie_suspend env s
        else (0, hw_void (.msm_pcie_set_reset MNH_PCIE_RC_INDEX true) s)) = l
  obtain ⟨ret, s1⟩ := l
  by_cases hr : ret = 0
  · subst hr
    simp only [ne_eq, not_true_eq_false, if_false]
    simp only [hw_call, disable_ref_clk_eq, disable_sleep_clk_eq, hw_void_eq, clk_off_calls,
      List.append_assoc, fail_pwr_suspend_regulators_eq, Bool.false_eq_true, if_false]
    split_ifs <;> simp only [List.append_assoc, List.cons_append, List.nil_append]
  · simp only [hr, ne_eq, not_false_eq_true, if_true, fail_pwr_suspend_pcie_eq]

theorem clk_off_calls_are_disables (d : mnh_pwr_data) (b : Bool) :
    ∀ c ∈ clk_off_calls d b, ∃ k, c = Call.clk_disable_unprepare k := by
  intro c hc
  unfold clk_off_calls at hc
  simp only at hc
  split_ifs at hc <;> simp at hc <;> rcases hc with rfl | rfl <;> exact ⟨_, rfl⟩

theorem mnh_pwr_pcie_suspend_adds_link (env : Env) (s : Sys) :
    AddsOnly Call.link s (mnh_pwr_pcie_suspend env s).2 := by
  cases hp : s.mnh_pwr.pcidev with
  | none =>
    unfold mnh_pwr_pcie_suspend
    rw [hp]
    exact AddsOnly.adds_refl _ s
  | some dev =>
    rw [mnh_pwr_pcie_suspend_eq env s dev hp]
    split_ifs <;> exact ⟨_, rfl, by simp [Call.link]⟩

/-! ## A successful power-up -/

theorem link_call_is_not_pin (c : Call) (h : c.link = true) :
    ∀ w, c ≠ Call.gpiod_set_value_cansleep w := by
  intro w hc
  rw [hc] at h
  exact Bool.false_ne_true h

theorem pci_lookup_calls_link (devs : List pci_dev) (start : Option pci_dev) :
    ∀ c ∈ pci_lookup_calls start devs, c.link = true := by
  intro c hc
  obtain ⟨st, rfl⟩ := pci_lookup_calls_mem devs start c hc
  rfl

theorem AddsOnly.adds_list (p : Call → Bool) (a : Sys) (d : mnh_pwr_data) (l : List Call)
    (hl : ∀ c ∈ l, p c = true) : AddsOnly p a ⟨d, a.trace ++ l⟩ :=
  ⟨l, rfl, hl⟩

theorem mnh_pwr_pcie_enumerate_adds_link (env : Env) (s : Sys) :
    AddsOnly Call.link s (mnh_pwr_pcie_enumerate env s).2 := by
  simp only [mnh_pwr_pcie_enumerate, hw_call, hw_void, pci_get_device_loop_eq]
  have hlk := pci_lookup_calls_link
    (env.pci_devices (s.trace ++ [.msm_pcie_enumerate MNH_PCIE_RC_INDEX])) none
  split_ifs
  · exact AddsOnly.adds_call _ s _ _ rfl
  · cases mnh_device
        (env.pci_devices (s.trace ++ [.msm_pcie_enumerate MNH_PCIE_RC_INDEX])) with
    | none =>
      simp only [List.append_assoc]
      refine AddsOnly.adds_list _ s _ _ ?_
      intro c hc
      rcases List.mem_append.mp hc with hc | hc
      · rw [List.mem_singleton.mp hc]
        rfl
      · exact hlk c hc
    | some dev =>
      simp only
      split_ifs <;>
      · simp only [List.append_assoc]
        refine AddsOnly.adds_list _ s _ _ ?_
        intro c hc
        simp only [List.mem_append, List.mem_cons, List.mem_singleton, List.not_mem_nil,
          or_false] at hc
        rcases hc with rfl | hc | hc
        · rfl
        · exact hlk c hc
        · rcases hc with rfl | rfl | rfl <;> rfl

theorem mnh_pwr_pcie_resume_adds_link (env : Env) (s : Sys) :
    AddsOnly Call.link s (mnh_pwr_pcie_resume env s).2 := by
  cases hp : s.mnh_pwr.pcidev with
  | none =>
    unfold mnh_pwr_pcie_resume
    rw [hp]
    simp only
    have k0 := mnh_pwr_pcie_enumerate_adds_link env s
    generalize mnh_pwr_pcie_enumerate env s = p at k0 ⊢
    obtain ⟨ret, s1⟩ := p
    simp only [hw_call]
    split_ifs
    · exact k0
    · exact k0.adds_trans (AddsOnly.adds_call _ s1 _ _ rfl)
  | some dev =>
    rw [mnh_pwr_pcie_resume_eq env s dev hp]
    split_ifs <;> exact AddsOnly.adds_list _ s _ _ (by simp [Call.link])

theorem enable_ref_clk_ok (env : Env) (s : Sys) (h : (enable_ref_clk env s).1 = 0) :
    (enable_ref_clk env s).2.mnh_pwr.ref_clk_enabled = true := by
  unfold enable_ref_clk at h ⊢
  simp only [hw_call] at h ⊢
  split_ifs at h ⊢ with h1 h2
  all_goals first
    | exact absurd h h2
    | rfl
    | exact h1

theorem enable_sleep_clk_ok (env : Env) (s : Sys) (h : (enable_sleep_clk env s).1 = 0) :
    (enable_sleep_clk env s).2.mnh_pwr.sleep_clk_enabled = true ∧
      (enable_sleep_clk env s).2.mnh_pwr.ref_clk_enabled = s.mnh_pwr.ref_clk_enabled := by
  unfold enable_sleep_clk at h ⊢
  simp only [hw_call] at h ⊢
  split_ifs at h ⊢ with h1 h2
  all_goals first
    | exact absurd h h2
    | exact ⟨rfl, rfl⟩
    | exact ⟨h1, rfl⟩

theorem mnh_pwr_up_success (env : Env) (n : mnh_pwr_state) (s : Sys)
    (h : (mnh_pwr_up env n s).1 = 0) :
    (mnh_pwr_up env n s).2.mnh_pwr.ref_clk_enabled = true ∧
    (mnh_pwr_up env n s).2.mnh_pwr.sleep_clk_enabled = true ∧
    pin_level (mnh_pwr_up env n s).2.trace = some 1 := by
  revert h
  unfold mnh_pwr_up
  simp only []
  generalize regulator_enable_from_S4 env .sdldo_supply s = e1
  generalize hw_call env (.regulator_enable .ioldo_supply) e1.2 = e2
  generalize hw_call env (.regulator_enable .asr_supply) e2.2 = e3
  generalize regulator_enable_from_S4 env .sdsr_supply e3.2 = e4
  have k5 := enable_ref_clk_ok env e4.2
  generalize enable_ref_clk env e4.2 = c1 at k5 ⊢
  have k6 := enable_sleep_clk_ok env c1.2
  generalize enable_sleep_clk env c1.2 = c2 at k6 ⊢
  have k7 : LinkFrame (hw_void (.udelay 60) (hw_void (.gpiod_set_value_cansleep 1) c2.2))
      (if env.boot_mode (hw_void (.udelay 60)
            (hw_void (.gpiod_set_value_cansleep 1) c2.2)).trace = .MNH_BOOT_MODE_PCIE then
          mnh_pwr_pcie_resume env (hw_void (.udelay 60)
            (hw_void (.gpiod_set_value_cansleep 1) c2.2))
        else
          (0, hw_void (.msm_pcie_set_reset MNH_PCIE_RC_INDEX false)
            (hw_void (.udelay 60) (hw_void (.gpiod_set_value_cansleep 1) c2.2)))).2 ∧
      AddsOnly Call.link (hw_void (.udelay 60) (hw_void (.gpiod_set_value_cansleep 1) c2.2))
      (if env.boot_mode (hw_void (.udelay 60)
            (hw_void (.gpiod_set_value_cansleep 1) c2.2)).trace = .MNH_BOOT_MODE_PCIE then
          mnh_pwr_pcie_resume env (hw_void (.udelay 60)
            (hw_void (.gpiod_set_value_cansleep 1) c2.2))
        else
          (0, hw_void (.msm_pcie_set_reset MNH_PCIE_RC_INDEX false)
            (hw_void (.udelay 60) (hw_void (.gpiod_set_value_cansleep 1) c2.2)))).2 := by
    split
    · exact ⟨mnh_pwr_pcie_resume_frame env _, mnh_pwr_pcie_resume_adds_link env _⟩
    · exact ⟨LinkFrame.frame_log _ _ _ rfl rfl rfl, AddsOnly.adds_call _ _ _ _ rfl⟩
  generalize (if env.boot_mode (hw_void (.udelay 60)
            (hw_void (.gpiod_set_value_cansleep 1) c2.2)).trace = .MNH_BOOT_MODE_PCIE then
          mnh_pwr_pcie_resume env (hw_void (.udelay 60)
            (hw_void (.gpiod_set_value_cansleep 1) c2.2))
        else
          (0, hw_void (.msm_pcie_set_reset MNH_PCIE_RC_INDEX false)
            (hw_void (.udelay 60) (hw_void (.gpiod_set_value_cansleep 1) c2.2)))) = lk at k7 ⊢
  obtain ⟨⟨f1, f2, _, _⟩, l, hl1, hl2⟩ := k7
  split_ifs with h1 h2 h3 h4 h5 h6 h7
  · intro h; rw [fail_pwr_up_regulators_eq] at h; exact absurd h h1
  · intro h; rw [fail_pwr_up_regulators_eq] at h; exact absurd h h2
  · intro h; rw [fail_pwr_up_regulators_eq] at h; exact absurd h h3
  · intro h; rw [fail_pwr_up_regulators_eq] at h; exact absurd h h4
  · intro h; rw [fail_pwr_up_regulators_eq] at h; exact absurd h h5
  · intro h; rw [fail_pwr_up_sleep_clk_eq] at h; exact absurd h h6
  · intro h; rw [fail_pwr_up_pcie_eq] at h; exact absurd h h7
  · intro _
    have q6 := k6 (not_not.mp h6)
    have q5 := k5 (not_not.mp h5)
    refine ⟨?_, ?_, ?_⟩
    · show lk.2.mnh_pwr.ref_clk_enabled = true
      rw [f1]
      exact q6.2.trans q5
    · show lk.2.mnh_pwr.sleep_clk_enabled = true
      rw [f2]
      exact q6.1
    · show pin_level lk.2.trace = some 1
      rw [hl1]
      have := pin_level_append_pin c2.2.trace ([Call.udelay 60] ++ l) 1 (by
        intro c hc
        rcases List.mem_append.mp hc with hc | hc
        · rw [List.mem_singleton.mp hc]
          exact fun _ => Call.noConfusion
        · exact link_call_is_not_pin c (hl2 c hc))
      simpa only [hw_void_eq, List.append_assoc] using this

/-! ## Full power -/

theorem powered_in_S0_deliver (env : Env) (s : Sys) (ev : Event) (h : PoweredInS0 s) :
    PoweredInS0 (deliver env s ev) := by
  cases ev with
  | set_state target =>
    show PoweredInS0 (mnh_pwr_set_state env target s).2
    unfold mnh_pwr_set_state
    split_ifs with hne
    · cases target with
      | MNH_PWR_S0 =>
        intro hst
        rcases mnh_pwr_up_outcome env .MNH_PWR_S0 s with ⟨h0, _⟩ | ⟨_, h4⟩
        · exact mnh_pwr_up_success env _ s h0
        · rw [h4] at hst
          exact mnh_pwr_state.noConfusion hst
      | MNH_PWR_S1 =>
        intro hst
        rw [mnh_pwr_partial_eq] at hst
        exact mnh_pwr_state.noConfusion hst
      | MNH_PWR_S3 =>
        intro hst
        rcases mnh_pwr_suspend_outcome env s with ⟨_, h3⟩ | ⟨_, h4⟩
        · rw [h3] at hst
          exact mnh_pwr_state.noConfusion hst
        · rw [h4] at hst
          exact mnh_pwr_state.noConfusion hst
      | MNH_PWR_S4 =>
        intro hst
        rw [mnh_pwr_down_state] at hst
        exact mnh_pwr_state.noConfusion hst
      | other v => exact h
    · exact h
  | regulator_event r event =>
    show PoweredInS0 (regulator_notifier_cb r event s).2
    cases r <;>
      simp only [regulator_notifier_cb, mnh_pwr_asr_notifier_cb, mnh_pwr_sdsr_notifier_cb,
        mnh_pwr_ioldo_notifier_cb, mnh_pwr_sdldo_notifier_cb, schedule_work] <;>
      split_ifs <;> exact h
  | link_event event =>
    cases event with
    | MSM_PCIE_EVENT_LINKDOWN => exact h
    | MSM_PCIE_EVENT_OTHER v => exact h
  | shutdown_work =>
    intro hst
    have := mnh_pwr_shutdown_work_state env s
    rw [show (deliver env s .shutdown_work) = mnh_pwr_shutdown_work env s from rfl, this] at hst
    exact mnh_pwr_state.noConfusion hst

theorem powered_in_S0_run (env : Env) (evs : List Event) :
    ∀ s, PoweredInS0 s → PoweredInS0 (run env s evs) := by
  induction evs with
  | nil => exact fun _ h => h
  | cons ev rest ih =>
    intro s h
    exact ih _ (powered_in_S0_deliver env s ev h)

/-! ## Relations respected by every step once a device is recorded -/

section Session

variable {env : Env} {R : Sys → Sys → Prop}

theorem session_hw_call (h : SessionClosed env R) (a : Sys) (c : Call) (hc : c.is_enumerate = false) :
    R a (hw_call env c a).2 :=
  h.call a c hc

theorem session_hw_void (h : SessionClosed env R) (a : Sys) (c : Call) (hc : c.is_enumerate = false) :
    R a (hw_void c a) :=
  h.call a c hc

theorem session_calls (h : SessionClosed env R) (a : Sys) (l : List Call) (d : mnh_pwr_data)
    (hl : ∀ c ∈ l, c.is_enumerate = false)
    (h1 : d.pcidev = a.mnh_pwr.pcidev)
    (h2 : d.pristine_state = a.mnh_pwr.pristine_state) :
    R a ⟨d, a.trace ++ l⟩ := by
  induction l using List.reverseRecOn generalizing d with
  | nil =>
    rw [List.append_nil]
    exact h.update a d h1 h2
  | append_singleton l c ih =>
    have k := ih a.mnh_pwr (fun x hx => hl x (List.mem_append_left _ hx)) rfl rfl
    have kc := h.call ⟨a.mnh_pwr, a.trace ++ l⟩ c
      (hl c (List.mem_append_right _ (List.mem_singleton_self c)))
    have ku := h.update ⟨a.mnh_pwr, a.trace ++ l ++ [c]⟩ d h1 h2
    rw [← List.append_assoc]
    exact h.trans _ _ _ k (h.trans _ _ _ kc ku)

theorem session_enable_ref_clk (h : SessionClosed env R) (a : Sys) :
    R a (enable_ref_clk env a).2 := by
  unfold enable_ref_clk hw_call
  simp only []
  split_ifs
  all_goals first
    | exact h.refl a
    | exact session_calls h a [.clk_prepare_enable .ref_clk] _ (by simp [Call.is_enumerate])
        rfl rfl

theorem session_enable_sleep_clk (h : SessionClosed env R) (a : Sys) :
    R a (enable_sleep_clk env a).2 := by
  unfold enable_sleep_clk hw_call
  simp only []
  split_ifs
  all_goals first
    | exact h.refl a
    | exact session_calls h a [.clk_prepare_enable .sleep_clk] _ (by simp [Call.is_enumerate])
        rfl rfl

theorem session_disable_ref_clk (h : SessionClosed env R) (a : Sys) :
    R a (disable_ref_clk a) := by
  unfold disable_ref_clk hw_void
  simp only []
  split_ifs
  all_goals first
    | exact h.refl a
    | exact session_calls h a [.clk_disable_unprepare .ref_clk] _ (by simp [Call.is_enumerate])
        rfl rfl

theorem session_disable_sleep_clk (h : SessionClosed env R) (a : Sys) :
    R a (disable_sleep_clk a) := by
  unfold disable_sleep_clk hw_void
  simp only []
  split_ifs
  all_goals first
    | exact h.refl a
    | exact session_calls h a [.clk_disable_unprepare .sleep_clk] _
        (by simp [Call.is_enumerate]) rfl rfl

theorem session_pcie_suspend (h : SessionClosed env R) (a : Sys) :
    R a (mnh_pwr_pcie_suspend env a).2 := by
  unfold mnh_pwr_pcie_suspend
  split
  · exact h.refl a
  · split
    · simp only [hw_call]
      split_ifs <;> simp only [List.append_assoc] <;>
        exact session_calls h a _ _ (by simp [Call.is_enumerate]) rfl rfl
    · simp only [hw_call]
      split_ifs <;> simp only [List.append_assoc] <;>
        exact session_calls h a _ _ (by simp [Call.is_enumerate]) rfl rfl

theorem session_pcie_resume (h : SessionClosed env R) (a : Sys) :
    R a (mnh_pwr_pcie_resume env a).2 := by
  unfold mnh_pwr_pcie_resume
  split
  · rename_i hp
    have k0 := h.first a hp
    generalize mnh_pwr_pcie_enumerate env a = p at k0 ⊢
    obtain ⟨ret, s1⟩ := p
    simp only [hw_call]
    split_ifs
    · exact k0
    · exact h.trans _ _ _ k0
        (session_calls h s1 [.msm_pcie_register_event s1.mnh_pwr.pcidev] _
          (by simp [Call.is_enumerate]) rfl rfl)
  · simp only [hw_call, hw_void, fail_pcie_resume_awake, fail_pcie_resume_load_state]
    split_ifs <;> simp only [List.append_assoc] <;>
      exact session_calls h a _ _ (by simp [Call.is_enumerate]) rfl rfl

theorem session_regulator_disable_if_enabled (h : SessionClosed env R) (a : Sys) (r : regulator) :
    R a (regulator_disable_if_enabled env r a).2 := by
  rw [regulator_disable_if_enabled_snd]
  unfold sweep_rail
  split_ifs <;> exact session_calls h a _ _ (by simp [Call.is_enumerate]) rfl rfl

theorem session_sweep_rail (h : SessionClosed env R) (a : Sys) (r : regulator) (d : mnh_pwr_data)
    (h1 : d.pcidev = a.mnh_pwr.pcidev)
    (h2 : d.pristine_state = a.mnh_pwr.pristine_state) :
    R a ⟨d, sweep_rail env r a.trace⟩ := by
  unfold sweep_rail
  split_ifs <;> exact session_calls h a _ _ (by simp [Call.is_enumerate]) h1 h2

theorem session_rail_sweep (h : SessionClosed env R) (a : Sys) (d : mnh_pwr_data)
    (h1 : d.pcidev = a.mnh_pwr.pcidev)
    (h2 : d.pristine_state = a.mnh_pwr.pristine_state) :
    R a ⟨d, rail_sweep env a.trace⟩ := by
  unfold rail_sweep
  have k1 := session_sweep_rail h a .sdsr_supply a.mnh_pwr rfl rfl
  have k2 := session_sweep_rail h ⟨a.mnh_pwr, sweep_rail env .sdsr_supply a.trace⟩
    .asr_supply a.mnh_pwr rfl rfl
  have k3 := session_sweep_rail h
    ⟨a.mnh_pwr, sweep_rail env .asr_supply (sweep_rail env .sdsr_supply a.trace)⟩
    .ioldo_supply a.mnh_pwr rfl rfl
  have k4 := session_sweep_rail h
    ⟨a.mnh_pwr, sweep_rail env .ioldo_supply (sweep_rail env .asr_supply
      (sweep_rail env .sdsr_supply a.trace))⟩
    .sdldo_supply d h1 h2
  exact h.trans _ _ _ k1 (h.trans _ _ _ k2 (h.trans _ _ _ k3 k4))

theorem session_regulator_enable_from_S4 (h : SessionClosed env R) (a : Sys)
    (r : regulator) : R a (regulator_enable_from_S4 env r a).2 := by
  unfold regulator_enable_from_S4
  split
  · exact h.call a (.regulator_enable r) rfl
  · exact h.refl a

theorem session_fail_pwr_up_regulators (h : SessionClosed env R) (a : Sys) (ret : Int) :
    R a (fail_pwr_up_regulators env ret a).2 := by
  rw [fail_pwr_up_regulators_eq]
  exact session_rail_sweep h a _ rfl rfl

theorem session_fail_pwr_up_sleep_clk (h : SessionClosed env R) (a : Sys) (ret : Int) :
    R a (fail_pwr_up_sleep_clk env ret a).2 :=
  h.trans _ _ _ (session_disable_ref_clk h a) (session_fail_pwr_up_regulators h _ ret)

theorem session_fail_pwr_up_pcie (h : SessionClosed env R) (a : Sys) (ret : Int) :
    R a (fail_pwr_up_pcie env ret a).2 :=
  h.trans _ _ _ (session_hw_void h a (.gpiod_set_value_cansleep 0) rfl)
    (h.trans _ _ _ (session_disable_sleep_clk h _) (session_fail_pwr_up_sleep_clk h _ ret))

theorem session_fail_pwr_suspend_regulators (h : SessionClosed env R) (a : Sys) (ret : Int) :
    R a (fail_pwr_suspend_regulators env ret a).2 := by
  rw [fail_pwr_suspend_regulators_eq]
  exact session_rail_sweep h a _ rfl rfl

theorem session_fail_pwr_suspend_pcie (h : SessionClosed env R) (a : Sys) (ret : Int) :
    R a (fail_pwr_suspend_pcie env ret a).2 :=
  h.trans _ _ _ (session_hw_void h a (.gpiod_set_value_cansleep 0) rfl)
    (h.trans _ _ _ (session_disable_sleep_clk h _)
      (h.trans _ _ _ (session_disable_ref_clk h _) (session_fail_pwr_suspend_regulators h _ ret)))

theorem session_disable_if_enabled (h : SessionClosed env R) (a : Sys) (r : regulator) :
    R a (disable_if_enabled env r a) :=
  session_regulator_disable_if_enabled h a r

theorem session_fail_pwr_down_sdldo (h : SessionClosed env R) (a : Sys) (ret : Int) :
    R a (fail_pwr_down_sdldo ret a).2 :=
  h.update a _ rfl rfl

theorem session_fail_pwr_down_ioldo (h : SessionClosed env R) (a : Sys) (ret : Int) :
    R a (fail_pwr_down_ioldo env ret a).2 :=
  h.trans _ _ _ (session_disable_if_enabled h a .sdldo_supply)
    (session_fail_pwr_down_sdldo h _ ret)

theorem session_fail_pwr_down_asr (h : SessionClosed env R) (a : Sys) (ret : Int) :
    R a (fail_pwr_down_asr env ret a).2 :=
  h.trans _ _ _ (session_disable_if_enabled h a .ioldo_supply)
    (session_fail_pwr_down_ioldo h _ ret)

theorem session_fail_pwr_down_sdsr (h : SessionClosed env R) (a : Sys) (ret : Int) :
    R a (fail_pwr_down_sdsr env ret a).2 :=
  h.trans _ _ _ (session_disable_if_enabled h a .asr_supply)
    (session_fail_pwr_down_asr h _ ret)

theorem session_fail_pwr_down_pcie (h : SessionClosed env R) (a : Sys) (ret : Int) :
    R a (fail_pwr_down_pcie env ret a).2 :=
  h.trans _ _ _ (session_hw_void h a (.gpiod_set_value_cansleep 0) rfl)
    (h.trans _ _ _ (session_disable_sleep_clk h _)
      (h.trans _ _ _ (session_disable_ref_clk h _)
        (h.trans _ _ _ (session_disable_if_enabled h _ .sdsr_supply)
          (session_fail_pwr_down_sdsr h _ ret))))

theorem session_mnh_pwr_down (h : SessionClosed env R) (s : Sys) :
    R s (mnh_pwr_down env s).2 := by
  unfold mnh_pwr_down
  have k0 : R s (if s.mnh_pwr.state ≠ .MNH_PWR_S3 ∧
      env.boot_mode s.trace = .MNH_BOOT_MODE_PCIE then mnh_pwr_pcie_suspend env s
    else (0, hw_void (.msm_pcie_set_reset MNH_PCIE_RC_INDEX true) s)).2 := by
    split
    · exact session_pcie_suspend h s
    · exact session_hw_void h s _ rfl
  generalize (if s.mnh_pwr.state ≠ .MNH_PWR_S3 ∧
      env.boot_mode s.trace = .MNH_BOOT_MODE_PCIE then mnh_pwr_pcie_suspend env s
    else (0, hw_void (.msm_pcie_set_reset MNH_PCIE_RC_INDEX true) s)) = l at k0 ⊢
  simp only []
  have k1 := h.trans _ _ _ k0 (session_hw_void h l.2 (.gpiod_set_value_cansleep 0) rfl)
  have k2 := h.trans _ _ _ k1 (session_disable_ref_clk h _)
  have k3 := h.trans _ _ _ k2 (session_disable_sleep_clk h _)
  have k4 := h.trans _ _ _ k3 (session_regulator_disable_if_enabled h _ .sdsr_supply)
  generalize regulator_disable_if_enabled env .sdsr_supply
    (disable_sleep_clk (disable_ref_clk (hw_void (.gpiod_set_value_cansleep 0) l.2))) = e1
    at k4 ⊢
  have k5 := h.trans _ _ _ k4 (session_regulator_disable_if_enabled h e1.2 .asr_supply)
  generalize regulator_disable_if_enabled env .asr_supply e1.2 = e2 at k5 ⊢
  have k6 := h.trans _ _ _ k5 (session_regulator_disable_if_enabled h e2.2 .ioldo_supply)
  generalize regulator_disable_if_enabled env .ioldo_supply e2.2 = e3 at k6 ⊢
  have k7 := h.trans _ _ _ k6 (session_regulator_disable_if_enabled h e3.2 .sdldo_supply)
  generalize regulator_disable_if_enabled env .sdldo_supply e3.2 = e4 at k7 ⊢
  split_ifs
  · exact h.trans _ _ _ k0 (session_fail_pwr_down_pcie h _ _)
  · exact h.trans _ _ _ k4 (session_fail_pwr_down_sdsr h _ _)
  · exact h.trans _ _ _ k5 (session_fail_pwr_down_asr h _ _)
  · exact h.trans _ _ _ k6 (session_fail_pwr_down_ioldo h _ _)
  · exact h.trans _ _ _ k7 (session_fail_pwr_down_sdldo h _ _)
  · exact h.trans _ _ _ k7 (h.update _ _ rfl rfl)

theorem session_mnh_pwr_suspend (h : SessionClosed env R) (s : Sys) :
    R s (mnh_pwr_suspend env s).2 := by
  unfold mnh_pwr_suspend
  have k0 : R s (if env.boot_mode s.trace = .MNH_BOOT_MODE_PCIE then mnh_pwr_pcie_suspend env s
    else (0, hw_void (.msm_pcie_set_reset MNH_PCIE_RC_INDEX true) s)).2 := by
    split
    · exact session_pcie_suspend h s
    · exact session_hw_void h s _ rfl
  generalize (if env.boot_mode s.trace = .MNH_BOOT_MODE_PCIE then mnh_pwr_pcie_suspend env s
    else (0, hw_void (.msm_pcie_set_reset MNH_PCIE_RC_INDEX true) s)) = l at k0 ⊢
  simp only []
  have k1 := h.trans _ _ _ k0 (session_hw_void h l.2 (.gpiod_set_value_cansleep 0) rfl)
  have k2 := h.trans _ _ _ k1 (session_disable_ref_clk h _)
  have k3 := h.trans _ _ _ k2 (session_disable_sleep_clk h _)
  have k4 := h.trans _ _ _ k3 (session_hw_call h _ (.regulator_disable .asr_supply) rfl)
  generalize hw_call env (.regulator_disable .asr_supply)
    (disable_sleep_clk (disable_ref_clk (hw_void (.gpiod_set_value_cansleep 0) l.2))) = e1
    at k4 ⊢
  have k5 := h.trans _ _ _ k4 (session_hw_call h e1.2 (.regulator_disable .ioldo_supply) rfl)
  generalize hw_call env (.regulator_disable .ioldo_supply) e1.2 = e2 at k5 ⊢
  split_ifs
  · exact h.trans _ _ _ k0 (session_fail_pwr_suspend_pcie h _ _)
  · exact h.trans _ _ _ k4 (session_fail_pwr_suspend_regulators h _ _)
  · exact h.trans _ _ _ k5 (h.update _ _ rfl rfl)

theorem session_mnh_pwr_partial (h : SessionClosed env R) (s : Sys) :
    R s ( mnh_pwr_partial env s).2 := by
  rw [mnh_pwr_partial_eq]
  exact h.trans _ _ _ (session_sweep_rail h s .sdsr_supply s.mnh_pwr rfl rfl)
    (session_sweep_rail h ⟨s.mnh_pwr, sweep_rail env .sdsr_supply s.trace⟩ .sdldo_supply _
      rfl rfl)

theorem session_mnh_pwr_up (h : SessionClosed env R) (n : mnh_pwr_state)
    (s : Sys) :
    R s (mnh_pwr_up env n s).2 := by
  unfold mnh_pwr_up
  simp only []
  have k1 := session_regulator_enable_from_S4 h s .sdldo_supply
  generalize regulator_enable_from_S4 env .sdldo_supply s = e1 at k1 ⊢
  have k2 : R s (hw_call env (.regulator_enable .ioldo_supply) e1.2).2 :=
    h.trans _ _ _ k1 (h.call e1.2 (.regulator_enable .ioldo_supply) rfl)
  generalize hw_call env (.regulator_enable .ioldo_supply) e1.2 = e2 at k2 ⊢
  have k3 : R s (hw_call env (.regulator_enable .asr_supply) e2.2).2 :=
    h.trans _ _ _ k2 (h.call e2.2 (.regulator_enable .asr_supply) rfl)
  generalize hw_call env (.regulator_enable .asr_supply) e2.2 = e3 at k3 ⊢
  have k4 := h.trans _ _ _ k3 (session_regulator_enable_from_S4 h e3.2 .sdsr_supply)
  generalize regulator_enable_from_S4 env .sdsr_supply e3.2 = e4 at k4 ⊢
  have k5 := h.trans _ _ _ k4 (session_enable_ref_clk h e4.2)
  generalize enable_ref_clk env e4.2 = c1 at k5 ⊢
  have k6 := h.trans _ _ _ k5 (session_enable_sleep_clk h c1.2)
  generalize enable_sleep_clk env c1.2 = c2 at k6 ⊢
  have k7 : R s
      (if env.boot_mode (hw_void (.udelay 60)
            (hw_void (.gpiod_set_value_cansleep 1) c2.2)).trace = .MNH_BOOT_MODE_PCIE then
          mnh_pwr_pcie_resume env (hw_void (.udelay 60)
            (hw_void (.gpiod_set_value_cansleep 1) c2.2))
        else
          (0, hw_void (.msm_pcie_set_reset MNH_PCIE_RC_INDEX false)
            (hw_void (.udelay 60) (hw_void (.gpiod_set_value_cansleep 1) c2.2)))).2 := by
    have k := h.trans _ _ _ k6
      (h.trans _ _ _ (session_hw_void h c2.2 (.gpiod_set_value_cansleep 1) rfl)
        (session_hw_void h _ (.udelay 60) rfl))
    split
    · exact h.trans _ _ _ k (session_pcie_resume h _)
    · exact h.trans _ _ _ k (session_hw_void h _ _ rfl)
  generalize (if env.boot_mode (hw_void (.udelay 60)
            (hw_void (.gpiod_set_value_cansleep 1) c2.2)).trace = .MNH_BOOT_MODE_PCIE then
          mnh_pwr_pcie_resume env (hw_void (.udelay 60)
            (hw_void (.gpiod_set_value_cansleep 1) c2.2))
        else
          (0, hw_void (.msm_pcie_set_reset MNH_PCIE_RC_INDEX false)
            (hw_void (.udelay 60) (hw_void (.gpiod_set_value_cansleep 1) c2.2)))) = lk at k7 ⊢
  split_ifs
  · exact h.trans _ _ _ k1 (session_fail_pwr_up_regulators h _ _)
  · exact h.trans _ _ _ k2 (session_fail_pwr_up_regulators h _ _)
  · exact h.trans _ _ _ k3 (session_fail_pwr_up_regulators h _ _)
  · exact h.trans _ _ _ k4 (session_fail_pwr_up_regulators h _ _)
  · exact h.trans _ _ _ k5 (session_fail_pwr_up_regulators h _ _)
  · exact h.trans _ _ _ k6 (session_fail_pwr_up_sleep_clk h _ _)
  · exact h.trans _ _ _ k7 (session_fail_pwr_up_pcie h _ _)
  · exact h.trans _ _ _ k7 (h.update _ _ rfl rfl)

theorem session_mnh_pwr_set_state (h : SessionClosed env R)
    (target : mnh_pwr_state) (s : Sys) : R s (mnh_pwr_set_state env target s).2 := by
  unfold mnh_pwr_set_state
  split_ifs
  · cases target with
    | MNH_PWR_S0 => exact session_mnh_pwr_up h _ s
    | MNH_PWR_S1 => exact session_mnh_pwr_partial h s
    | MNH_PWR_S3 => exact session_mnh_pwr_suspend h s
    | MNH_PWR_S4 => exact session_mnh_pwr_down h s
    | other v => exact h.refl s
  · exact h.refl s

theorem session_regulator_notifier_cb (h : SessionClosed env R) (r : regulator) (event : Nat)
    (s : Sys) : R s (regulator_notifier_cb r event s).2 := by
  cases r <;>
    simp only [regulator_notifier_cb, mnh_pwr_asr_notifier_cb, mnh_pwr_sdsr_notifier_cb,
      mnh_pwr_ioldo_notifier_cb, mnh_pwr_sdldo_notifier_cb, schedule_work] <;>
    split_ifs <;> exact h.update s _ rfl rfl

theorem session_link_state_cb (h : SessionClosed env R) (event : msm_pcie_event) (s : Sys) :
    R s (mnh_pwr_pcie_link_state_cb event s) := by
  cases event with
  | MSM_PCIE_EVENT_LINKDOWN => exact h.update s _ rfl rfl
  | MSM_PCIE_EVENT_OTHER v => exact h.refl s

theorem session_shutdown_work (h : SessionClosed env R) (s : Sys) :
    R s (mnh_pwr_shutdown_work env s) :=
  h.trans _ _ _ (session_mnh_pwr_set_state h .MNH_PWR_S4 s)
    (h.call _ .mnh_sm_pwr_error_cb rfl)

theorem session_deliver (h : SessionClosed env R) (s : Sys) (ev : Event) :
    R s (deliver env s ev) := by
  cases ev with
  | set_state target => exact session_mnh_pwr_set_state h target s
  | regulator_event r event => exact session_regulator_notifier_cb h r event s
  | link_event event => exact session_link_state_cb h event s
  | shutdown_work => exact session_shutdown_work h s

theorem session_run (h : SessionClosed env R) (evs : List Event) :
    ∀ s, R s (run env s evs) := by
  induction evs with
  | nil => exact fun s => h.refl s
  | cons ev rest ih =>
    intro s
    exact h.trans _ _ _ (session_deliver h s ev) (ih _)

end Session

/-! ## The link session is kept -/

theorem mnh_pwr_pcie_enumerate_device_has_state (env : Env) (s : Sys)
    (hnone : s.mnh_pwr.pcidev = none) :
    DeviceHasState (mnh_pwr_pcie_enumerate env s).2 := by
  simp only [mnh_pwr_pcie_enumerate, hw_call, hw_void, pci_get_device_loop_eq]
  split_ifs
  · exact fun h => absurd hnone h
  · cases mnh_device
        (env.pci_devices (s.trace ++ [.msm_pcie_enumerate MNH_PCIE_RC_INDEX])) with
    | none => exact fun h => absurd hnone h
    | some dev =>
      simp only
      split_ifs with h1 h2
      · exact fun h => absurd hnone h
      · exact fun h => absurd hnone h
      · intro _ hs
        apply h2
        show (env.saved_state _).isNone = true
        rw [show env.saved_state _ = none from hs]
        rfl

theorem session_step_closed (env : Env) : SessionClosed env SessionStep where
  refl := fun a => ⟨fun _ => ⟨rfl, rfl, AddsOnly.adds_refl _ a⟩, fun h => h⟩
  trans := by
    intro a b c h1 h2
    refine ⟨fun ha => ?_, fun h => h2.2 (h1.2 h)⟩
    obtain ⟨p1, q1, t1⟩ := h1.1 ha
    obtain ⟨p2, q2, t2⟩ := h2.1 (by rw [p1]; exact ha)
    exact ⟨p2.trans p1, q2.trans q1, t1.adds_trans t2⟩
  call := by
    intro a c hc
    refine ⟨fun _ => ⟨rfl, rfl, AddsOnly.adds_call _ a _ c ?_⟩, fun h => h⟩
    show (!c.is_enumerate) = true
    rw [hc]
    rfl
  update := by
    intro a d h1 h2
    refine ⟨fun _ => ⟨h1, h2, ⟨[], by simp, by simp⟩⟩, ?_⟩
    intro h hd
    show d.pristine_state ≠ none
    rw [h2]
    exact h (by rw [← h1]; exact hd)
  first := fun a hnone =>
    ⟨fun h => absurd hnone h, fun _ => mnh_pwr_pcie_enumerate_device_has_state env a hnone⟩

theorem session_kept_run (env : Env) (s : Sys) (evs : List Event)
    (h : s.mnh_pwr.pcidev ≠ none) : SessionKept s (run env s evs) :=
  (session_run (session_step_closed env) evs s).1 h

theorem device_has_state_run (env : Env) (s : Sys) (evs : List Event)
    (h : DeviceHasState s) : DeviceHasState (run env s evs) :=
  (session_run (session_step_closed env) evs s).2 h

theorem resume_starts_with_resume_control (env : Env) (s : Sys) (dev : pci_dev)
    (hdev : s.mnh_pwr.pcidev = some dev) :
    ∃ rest : List Call, (mnh_pwr_pcie_resume env s).2.trace =
      s.trace ++ [.msm_pcie_pm_control .MSM_PCIE_RESUME dev.bus_number dev PM_OPT_RESUME] ++
        rest := by
  rw [mnh_pwr_pcie_resume_eq env s dev hdev]
  split_ifs <;> exact ⟨_, by simp only [List.append_assoc, List.cons_append,
    List.nil_append, List.append_nil]; rfl⟩


/-! ## Claims -/

/-- C1: calling set_state with the state the sequencer is already in returns 0,
appends no call to the history and leaves every field of the device record as
it was. -/
theorem set_state_current_state_is_noop (env : Env) (s : Sys) :
    mnh_pwr_set_state env s.mnh_pwr.state s = (0, s) :=
  mnh_pwr_set_state_same env s

/-- C2: for a target among S0, S1, S3, S4, from any starting state and under any
answers of the collaborators, a set_state that returns a non-zero error leaves
the sequencer in S4. -/
theorem set_state_error_ends_in_S4 (env : Env) (target : mnh_pwr_state) (s : Sys)
    (hvalid : ∀ v, target ≠ .other v)
    (herr : (mnh_pwr_set_state env target s).1 ≠ 0) :
    mnh_pwr_get_state (mnh_pwr_set_state env target s).2 = .MNH_PWR_S4 := by
  by_cases hne : target = s.mnh_pwr.state
  · subst hne
    rw [mnh_pwr_set_state_same] at herr
    exact absurd rfl herr
  · rcases mnh_pwr_set_state_outcome env target s hvalid hne with h | h
    · exact absurd h.1 herr
    · exact h.2

/-- Witness of C2: a power-up from S4 whose ioldo enable fails with -5 returns an
error and ends in S4. -/
theorem set_state_error_ends_in_S4_witness :
    (mnh_pwr_set_state (env_fail (.regulator_enable .ioldo_supply) (-5)) .MNH_PWR_S0 sys_init).1
        ≠ 0 ∧
      mnh_pwr_get_state
        (mnh_pwr_set_state (env_fail (.regulator_enable .ioldo_supply) (-5)) .MNH_PWR_S0
          sys_init).2 = .MNH_PWR_S4 :=
  ⟨by decide,
    set_state_error_ends_in_S4 (env_fail (.regulator_enable .ioldo_supply) (-5)) .MNH_PWR_S0
      sys_init (by intro v; exact mnh_pwr_state.noConfusion) (by decide)⟩

/-- C3: for a target among S0, S1, S3, S4 that differs from the current state and
under any answers of the collaborators, a set_state that returns 0 leaves
get_state equal to the target. -/
theorem set_state_success_reaches_target (env : Env) (target : mnh_pwr_state) (s : Sys)
    (hvalid : ∀ v, target ≠ .other v) (hne : target ≠ s.mnh_pwr.state)
    (hok : (mnh_pwr_set_state env target s).1 = 0) :
    mnh_pwr_get_state (mnh_pwr_set_state env target s).2 = target := by
  rcases mnh_pwr_set_state_outcome env target s hvalid hne with h | h
  · exact h.2
  · exact absurd hok h.1

/-- Witness of C3: the power-up from the initial record with every call
succeeding returns 0 and reaches S0. -/
theorem set_state_success_reaches_target_witness :
    (mnh_pwr_set_state env_ok .MNH_PWR_S0 sys_init).1 = 0 ∧
      mnh_pwr_get_state (mnh_pwr_set_state env_ok .MNH_PWR_S0 sys_init).2 = .MNH_PWR_S0 :=
  ⟨by decide,
    set_state_success_reaches_target env_ok .MNH_PWR_S0 sys_init
      (by intro v; exact mnh_pwr_state.noConfusion) (by decide) (by decide)⟩

/-- C4: a state value `other v` that is none of the four enumerators makes
set_state return -EINVAL with no call appended and every field unchanged; the
state is not forced to S4.  The hypothesis says that the state field does not
hold that same value; the field only ever holds an enumerator. -/
theorem set_state_invalid_value (env : Env) (v : Int) (s : Sys)
    (hcur : s.mnh_pwr.state ≠ .other v) :
    mnh_pwr_set_state env (.other v) s = (-EINVAL, s) := by
  unfold mnh_pwr_set_state
  rw [if_pos (Ne.symm hcur)]

/-- Witness of C4: the value 2 requested at full power. -/
theorem set_state_invalid_value_witness :
    sys_S0.mnh_pwr.state ≠ .other 2 ∧
      mnh_pwr_set_state env_ok (.other 2) sys_S0 = (-EINVAL, sys_S0) :=
  ⟨by decide, set_state_invalid_value env_ok 2 sys_S0 (by decide)⟩

/-- C5: a set_state(S0) made in S4 with both clock flags false and no link device
recorded, in PCIe boot mode and with every call succeeding, issues exactly:
enable sdldo, enable ioldo, enable asr, enable sdsr, enable the reference clock,
enable the sleep clock, power-good pin high, the 60 microsecond delay, and then
the link enumeration, which is the bus enumeration, the device lookup (one or
more `pci_get_device` calls, until the device in our domain is returned), the
save of the device state, the store of the saved state and the registration for
link-down events.  It returns 0 and ends in S0 with both clock flags true, the
found device and its stored state recorded. -/
theorem power_up_from_S4_call_sequence (env : Env) (s : Sys)
    (hstate : s.mnh_pwr.state = .MNH_PWR_S4)
    (href : s.mnh_pwr.ref_clk_enabled = false)
    (hsleep : s.mnh_pwr.sleep_clk_enabled = false)
    (hpci : s.mnh_pwr.pcidev = none)
    (hboot : ∀ t, env.boot_mode t = .MNH_BOOT_MODE_PCIE)
    (hret : ∀ t c, (∀ r, c ≠ .regulator_is_enabled r) → env.ret t c = 0)
    (hdev : ∀ t, ∃ d ∈ env.pci_devices t, d.domain_nr = (MNH_PCIE_RC_INDEX : Int))
    (hsaved : ∀ t, ∃ st, env.saved_state t = some st) :
    ∃ dev lookups st,
      lookups ≠ [] ∧
      (∀ c ∈ lookups, ∃ start,
        c = Call.pci_get_device MNH_PCIE_VENDOR_ID MNH_PCIE_DEVICE_ID start) ∧
      mnh_pwr_set_state env .MNH_PWR_S0 s =
        (0, ⟨{ s.mnh_pwr with
                ref_clk_enabled := true
                sleep_clk_enabled := true
                pcidev := some dev
                pristine_state := some st
                pci_link_event := ⟨[.MSM_PCIE_EVENT_LINKDOWN], some dev⟩
                pcie_failure := false
                state := .MNH_PWR_S0 },
          s.trace ++
            [.regulator_enable .sdldo_supply, .regulator_enable .ioldo_supply,
              .regulator_enable .asr_supply, .regulator_enable .sdsr_supply,
              .clk_prepare_enable .ref_clk, .clk_prepare_enable .sleep_clk,
              .gpiod_set_value_cansleep 1, .udelay 60,
              .msm_pcie_enumerate MNH_PCIE_RC_INDEX] ++
            lookups ++
            [.pci_save_state dev, .pci_store_saved_state dev,
              .msm_pcie_register_event (some dev)]⟩) := by
  obtain ⟨dev, hd⟩ := mnh_device_of_mem _ (hdev (s.trace ++
    [.regulator_enable .sdldo_supply, .regulator_enable .ioldo_supply,
      .regulator_enable .asr_supply, .regulator_enable .sdsr_supply,
      .clk_prepare_enable .ref_clk, .clk_prepare_enable .sleep_clk,
      .gpiod_set_value_cansleep 1, .udelay 60, .msm_pcie_enumerate MNH_PCIE_RC_INDEX]))
  obtain ⟨st, hs⟩ := hsaved (s.trace ++
    ([.regulator_enable .sdldo_supply, .regulator_enable .ioldo_supply,
      .regulator_enable .asr_supply, .regulator_enable .sdsr_supply,
      .clk_prepare_enable .ref_clk, .clk_prepare_enable .sleep_clk,
      .gpiod_set_value_cansleep 1, .udelay 60, .msm_pcie_enumerate MNH_PCIE_RC_INDEX] ++
    (pci_lookup_calls none (env.pci_devices (s.trace ++
    [.regulator_enable .sdldo_supply, .regulator_enable .ioldo_supply,
      .regulator_enable .asr_supply, .regulator_enable .sdsr_supply,
      .clk_prepare_enable .ref_clk, .clk_prepare_enable .sleep_clk,
      .gpiod_set_value_cansleep 1, .udelay 60, .msm_pcie_enumerate MNH_PCIE_RC_INDEX])) ++
    [.pci_save_state dev])))
  refine ⟨dev, pci_lookup_calls none (env.pci_devices (s.trace ++
    [.regulator_enable .sdldo_supply, .regulator_enable .ioldo_supply,
      .regulator_enable .asr_supply, .regulator_enable .sdsr_supply,
      .clk_prepare_enable .ref_clk, .clk_prepare_enable .sleep_clk,
      .gpiod_set_value_cansleep 1, .udelay 60, .msm_pcie_enumerate MNH_PCIE_RC_INDEX])),
    st, pci_lookup_calls_ne_nil none _, pci_lookup_calls_mem _ none, ?_⟩
  simp only [List.append_assoc, List.cons_append, List.nil_append] at hs
  unfold mnh_pwr_set_state
  rw [if_pos (by rw [hstate]; exact mnh_pwr_state.noConfusion)]
  simp only [mnh_pwr_up, regulator_enable_from_S4, enable_ref_clk, enable_sleep_clk, hw_call,
    hw_void, hstate, href, hsleep, hboot, hpci, mnh_pwr_pcie_resume, mnh_pwr_pcie_enumerate,
    pci_get_device_loop_eq, Option.isNone_some,
    if_true, if_false, Bool.false_eq_true, not_false_eq_true, hret, ne_eq, reduceCtorEq,
    implies_true, not_true_eq_false, lt_self_iff_false, List.append_assoc, List.cons_append,
    List.nil_append, hd, hs]

/-- Witness of C5: the initial record under collaborators whose calls all succeed. -/
theorem power_up_from_S4_call_sequence_witness :
    ∃ dev lookups st,
      lookups ≠ [] ∧
      (∀ c ∈ lookups, ∃ start,
        c = Call.pci_get_device MNH_PCIE_VENDOR_ID MNH_PCIE_DEVICE_ID start) ∧
      mnh_pwr_set_state env_ok .MNH_PWR_S0 sys_init =
        (0, ⟨{ sys_init.mnh_pwr with
                ref_clk_enabled := true
                sleep_clk_enabled := true
                pcidev := some dev
                pristine_state := some st
                pci_link_event := ⟨[.MSM_PCIE_EVENT_LINKDOWN], some dev⟩
                pcie_failure := false
                state := .MNH_PWR_S0 },
          sys_init.trace ++
            [.regulator_enable .sdldo_supply, .regulator_enable .ioldo_supply,
              .regulator_enable .asr_supply, .regulator_enable .sdsr_supply,
              .clk_prepare_enable .ref_clk, .clk_prepare_enable .sleep_clk,
              .gpiod_set_value_cansleep 1, .udelay 60,
              .msm_pcie_enumerate MNH_PCIE_RC_INDEX] ++
            lookups ++
            [.pci_save_state dev, .pci_store_saved_state dev,
              .msm_pcie_register_event (some dev)]⟩) :=
  power_up_from_S4_call_sequence env_ok sys_init rfl rfl rfl rfl (fun _ => rfl)
    (by
      intro t c hc
      cases c <;> first | rfl | exact absurd rfl (hc _))
    (fun _ => ⟨mnh_dev, by simp [env_ok], rfl⟩) (fun _ => ⟨1, rfl⟩)

/-- C6, evaluated on the failing input: at full power with both clock flags set
and every call succeeding, a successful set_state(S4) and a successful
set_state(S3) both disable the reference clock before the sleep clock, which is
the order in which power-up enables them and not its reverse. -/
theorem power_down_and_suspend_disable_ref_clk_first :
    mnh_pwr_set_state env_ok .MNH_PWR_S4 sys_S0 =
      (0, ⟨{ sys_S0.mnh_pwr with
              ref_clk_enabled := false, sleep_clk_enabled := false, state := .MNH_PWR_S4 },
        [.mnh_pci_suspend mnh_dev, .pci_prepare_to_sleep mnh_dev,
          .msm_pcie_pm_control .MSM_PCIE_SUSPEND 1 mnh_dev [.MSM_PCIE_CONFIG_LINKDOWN],
          .gpiod_set_value_cansleep 0,
          .clk_disable_unprepare .ref_clk, .clk_disable_unprepare .sleep_clk,
          .regulator_is_enabled .sdsr_supply, .regulator_disable .sdsr_supply,
          .regulator_is_enabled .asr_supply, .regulator_disable .asr_supply,
          .regulator_is_enabled .ioldo_supply, .regulator_disable .ioldo_supply,
          .regulator_is_enabled .sdldo_supply, .regulator_disable .sdldo_supply]⟩) ∧
    mnh_pwr_set_state env_ok .MNH_PWR_S3 sys_S0 =
      (0, ⟨{ sys_S0.mnh_pwr with
              ref_clk_enabled := false, sleep_clk_enabled := false, state := .MNH_PWR_S3 },
        [.mnh_pci_suspend mnh_dev, .pci_prepare_to_sleep mnh_dev,
          .msm_pcie_pm_control .MSM_PCIE_SUSPEND 1 mnh_dev [.MSM_PCIE_CONFIG_LINKDOWN],
          .gpiod_set_value_cansleep 0,
          .clk_disable_unprepare .ref_clk, .clk_disable_unprepare .sleep_clk,
          .regulator_disable .asr_supply, .regulator_disable .ioldo_supply]⟩) := by
  constructor <;> decide

/-- C8: a set_state(S4) made from any state other than S4, under any answers of
the collaborators, starts with the link step (the link suspend when the state is
not S3 and the boot mode is PCIe, the reset assertion otherwise), then sets the
power-good pin low, disables each clock whose flag is set, and ends with the
sweep over the rails sdsr, asr, ioldo, sdldo, each queried and disabled when
reported enabled whatever the earlier disables returned.  Afterwards both clock
flags are false and the state is S4, whether the call returned 0 or an error. -/
theorem power_down_from_any_state (env : Env) (s : Sys)
    (hne : s.mnh_pwr.state ≠ .MNH_PWR_S4) :
    (fun link : Int × Sys =>
      (mnh_pwr_set_state env .MNH_PWR_S4 s).2 =
        ⟨{ link.2.mnh_pwr with
            ref_clk_enabled := false, sleep_clk_enabled := false, state := .MNH_PWR_S4 },
          rail_sweep env (link.2.trace ++ [Call.gpiod_set_value_cansleep 0] ++
            clk_off_calls link.2.mnh_pwr (decide (link.1 ≠ 0)))⟩)
      (if s.mnh_pwr.state ≠ .MNH_PWR_S3 ∧ env.boot_mode s.trace = .MNH_BOOT_MODE_PCIE then
        mnh_pwr_pcie_suspend env s
      else (0, hw_void (.msm_pcie_set_reset MNH_PCIE_RC_INDEX true) s)) := by
  unfold mnh_pwr_set_state
  rw [if_pos (Ne.symm hne)]
  exact mnh_pwr_down_snd env s

/-- Witness of C8: the power-down from full power when the queries report every
rail enabled and the disable of the asr rail fails with -5. -/
theorem power_down_from_any_state_witness :
    sys_S0.mnh_pwr.state ≠ .MNH_PWR_S4 ∧
      (mnh_pwr_set_state (env_fail (.regulator_disable .asr_supply) (-5)) .MNH_PWR_S4 sys_S0).2 =
        ⟨{ sys_S0.mnh_pwr with
            ref_clk_enabled := false, sleep_clk_enabled := false, state := .MNH_PWR_S4 },
          rail_sweep (env_fail (.regulator_disable .asr_supply) (-5))
            ([.mnh_pci_suspend mnh_dev, .pci_prepare_to_sleep mnh_dev,
              .msm_pcie_pm_control .MSM_PCIE_SUSPEND 1 mnh_dev [.MSM_PCIE_CONFIG_LINKDOWN]] ++
              [Call.gpiod_set_value_cansleep 0] ++
              [.clk_disable_unprepare .ref_clk, .clk_disable_unprepare .sleep_clk])⟩ :=
  ⟨by decide,
    power_down_from_any_state (env_fail (.regulator_disable .asr_supply) (-5)) sys_S0
      (by decide)⟩

/-- C10, evaluated on the failing input: at full power in SPI boot mode, when the
disable of the ioldo rail fails with -5 and every other call succeeds,
set_state(S3) returns 0 and ends in S3. -/
theorem suspend_ignores_ioldo_disable_failure :
    mnh_pwr_set_state (env_fail_spi (.regulator_disable .ioldo_supply) (-5)) .MNH_PWR_S3 sys_S0 =
      (0, ⟨{ sys_S0.mnh_pwr with
              ref_clk_enabled := false, sleep_clk_enabled := false, state := .MNH_PWR_S3 },
        [.msm_pcie_set_reset 0 true, .gpiod_set_value_cansleep 0,
          .clk_disable_unprepare .ref_clk, .clk_disable_unprepare .sleep_clk,
          .regulator_disable .asr_supply, .regulator_disable .ioldo_supply]⟩) ∧
    (env_fail_spi (.regulator_disable .ioldo_supply) (-5)).ret
        [.msm_pcie_set_reset 0 true, .gpiod_set_value_cansleep 0,
          .clk_disable_unprepare .ref_clk, .clk_disable_unprepare .sleep_clk,
          .regulator_disable .asr_supply]
        (.regulator_disable .ioldo_supply) = -5 := by
  constructor <;> decide

/-- C7, refuted on a concrete input: at full power in SPI boot mode, when the
disable of the asr rail fails with -5, set_state(S3) fails at its fifth call.
The reference clock and the sleep clock were disabled by the third and fourth
call; their flags were true before the call and are false when it returns, and
no call of the unwind enables a clock or raises the pin again. -/
theorem failed_suspend_does_not_restore_clocks :
    mnh_pwr_set_state (env_fail_spi (.regulator_disable .asr_supply) (-5)) .MNH_PWR_S3 sys_S0 =
      (-5, ⟨{ sys_S0.mnh_pwr with
              ref_clk_enabled := false, sleep_clk_enabled := false, state := .MNH_PWR_S4 },
        [.msm_pcie_set_reset 0 true, .gpiod_set_value_cansleep 0,
          .clk_disable_unprepare .ref_clk, .clk_disable_unprepare .sleep_clk,
          .regulator_disable .asr_supply,
          .regulator_is_enabled .sdsr_supply, .regulator_disable .sdsr_supply,
          .regulator_is_enabled .asr_supply, .regulator_disable .asr_supply,
          .regulator_is_enabled .ioldo_supply, .regulator_disable .ioldo_supply,
          .regulator_is_enabled .sdldo_supply, .regulator_disable .sdldo_supply]⟩) ∧
    sys_S0.mnh_pwr.ref_clk_enabled = true ∧
    sys_S0.mnh_pwr.sleep_clk_enabled = true := by
  decide

/-- C7 as amended: when a transition to S0, S1, S3 or S4 fails, from any state and
under any answers of the collaborators, set_state returns after a shutdown
unwind and not a restore.  The state is S4; a clock flag is set on return only
if it was set before the call, so a clock the call enabled is disabled again;
the pin was last written high only if that was so before the call, so a pin
the call raised is lowered again; and the history of the call ends with the
sweep that queries the rails sdsr, asr, ioldo, sdldo and disables each one
reported enabled.  What the call switched off stays off: after a failed
transition to a state other than S0 both clock flags are false and the pin was
last written low. -/
theorem failed_transition_unwinds_to_shutdown (env : Env) (target : mnh_pwr_state) (s : Sys)
    (hvalid : ∀ v, target ≠ .other v)
    (hfail : (mnh_pwr_set_state env target s).1 ≠ 0) :
    (mnh_pwr_set_state env target s).2.mnh_pwr.state = .MNH_PWR_S4 ∧
    ((mnh_pwr_set_state env target s).2.mnh_pwr.ref_clk_enabled = true →
      s.mnh_pwr.ref_clk_enabled = true) ∧
    ((mnh_pwr_set_state env target s).2.mnh_pwr.sleep_clk_enabled = true →
      s.mnh_pwr.sleep_clk_enabled = true) ∧
    (pin_level (mnh_pwr_set_state env target s).2.trace = some 1 →
      pin_level s.trace = some 1) ∧
    (∃ t, s.trace <+: t ∧ (mnh_pwr_set_state env target s).2.trace = rail_sweep env t) ∧
    (target ≠ .MNH_PWR_S0 →
      (mnh_pwr_set_state env target s).2.mnh_pwr.ref_clk_enabled = false ∧
      (mnh_pwr_set_state env target s).2.mnh_pwr.sleep_clk_enabled = false ∧
      pin_level (mnh_pwr_set_state env target s).2.trace = some 0) := by
  have key : Unwound env s (mnh_pwr_set_state env target s).2 ∧
      (target ≠ .MNH_PWR_S0 → ShutDown env s (mnh_pwr_set_state env target s).2) := by
    by_cases hne : target = s.mnh_pwr.state
    · subst hne
      rw [mnh_pwr_set_state_same] at hfail
      exact absurd rfl hfail
    · unfold mnh_pwr_set_state at hfail ⊢
      rw [if_pos hne] at hfail ⊢
      cases target with
      | MNH_PWR_S0 => exact ⟨mnh_pwr_up_failed env _ s hfail, fun h => absurd rfl h⟩
      | MNH_PWR_S1 =>
        simp only [mnh_pwr_partial_eq] at hfail
        exact absurd rfl hfail
      | MNH_PWR_S3 =>
        exact ⟨(mnh_pwr_suspend_failed env s hfail).to_unwound,
          fun _ => mnh_pwr_suspend_failed env s hfail⟩
      | MNH_PWR_S4 =>
        exact ⟨(mnh_pwr_down_shut_down env s).to_unwound, fun _ => mnh_pwr_down_shut_down env s⟩
      | other v => exact absurd rfl (hvalid v)
  obtain ⟨⟨h1, h2, h3, h4, h5⟩, hs⟩ := key
  exact ⟨h1, h2, h3, h4, h5, fun h => ⟨(hs h).2.1, (hs h).2.2.1, (hs h).2.2.2.1⟩⟩

/-- Witness of amended C7: the failed suspend of the refutation above. -/
theorem failed_transition_unwinds_to_shutdown_witness :
    (mnh_pwr_set_state (env_fail_spi (.regulator_disable .asr_supply) (-5)) .MNH_PWR_S3
        sys_S0).1 ≠ 0 ∧
    (mnh_pwr_set_state (env_fail_spi (.regulator_disable .asr_supply) (-5)) .MNH_PWR_S3
        sys_S0).2.mnh_pwr.state = .MNH_PWR_S4 ∧
    (mnh_pwr_set_state (env_fail_spi (.regulator_disable .asr_supply) (-5)) .MNH_PWR_S3
        sys_S0).2.mnh_pwr.ref_clk_enabled = false ∧
    (mnh_pwr_set_state (env_fail_spi (.regulator_disable .asr_supply) (-5)) .MNH_PWR_S3
        sys_S0).2.mnh_pwr.sleep_clk_enabled = false ∧
    pin_level (mnh_pwr_set_state (env_fail_spi (.regulator_disable .asr_supply) (-5))
        .MNH_PWR_S3 sys_S0).2.trace = some 0 :=
  have h := failed_transition_unwinds_to_shutdown
    (env_fail_spi (.regulator_disable .asr_supply) (-5)) .MNH_PWR_S3 sys_S0
    (fun _ => mnh_pwr_state.noConfusion) (by decide)
  ⟨by decide, h.1, (h.2.2.2.2.2 (by decide)).1, (h.2.2.2.2.2 (by decide)).2.1,
    (h.2.2.2.2.2 (by decide)).2.2⟩

/-! ## Claims C11 to C20 -/

/-- C11, counterexample: on the first bring-up in PCIe boot mode, with
`msm_pcie_register_event` returning -5 and every other call succeeding,
set_state(S0) from the initial record returns 0 and ends in S0 with both clock
flags set: the failed registration is logged and the power-up is not unwound. -/
theorem failed_link_event_registration_is_not_an_error :
    mnh_pwr_set_state (env_fail (.msm_pcie_register_event (some mnh_dev)) (-5)) .MNH_PWR_S0
        sys_init =
      (0, ⟨{ sys_init.mnh_pwr with
              ref_clk_enabled := true
              sleep_clk_enabled := true
              pcidev := some mnh_dev
              pristine_state := some 1
              pci_link_event := ⟨[.MSM_PCIE_EVENT_LINKDOWN], some mnh_dev⟩
              state := .MNH_PWR_S0 },
        [.regulator_enable .sdldo_supply, .regulator_enable .ioldo_supply,
          .regulator_enable .asr_supply, .regulator_enable .sdsr_supply,
          .clk_prepare_enable .ref_clk, .clk_prepare_enable .sleep_clk,
          .gpiod_set_value_cansleep 1, .udelay 60,
          .msm_pcie_enumerate MNH_PCIE_RC_INDEX,
          .pci_get_device MNH_PCIE_VENDOR_ID MNH_PCIE_DEVICE_ID none,
          .pci_save_state mnh_dev, .pci_store_saved_state mnh_dev,
          .msm_pcie_register_event (some mnh_dev)]⟩) := by
  decide

/-- The first bring-up when `pci_store_saved_state` returns NULL and every other
call succeeds: `mnh_pwr_pcie_enumerate` returns the `ret` of `pci_save_state`,
which is 0, so that set_state(S0) from the initial record registers the link
event without a device, returns 0 and ends in S0 with no device recorded. -/
theorem failed_store_of_saved_state_returns_zero :
    mnh_pwr_set_state env_store_fails .MNH_PWR_S0 sys_init =
      (0, ⟨{ sys_init.mnh_pwr with
              ref_clk_enabled := true
              sleep_clk_enabled := true
              pci_link_event := ⟨[.MSM_PCIE_EVENT_LINKDOWN], none⟩
              state := .MNH_PWR_S0 },
        [.regulator_enable .sdldo_supply, .regulator_enable .ioldo_supply,
          .regulator_enable .asr_supply, .regulator_enable .sdsr_supply,
          .clk_prepare_enable .ref_clk, .clk_prepare_enable .sleep_clk,
          .gpiod_set_value_cansleep 1, .udelay 60,
          .msm_pcie_enumerate MNH_PCIE_RC_INDEX,
          .pci_get_device MNH_PCIE_VENDOR_ID MNH_PCIE_DEVICE_ID none,
          .pci_save_state mnh_dev, .pci_store_saved_state mnh_dev, .pci_dev_put mnh_dev,
          .msm_pcie_register_event none]⟩) := by
  decide

/-- C11, amended: for every set_state(S0) made from a state other than S0 whose
rail and clock enables succeed and that reaches the link step in PCIe boot mode,
if a sub-step of the link bring-up fails (first bring-up: the bus enumeration
returns a negative value, the lookup finds no device, or saving the device state
returns an error; later bring-up: the resume control, the return from sleep, the
load of the saved state or the resume of the driver returns an error), then
set_state returns a non-zero error and the power-up is unwound: the state is S4,
both clock flags are false, the pin was last written low, and the history is
that of the link bring-up followed by the pin write, the two clock disables and
the rail sweep. -/
theorem failed_link_step_unwinds_power_up (env : Env) (s : Sys)
    (hne : s.mnh_pwr.state ≠ .MNH_PWR_S0)
    (hen : all_succeed env s.trace (up_enable_calls s.mnh_pwr) = true)
    (hboot : env.boot_mode (up_before_link s).trace = .MNH_BOOT_MODE_PCIE)
    (hfail : LinkStepFails env (up_before_link s)) :
    (mnh_pwr_set_state env .MNH_PWR_S0 s).1 ≠ 0 ∧
    (mnh_pwr_set_state env .MNH_PWR_S0 s).1 = (mnh_pwr_pcie_resume env (up_before_link s)).1 ∧
    mnh_pwr_get_state (mnh_pwr_set_state env .MNH_PWR_S0 s).2 = .MNH_PWR_S4 ∧
    (mnh_pwr_set_state env .MNH_PWR_S0 s).2.mnh_pwr.ref_clk_enabled = false ∧
    (mnh_pwr_set_state env .MNH_PWR_S0 s).2.mnh_pwr.sleep_clk_enabled = false ∧
    pin_level (mnh_pwr_set_state env .MNH_PWR_S0 s).2.trace = some 0 ∧
    (mnh_pwr_set_state env .MNH_PWR_S0 s).2.trace =
      rail_sweep env ((mnh_pwr_pcie_resume env (up_before_link s)).2.trace ++
        [.gpiod_set_value_cansleep 0, .clk_disable_unprepare .sleep_clk,
          .clk_disable_unprepare .ref_clk]) := by
  have hres := link_step_fails_resume env _ hfail
  have hup := mnh_pwr_up_link_failed env .MNH_PWR_S0 s hen hboot hres
  unfold mnh_pwr_set_state
  rw [if_pos (Ne.symm hne)]
  simp only [hup, mnh_pwr_get_state]
  refine ⟨hres, trivial, trivial, trivial, trivial, ?_, trivial⟩
  rw [pin_level_rail_sweep]
  have hp := pin_level_append_pin (mnh_pwr_pcie_resume env (up_before_link s)).2.trace
    [.clk_disable_unprepare .sleep_clk, .clk_disable_unprepare .ref_clk] 0 (by simp)
  simpa only [List.append_assoc, List.cons_append, List.nil_append] using hp

/-- Witness of C11: a later bring-up at full speed whose `pci_back_from_sleep`
returns -5, started from the suspended record. -/
theorem failed_link_step_unwinds_power_up_witness :
    (fun (env : Env) (s : Sys) =>
      s.mnh_pwr.state ≠ .MNH_PWR_S0 ∧
      all_succeed env s.trace (up_enable_calls s.mnh_pwr) = true ∧
      env.boot_mode (up_before_link s).trace = .MNH_BOOT_MODE_PCIE ∧
      LinkStepFails env (up_before_link s) ∧
      (mnh_pwr_set_state env .MNH_PWR_S0 s).1 ≠ 0 ∧
      (mnh_pwr_set_state env .MNH_PWR_S0 s).1 =
        (mnh_pwr_pcie_resume env (up_before_link s)).1 ∧
      mnh_pwr_get_state (mnh_pwr_set_state env .MNH_PWR_S0 s).2 = .MNH_PWR_S4 ∧
      (mnh_pwr_set_state env .MNH_PWR_S0 s).2.mnh_pwr.ref_clk_enabled = false ∧
      (mnh_pwr_set_state env .MNH_PWR_S0 s).2.mnh_pwr.sleep_clk_enabled = false ∧
      pin_level (mnh_pwr_set_state env .MNH_PWR_S0 s).2.trace = some 0 ∧
      (mnh_pwr_set_state env .MNH_PWR_S0 s).2.trace =
        rail_sweep env ((mnh_pwr_pcie_resume env (up_before_link s)).2.trace ++
          [.gpiod_set_value_cansleep 0, .clk_disable_unprepare .sleep_clk,
            .clk_disable_unprepare .ref_clk]))
      (env_fail (.pci_back_from_sleep mnh_dev) (-5))
      (mnh_pwr_set_state env_ok .MNH_PWR_S3 sys_S0).2 :=
  ⟨by decide, by decide, by decide, Or.inr (Or.inl (by decide)),
    failed_link_step_unwinds_power_up (env_fail (.pci_back_from_sleep mnh_dev) (-5))
      (mnh_pwr_set_state env_ok .MNH_PWR_S3 sys_S0).2 (by decide) (by decide) (by decide)
      (Or.inr (Or.inl (by decide)))⟩

/-- C12: each of the four regulator notifiers (asr, sdsr, ioldo, sdldo), called
with REGULATOR_EVENT_FAIL in any state of the device record, returns 0, sets the
pending-fault flag `pcie_failure`, and calls `schedule_work` exactly when the
state is not S4.  Nothing else changes: the power state and the other fields are
kept and the history of collaborator calls is the one before the event, so no
transition ran and no regulator, clock, pin or link call was issued. -/
theorem regulator_fail_event_is_flag_and_schedule (s : Sys) :
    (fun after : Int × Sys =>
      mnh_pwr_asr_notifier_cb REGULATOR_EVENT_FAIL s = after ∧
      mnh_pwr_sdsr_notifier_cb REGULATOR_EVENT_FAIL s = after ∧
      mnh_pwr_ioldo_notifier_cb REGULATOR_EVENT_FAIL s = after ∧
      mnh_pwr_sdldo_notifier_cb REGULATOR_EVENT_FAIL s = after ∧
      after.2.mnh_pwr.pcie_failure = true ∧
      after.2.mnh_pwr.state = s.mnh_pwr.state ∧
      after.2.trace = s.trace ∧
      (s.mnh_pwr.state ≠ .MNH_PWR_S4 → after.2.mnh_pwr.shutdown_work = true) ∧
      (s.mnh_pwr.state = .MNH_PWR_S4 →
        after.2.mnh_pwr.shutdown_work = s.mnh_pwr.shutdown_work))
      (0,
        if s.mnh_pwr.state ≠ .MNH_PWR_S4 then
          schedule_work ⟨{ s.mnh_pwr with pcie_failure := true }, s.trace⟩
        else ⟨{ s.mnh_pwr with pcie_failure := true }, s.trace⟩) := by
  by_cases h : s.mnh_pwr.state = .MNH_PWR_S4 <;>
    simp [mnh_pwr_asr_notifier_cb, mnh_pwr_sdsr_notifier_cb, mnh_pwr_ioldo_notifier_cb,
      mnh_pwr_sdldo_notifier_cb, schedule_work, h]

/-- C13: with the work queue modelled as the pending bit `shutdown_work`, in every
state other than S4 the delivery of one or more regulator failure events (on any
rails, in any order) before the task runs leaves the one task pending and issues
no call.  And from every state `a` and for every answer of the collaborators, the
task `mnh_pwr_shutdown_work` ends with `mnh_pwr_get_state` returning S4 and
makes the calls of set_state(S4), none of which is the power-error callback,
followed by the power-error callback: the callback is invoked exactly once,
after set_state(S4). -/
theorem fault_events_schedule_one_shutdown (env : Env) (s a : Sys) (rs : List regulator)
    (hs : s.mnh_pwr.state ≠ .MNH_PWR_S4) (hrs : rs ≠ []) :
    deliver_faults rs s =
      ⟨{ s.mnh_pwr with pcie_failure := true, shutdown_work := true }, s.trace⟩ ∧
    mnh_pwr_get_state (mnh_pwr_shutdown_work env a) = .MNH_PWR_S4 ∧
    ∃ added : List Call,
      (mnh_pwr_set_state env .MNH_PWR_S4 a).2.trace = a.trace ++ added ∧
      (mnh_pwr_shutdown_work env a).trace = a.trace ++ added ++ [.mnh_sm_pwr_error_cb] ∧
      (∀ c ∈ added, c ≠ .mnh_sm_pwr_error_cb) ∧
      List.count Call.mnh_sm_pwr_error_cb (added ++ [.mnh_sm_pwr_error_cb]) = 1 := by
  refine ⟨deliver_faults_pending rs s hs hrs, mnh_pwr_shutdown_work_state env a, ?_⟩
  obtain ⟨added, h1, h2⟩ := set_state_adds_no_error_cb env .MNH_PWR_S4 a
  have h3 : ∀ c ∈ added, c ≠ .mnh_sm_pwr_error_cb := by
    intro c hc he
    have := h2 c hc
    rw [he] at this
    exact Bool.false_ne_true this
  refine ⟨added, h1, ?_, h3, ?_⟩
  · rw [mnh_pwr_shutdown_work_eq, h1]
  · rw [List.count_append, List.count_eq_zero.mpr (fun hm => h3 _ hm rfl)]
    rfl

/-- Witness of C13: two failure events at full power, and the task run at full
power with every call succeeding. -/
theorem fault_events_schedule_one_shutdown_witness :
    sys_S0.mnh_pwr.state ≠ .MNH_PWR_S4 ∧ [regulator.asr_supply, regulator.sdsr_supply] ≠ [] ∧
    deliver_faults [.asr_supply, .sdsr_supply] sys_S0 =
      ⟨{ sys_S0.mnh_pwr with pcie_failure := true, shutdown_work := true }, sys_S0.trace⟩ ∧
    mnh_pwr_get_state (mnh_pwr_shutdown_work env_ok sys_S0) = .MNH_PWR_S4 ∧
    ∃ added : List Call,
      (mnh_pwr_set_state env_ok .MNH_PWR_S4 sys_S0).2.trace = sys_S0.trace ++ added ∧
      (mnh_pwr_shutdown_work env_ok sys_S0).trace =
        sys_S0.trace ++ added ++ [.mnh_sm_pwr_error_cb] ∧
      (∀ c ∈ added, c ≠ .mnh_sm_pwr_error_cb) ∧
      List.count Call.mnh_sm_pwr_error_cb (added ++ [.mnh_sm_pwr_error_cb]) = 1 :=
  ⟨by decide, by decide,
    fault_events_schedule_one_shutdown env_ok sys_S0 sys_S0 [.asr_supply, .sdsr_supply]
      (by decide) (by decide)⟩

/-- C14: in every state, S4 included, a link-down event given to
`mnh_pwr_pcie_link_state_cb` sets the pending-fault flag `pcie_failure` and calls
`schedule_work` without a test of the state, keeps the power state and issues no
collaborator call; any other link event leaves the device record and the history
as they were.  Whatever the state at the link-down event, S0 included, and
whatever the collaborators answer, the state is S4 once the scheduled task has
run. -/
theorem link_down_schedules_shutdown (env : Env) (s : Sys) :
    mnh_pwr_pcie_link_state_cb .MSM_PCIE_EVENT_LINKDOWN s =
      schedule_work ⟨{ s.mnh_pwr with pcie_failure := true }, s.trace⟩ ∧
    (mnh_pwr_pcie_link_state_cb .MSM_PCIE_EVENT_LINKDOWN s).mnh_pwr.pcie_failure = true ∧
    (mnh_pwr_pcie_link_state_cb .MSM_PCIE_EVENT_LINKDOWN s).mnh_pwr.shutdown_work = true ∧
    (mnh_pwr_pcie_link_state_cb .MSM_PCIE_EVENT_LINKDOWN s).mnh_pwr.state = s.mnh_pwr.state ∧
    (mnh_pwr_pcie_link_state_cb .MSM_PCIE_EVENT_LINKDOWN s).trace = s.trace ∧
    (∀ v, mnh_pwr_pcie_link_state_cb (.MSM_PCIE_EVENT_OTHER v) s = s) ∧
    mnh_pwr_get_state
      (mnh_pwr_shutdown_work env (mnh_pwr_pcie_link_state_cb .MSM_PCIE_EVENT_LINKDOWN s)) =
        .MNH_PWR_S4 := by
  refine ⟨rfl, rfl, rfl, rfl, rfl, fun _ => rfl, ?_⟩
  exact mnh_pwr_shutdown_work_state env _

/-- C15: with each clock replayed from the history of calls as a boolean (an
enable that returns 0 starts it, a failed enable leaves it as it was, a disable
stops it), after every sequence of set_state calls, regulator and link
notifications and runs of the emergency task from the initial record, under any
answers of the collaborators, the flag `ref_clk_enabled` equals the state of the
reference clock and `sleep_clk_enabled` that of the sleep clock, and the history
holds no enable of a running clock and no disable of a stopped one. -/
theorem clock_flags_track_hardware (env : Env) (evs : List Event) :
    (fun s : Sys =>
      s.mnh_pwr.ref_clk_enabled = clk_running env .ref_clk s.trace ∧
      s.mnh_pwr.sleep_clk_enabled = clk_running env .sleep_clk s.trace ∧
      clk_no_duplicate env .ref_clk s.trace = true ∧
      clk_no_duplicate env .sleep_clk s.trace = true)
      (run env sys_init evs) := by
  have h := clocks_tracked_run env evs sys_init ⟨rfl, rfl⟩
  obtain ⟨hr, hs⟩ := h
  simp only [clk_running, clk_no_duplicate, hr, hs, and_self]

/-- C16, evaluated on the failing input: from the initial record, set_state(S0)
and set_state(S1) succeed and leave both clocks running and the power-good pin
high; the following set_state(S0) fails at the enable of the ioldo rail with -5,
sweeps the rails and ends in S4 with both clock flags still true, both clocks
running, no clock disable issued and the pin last written high. -/
theorem failed_power_up_from_S1_leaves_clocks_on :
    (fun env : Env =>
      (fun r1 : Int × Sys =>
        (fun r2 : Int × Sys =>
          (fun r3 : Int × Sys =>
            r1.1 = 0 ∧ r1.2.mnh_pwr.state = .MNH_PWR_S0 ∧
            r2.1 = 0 ∧ r2.2.mnh_pwr.state = .MNH_PWR_S1 ∧
            r3.1 = -5 ∧ r3.2.mnh_pwr.state = .MNH_PWR_S4 ∧
            r3.2.mnh_pwr.ref_clk_enabled = true ∧
            r3.2.mnh_pwr.sleep_clk_enabled = true ∧
            clk_running env .ref_clk r3.2.trace = true ∧
            clk_running env .sleep_clk r3.2.trace = true ∧
            pin_level r3.2.trace = some 1 ∧
            r3.2.trace = r2.2.trace ++
              [.regulator_enable .ioldo_supply,
                .regulator_is_enabled .sdsr_supply, .regulator_disable .sdsr_supply,
                .regulator_is_enabled .asr_supply, .regulator_disable .asr_supply,
                .regulator_is_enabled .ioldo_supply, .regulator_disable .ioldo_supply,
                .regulator_is_enabled .sdldo_supply, .regulator_disable .sdldo_supply])
            (mnh_pwr_set_state env .MNH_PWR_S0 r2.2))
          (mnh_pwr_set_state env .MNH_PWR_S1 r1.2))
        (mnh_pwr_set_state env .MNH_PWR_S0 sys_init))
      (env_fail_from 2 (.regulator_enable .ioldo_supply) (-5)) := by
  decide

/-- C17, evaluated on the failing input: with the rails as booleans and every
call succeeding, the sequence set_state(S0), set_state(S1), set_state(S0) from
the initial record ends in S0 with the sdsr and sdldo rails disabled, because
the power-up from S1 enables only ioldo and asr.  The sequence set_state(S0),
set_state(S3), set_state(S0) ends in S0 with the four rails enabled. -/
theorem power_up_from_S1_leaves_dram_rails_off :
    (fun r : Int × Sys =>
      r.1 = 0 ∧ r.2.mnh_pwr.state = .MNH_PWR_S0 ∧
      rail_on .sdsr_supply r.2.trace = false ∧ rail_on .sdldo_supply r.2.trace = false ∧
      rail_on .ioldo_supply r.2.trace = true ∧ rail_on .asr_supply r.2.trace = true)
      (mnh_pwr_set_state env_rails .MNH_PWR_S0
        (mnh_pwr_set_state env_rails .MNH_PWR_S1
          (mnh_pwr_set_state env_rails .MNH_PWR_S0 sys_init).2).2) ∧
    (fun r : Int × Sys =>
      r.1 = 0 ∧ r.2.mnh_pwr.state = .MNH_PWR_S0 ∧
      rail_on .sdsr_supply r.2.trace = true ∧ rail_on .sdldo_supply r.2.trace = true ∧
      rail_on .ioldo_supply r.2.trace = true ∧ rail_on .asr_supply r.2.trace = true)
      (mnh_pwr_set_state env_rails .MNH_PWR_S0
        (mnh_pwr_set_state env_rails .MNH_PWR_S3
          (mnh_pwr_set_state env_rails .MNH_PWR_S0 sys_init).2).2) := by
  constructor <;> decide

/-- C19, counterexample: a set_state(S0) made from S3, with every call
succeeding, issues two rail enables, ioldo and asr, and not three, before it
enables the clocks. -/
theorem power_up_from_S3_enables_two_rails :
    (mnh_pwr_set_state env_ok .MNH_PWR_S3 sys_S0).2.mnh_pwr.state = .MNH_PWR_S3 ∧
    (mnh_pwr_set_state env_ok .MNH_PWR_S0 (mnh_pwr_set_state env_ok .MNH_PWR_S3 sys_S0).2).2.trace =
      (mnh_pwr_set_state env_ok .MNH_PWR_S3 sys_S0).2.trace ++
        [.regulator_enable .ioldo_supply, .regulator_enable .asr_supply,
          .clk_prepare_enable .ref_clk, .clk_prepare_enable .sleep_clk,
          .gpiod_set_value_cansleep 1, .udelay 60,
          .msm_pcie_pm_control .MSM_PCIE_RESUME 1 mnh_dev [.MSM_PCIE_CONFIG_NO_CFG_FREE],
          .pci_back_from_sleep mnh_dev, .pci_load_saved_state mnh_dev (some 1),
          .pci_restore_state mnh_dev, .mnh_pci_resume mnh_dev] := by
  decide

/-- C19, amended: for every set_state(S0) made from S3 or from S4 whose rail
enables succeed, the transition starts with its rail enables and issues no rail
enable after them, so that they all precede the clock enables: from S4 these are
the four calls sdldo, ioldo, asr, sdsr in that order, and from S3 the two calls
ioldo, asr.  Two of the four rails, sdldo (the first) and sdsr (the last), are
conditional on coming from S4. -/
theorem power_up_rail_enable_calls (env : Env) (s : Sys)
    (hfrom : s.mnh_pwr.state = .MNH_PWR_S3 ∨ s.mnh_pwr.state = .MNH_PWR_S4)
    (hr : all_succeed env s.trace
      (if s.mnh_pwr.state = .MNH_PWR_S4 then
        [.regulator_enable .sdldo_supply, .regulator_enable .ioldo_supply,
          .regulator_enable .asr_supply, .regulator_enable .sdsr_supply]
      else [.regulator_enable .ioldo_supply, .regulator_enable .asr_supply]) = true) :
    ∃ rest : List Call,
      (mnh_pwr_set_state env .MNH_PWR_S0 s).2.trace =
        s.trace ++
          (if s.mnh_pwr.state = .MNH_PWR_S4 then
            [.regulator_enable .sdldo_supply, .regulator_enable .ioldo_supply,
              .regulator_enable .asr_supply, .regulator_enable .sdsr_supply]
          else [.regulator_enable .ioldo_supply, .regulator_enable .asr_supply]) ++ rest ∧
      ∀ c ∈ rest, ∀ r, c ≠ .regulator_enable r := by
  have hne : s.mnh_pwr.state ≠ .MNH_PWR_S0 := by
    rcases hfrom with h | h <;> rw [h] <;> exact fun e => mnh_pwr_state.noConfusion e
  unfold mnh_pwr_set_state
  rw [if_pos (Ne.symm hne)]
  exact up_adds_no_enable_after_rails env .MNH_PWR_S0 s hr

/-- Witness of C19: the power-up from S3 with every call succeeding. -/
theorem power_up_rail_enable_calls_witness :
    (mnh_pwr_set_state env_ok .MNH_PWR_S3 sys_S0).2.mnh_pwr.state = .MNH_PWR_S3 ∧
    all_succeed env_ok (mnh_pwr_set_state env_ok .MNH_PWR_S3 sys_S0).2.trace
      [.regulator_enable .ioldo_supply, .regulator_enable .asr_supply] = true ∧
    ∃ rest : List Call,
      (mnh_pwr_set_state env_ok .MNH_PWR_S0
          (mnh_pwr_set_state env_ok .MNH_PWR_S3 sys_S0).2).2.trace =
        (mnh_pwr_set_state env_ok .MNH_PWR_S3 sys_S0).2.trace ++
          [.regulator_enable .ioldo_supply, .regulator_enable .asr_supply] ++ rest ∧
      ∀ c ∈ rest, ∀ r, c ≠ .regulator_enable r :=
  ⟨by decide, by decide,
    power_up_rail_enable_calls env_ok (mnh_pwr_set_state env_ok .MNH_PWR_S3 sys_S0).2
      (Or.inl (by decide)) (by decide)⟩

/-- C20: for every set_state(S0) made from a state other than S0 whose rail and
clock enables succeed and whose link bring-up `mnh_pwr_pcie_resume` returns an
error `e`, set_state returns exactly `e`; the calls after the link bring-up are
the power-good pin set low, the sleep clock disabled, the reference clock
disabled, and the sweep over the rails sdsr, asr, ioldo, sdldo in that order
(each queried and disabled when reported enabled); afterwards both clock flags
are false and the state is S4. -/
theorem link_failure_unwind_order (env : Env) (s : Sys) (e : Int)
    (hne : s.mnh_pwr.state ≠ .MNH_PWR_S0)
    (hen : all_succeed env s.trace (up_enable_calls s.mnh_pwr) = true)
    (hboot : env.boot_mode (up_before_link s).trace = .MNH_BOOT_MODE_PCIE)
    (hret : (mnh_pwr_pcie_resume env (up_before_link s)).1 = e)
    (he : e ≠ 0) :
    mnh_pwr_set_state env .MNH_PWR_S0 s =
      (e, ⟨{ (mnh_pwr_pcie_resume env (up_before_link s)).2.mnh_pwr with
              ref_clk_enabled := false, sleep_clk_enabled := false, state := .MNH_PWR_S4 },
        sweep_rail env .sdldo_supply (sweep_rail env .ioldo_supply
          (sweep_rail env .asr_supply (sweep_rail env .sdsr_supply
            ((mnh_pwr_pcie_resume env (up_before_link s)).2.trace ++
              [.gpiod_set_value_cansleep 0, .clk_disable_unprepare .sleep_clk,
                .clk_disable_unprepare .ref_clk]))))⟩) := by
  unfold mnh_pwr_set_state
  rw [if_pos (Ne.symm hne)]
  have hup := mnh_pwr_up_link_failed env .MNH_PWR_S0 s hen hboot (by rw [hret]; exact he)
  rw [hret] at hup
  exact hup

/-- Witness of C20: the power-up from the suspended record when `mnh_pci_resume`
returns -5. -/
theorem link_failure_unwind_order_witness :
    (fun (env : Env) (s : Sys) (e : Int) =>
      s.mnh_pwr.state ≠ .MNH_PWR_S0 ∧
      all_succeed env s.trace (up_enable_calls s.mnh_pwr) = true ∧
      env.boot_mode (up_before_link s).trace = .MNH_BOOT_MODE_PCIE ∧
      (mnh_pwr_pcie_resume env (up_before_link s)).1 = e ∧ e ≠ 0 ∧
      mnh_pwr_set_state env .MNH_PWR_S0 s =
        (e, ⟨{ (mnh_pwr_pcie_resume env (up_before_link s)).2.mnh_pwr with
                ref_clk_enabled := false, sleep_clk_enabled := false, state := .MNH_PWR_S4 },
          sweep_rail env .sdldo_supply (sweep_rail env .ioldo_supply
            (sweep_rail env .asr_supply (sweep_rail env .sdsr_supply
              ((mnh_pwr_pcie_resume env (up_before_link s)).2.trace ++
                [.gpiod_set_value_cansleep 0, .clk_disable_unprepare .sleep_clk,
                  .clk_disable_unprepare .ref_clk]))))⟩))
      (env_fail (.mnh_pci_resume mnh_dev) (-5))
      (mnh_pwr_set_state env_ok .MNH_PWR_S3 sys_S0).2 (-5) :=
  ⟨by decide, by decide, by decide, by decide, by decide,
    link_failure_unwind_order (env_fail (.mnh_pci_resume mnh_dev) (-5))
      (mnh_pwr_set_state env_ok .MNH_PWR_S3 sys_S0).2 (-5) (by decide) (by decide) (by decide)
      (by decide) (by decide)⟩

/-! ## Claims C21 to C29 -/

/-- C21: a set_state(S0) that starts in S4 with both clock flags false, in
which the four rail enables succeed and the enable of the reference clock fails
with `e`, when `regulator_is_enabled` reports the boolean state of a rail: the
calls made are the four rail enables, the failed clock enable and, for each of
sdsr, asr, ioldo, sdldo in that order, the query followed by the disable.  So
the four rails end disabled, the sleep clock is not enabled, the pin is not
written, no link call is made, the clock flags stay false, the state is S4 and
set_state returns `e`. -/
theorem ref_clk_failure_disables_enabled_rails (env : Env) (s : Sys) (e : Int)
    (hstate : s.mnh_pwr.state = .MNH_PWR_S4)
    (href : s.mnh_pwr.ref_clk_enabled = false)
    (hsleep : s.mnh_pwr.sleep_clk_enabled = false)
    (hq : ∀ t r, env.ret t (.regulator_is_enabled r) ≠ 0 ↔ rail_on r t = true)
    (hrails : all_succeed env s.trace (up_rail_calls .MNH_PWR_S4) = true)
    (hclk : env.ret (s.trace ++ up_rail_calls .MNH_PWR_S4) (.clk_prepare_enable .ref_clk) = e)
    (he : e ≠ 0) :
    mnh_pwr_set_state env .MNH_PWR_S0 s =
      (e, ⟨s.mnh_pwr, s.trace ++
        [.regulator_enable .sdldo_supply, .regulator_enable .ioldo_supply,
          .regulator_enable .asr_supply, .regulator_enable .sdsr_supply,
          .clk_prepare_enable .ref_clk,
          .regulator_is_enabled .sdsr_supply, .regulator_disable .sdsr_supply,
          .regulator_is_enabled .asr_supply, .regulator_disable .asr_supply,
          .regulator_is_enabled .ioldo_supply, .regulator_disable .ioldo_supply,
          .regulator_is_enabled .sdldo_supply, .regulator_disable .sdldo_supply]⟩) ∧
    (mnh_pwr_set_state env .MNH_PWR_S0 s).2.mnh_pwr.state = .MNH_PWR_S4 ∧
    (mnh_pwr_set_state env .MNH_PWR_S0 s).2.mnh_pwr.ref_clk_enabled = false ∧
    (mnh_pwr_set_state env .MNH_PWR_S0 s).2.mnh_pwr.sleep_clk_enabled = false ∧
    ∀ r, rail_on r (mnh_pwr_set_state env .MNH_PWR_S0 s).2.trace = false := by
  obtain ⟨⟨rf, sl, p, q, ev, w, f, st⟩, t⟩ := s
  simp only at hstate href hsleep
  subst hstate href hsleep
  simp [all_succeed, up_rail_calls] at hrails
  simp only [up_rail_calls, if_true] at hclk
  have hmain : mnh_pwr_set_state env .MNH_PWR_S0
      ⟨⟨false, false, p, q, ev, w, f, .MNH_PWR_S4⟩, t⟩ =
      (e, ⟨⟨false, false, p, q, ev, w, f, .MNH_PWR_S4⟩, t ++
        [.regulator_enable .sdldo_supply, .regulator_enable .ioldo_supply,
          .regulator_enable .asr_supply, .regulator_enable .sdsr_supply,
          .clk_prepare_enable .ref_clk,
          .regulator_is_enabled .sdsr_supply, .regulator_disable .sdsr_supply,
          .regulator_is_enabled .asr_supply, .regulator_disable .asr_supply,
          .regulator_is_enabled .ioldo_supply, .regulator_disable .ioldo_supply,
          .regulator_is_enabled .sdldo_supply, .regulator_disable .sdldo_supply]⟩) := by
    have hup : mnh_pwr_up env .MNH_PWR_S0 ⟨⟨false, false, p, q, ev, w, f, .MNH_PWR_S4⟩, t⟩ =
        fail_pwr_up_regulators env e ⟨⟨false, false, p, q, ev, w, f, .MNH_PWR_S4⟩, t ++
          [.regulator_enable .sdldo_supply, .regulator_enable .ioldo_supply,
            .regulator_enable .asr_supply, .regulator_enable .sdsr_supply,
            .clk_prepare_enable .ref_clk]⟩ := by
      simp only [mnh_pwr_up, regulator_enable_from_S4, enable_ref_clk, hw_call, hrails, hclk,
        he, if_true, if_false, Bool.false_eq_true, not_false_eq_true, ne_eq,
        not_true_eq_false, List.append_assoc, List.cons_append, List.nil_append]
    unfold mnh_pwr_set_state
    rw [if_pos (fun h => mnh_pwr_state.noConfusion h), hup, fail_pwr_up_regulators_eq]
    simp only [rail_sweep]
    rw [sweep_rail_of_on env .sdsr_supply _ hq (by simp [rail_on]),
      sweep_rail_of_on env .asr_supply _ hq (by simp [rail_on]),
      sweep_rail_of_on env .ioldo_supply _ hq (by simp [rail_on]),
      sweep_rail_of_on env .sdldo_supply _ hq (by simp [rail_on])]
    simp only [List.append_assoc, List.cons_append, List.nil_append]
  rw [hmain]
  refine ⟨rfl, rfl, rfl, rfl, ?_⟩
  intro r
  cases r <;> simp [rail_on]

/-- Witness of C21: the initial record, with the rails as booleans, every other
call succeeding and the enable of the reference clock returning -5. -/
theorem ref_clk_failure_disables_enabled_rails_witness :
    (∀ t r, (env_rails_fail (.clk_prepare_enable .ref_clk) (-5)).ret t
      (.regulator_is_enabled r) ≠ 0 ↔ rail_on r t = true) ∧
    all_succeed (env_rails_fail (.clk_prepare_enable .ref_clk) (-5)) sys_init.trace
      (up_rail_calls .MNH_PWR_S4) = true ∧
    mnh_pwr_set_state (env_rails_fail (.clk_prepare_enable .ref_clk) (-5)) .MNH_PWR_S0 sys_init =
      (-5, ⟨sys_init.mnh_pwr,
        [.regulator_enable .sdldo_supply, .regulator_enable .ioldo_supply,
          .regulator_enable .asr_supply, .regulator_enable .sdsr_supply,
          .clk_prepare_enable .ref_clk,
          .regulator_is_enabled .sdsr_supply, .regulator_disable .sdsr_supply,
          .regulator_is_enabled .asr_supply, .regulator_disable .asr_supply,
          .regulator_is_enabled .ioldo_supply, .regulator_disable .ioldo_supply,
          .regulator_is_enabled .sdldo_supply, .regulator_disable .sdldo_supply]⟩) ∧
    ∀ r, rail_on r (mnh_pwr_set_state (env_rails_fail (.clk_prepare_enable .ref_clk) (-5))
      .MNH_PWR_S0 sys_init).2.trace = false :=
  have hq : ∀ t r, (env_rails_fail (.clk_prepare_enable .ref_clk) (-5)).ret t
      (.regulator_is_enabled r) ≠ 0 ↔ rail_on r t = true := by
    intro t r
    cases h : rail_on r t <;> simp [env_rails_fail, env_rails, h]
  have hw := ref_clk_failure_disables_enabled_rails
    (env_rails_fail (.clk_prepare_enable .ref_clk) (-5)) sys_init (-5) rfl rfl rfl hq
    (by decide) (by decide) (by decide)
  ⟨hq, by decide, hw.1, hw.2.2.2.2⟩

/-- C22, counterexample: with the rails as booleans and every call succeeding,
after set_state(S0) from the initial record the four rails are enabled; the
successful set_state(S3) that follows issues, after the pin and the clocks, a
disable on asr and on ioldo only, so that sdsr and sdldo, enabled at that point,
are not disabled and stay enabled. -/
theorem successful_suspend_leaves_dram_rails_on :
    (fun s0 : Sys =>
      (fun r : Int × Sys =>
        rail_on .sdsr_supply s0.trace = true ∧ rail_on .sdldo_supply s0.trace = true ∧
        rail_on .asr_supply s0.trace = true ∧ rail_on .ioldo_supply s0.trace = true ∧
        r.1 = 0 ∧ r.2.mnh_pwr.state = .MNH_PWR_S3 ∧
        r.2.trace = s0.trace ++
          [.mnh_pci_suspend mnh_dev, .pci_prepare_to_sleep mnh_dev,
            .msm_pcie_pm_control .MSM_PCIE_SUSPEND 1 mnh_dev [.MSM_PCIE_CONFIG_LINKDOWN],
            .gpiod_set_value_cansleep 0,
            .clk_disable_unprepare .ref_clk, .clk_disable_unprepare .sleep_clk,
            .regulator_disable .asr_supply, .regulator_disable .ioldo_supply] ∧
        rail_on .sdsr_supply r.2.trace = true ∧ rail_on .sdldo_supply r.2.trace = true)
        (mnh_pwr_set_state env_rails .MNH_PWR_S3 s0))
      (mnh_pwr_set_state env_rails .MNH_PWR_S0 sys_init).2 := by
  decide

/-- C22, amended: every successful set_state(S3) made from a state other than S3
consists of the link step (link calls only), the pin write, the clock disables
and then exactly two rail calls, `regulator_disable` on asr and then on ioldo,
issued without a query; no call is made on sdsr or sdldo, and the state
afterwards is S3. -/
theorem successful_suspend_disables_core_rails (env : Env) (s : Sys)
    (hne : s.mnh_pwr.state ≠ .MNH_PWR_S3)
    (hok : (mnh_pwr_set_state env .MNH_PWR_S3 s).1 = 0) :
    ∃ link clks : List Call,
      (∀ c ∈ link, c.link = true) ∧
      (∀ c ∈ clks, ∃ k, c = Call.clk_disable_unprepare k) ∧
      (mnh_pwr_set_state env .MNH_PWR_S3 s).2.trace =
        s.trace ++ link ++ [.gpiod_set_value_cansleep 0] ++ clks ++
          [.regulator_disable .asr_supply, .regulator_disable .ioldo_supply] ∧
      (mnh_pwr_set_state env .MNH_PWR_S3 s).2.mnh_pwr.state = .MNH_PWR_S3 := by
  unfold mnh_pwr_set_state at hok ⊢
  rw [if_pos (Ne.symm hne)] at hok ⊢
  simp only at hok ⊢
  rw [mnh_pwr_suspend_eq] at hok ⊢
  have hl : AddsOnly Call.link s
      (if env.boot_mode s.trace = .MNH_BOOT_MODE_PCIE then mnh_pwr_pcie_suspend env s
        else (0, hw_void (.msm_pcie_set_reset MNH_PCIE_RC_INDEX true) s)).2 := by
    split
    · exact mnh_pwr_pcie_suspend_adds_link env s
    · exact AddsOnly.adds_call _ s _ _ rfl
  generalize (if env.boot_mode s.trace = .MNH_BOOT_MODE_PCIE then mnh_pwr_pcie_suspend env s
        else (0, hw_void (.msm_pcie_set_reset MNH_PCIE_RC_INDEX true) s)) = l at hl hok ⊢
  obtain ⟨link, hl1, hl2⟩ := hl
  simp only at hok ⊢
  split_ifs at hok ⊢ with h1 h2
  · exact absurd hok h1
  · exact absurd hok h2
  · exact ⟨link, clk_off_calls l.2.mnh_pwr false, hl2, clk_off_calls_are_disables _ _,
      by simp only [hl1, List.append_assoc], rfl⟩

/-- Witness of C22: the suspend from full power with every call succeeding. -/
theorem successful_suspend_disables_core_rails_witness :
    sys_S0.mnh_pwr.state ≠ .MNH_PWR_S3 ∧
    (mnh_pwr_set_state env_ok .MNH_PWR_S3 sys_S0).1 = 0 ∧
    ∃ link clks : List Call,
      (∀ c ∈ link, c.link = true) ∧
      (∀ c ∈ clks, ∃ k, c = Call.clk_disable_unprepare k) ∧
      (mnh_pwr_set_state env_ok .MNH_PWR_S3 sys_S0).2.trace =
        sys_S0.trace ++ link ++ [.gpiod_set_value_cansleep 0] ++ clks ++
          [.regulator_disable .asr_supply, .regulator_disable .ioldo_supply] ∧
      (mnh_pwr_set_state env_ok .MNH_PWR_S3 sys_S0).2.mnh_pwr.state = .MNH_PWR_S3 :=
  ⟨by decide, by decide,
    successful_suspend_disables_core_rails env_ok sys_S0 (by decide) (by decide)⟩

/-- C23: a link suspend with a recorded link device `dev`.  When the
pending-fault flag `pcie_failure` is set, the platform call
`msm_pcie_pm_control(MSM_PCIE_SUSPEND)` with the option
MSM_PCIE_CONFIG_NO_CFG_RESTORE added comes first: if it fails its error is
returned and nothing else is called; otherwise the driver-level
`mnh_pci_suspend` follows, its result is ignored, the flag is cleared and 0 is
returned.  When the flag is not set, the calls are `mnh_pci_suspend`,
`pci_prepare_to_sleep` and the platform suspend, in that order whatever the
first two return, and the value returned is the result of the platform call. -/
theorem link_suspend_call_order (env : Env) (s : Sys) (dev : pci_dev)
    (hdev : s.mnh_pwr.pcidev = some dev) :
    mnh_pwr_pcie_suspend env s =
      if s.mnh_pwr.pcie_failure = true then
        if env.ret s.trace (.msm_pcie_pm_control .MSM_PCIE_SUSPEND dev.bus_number dev
            [.MSM_PCIE_CONFIG_LINKDOWN, .MSM_PCIE_CONFIG_NO_CFG_RESTORE]) ≠ 0 then
          (env.ret s.trace (.msm_pcie_pm_control .MSM_PCIE_SUSPEND dev.bus_number dev
            [.MSM_PCIE_CONFIG_LINKDOWN, .MSM_PCIE_CONFIG_NO_CFG_RESTORE]),
            ⟨s.mnh_pwr, s.trace ++
              [.msm_pcie_pm_control .MSM_PCIE_SUSPEND dev.bus_number dev
                [.MSM_PCIE_CONFIG_LINKDOWN, .MSM_PCIE_CONFIG_NO_CFG_RESTORE]]⟩)
        else
          (0, ⟨{ s.mnh_pwr with pcie_failure := false }, s.trace ++
              [.msm_pcie_pm_control .MSM_PCIE_SUSPEND dev.bus_number dev
                [.MSM_PCIE_CONFIG_LINKDOWN, .MSM_PCIE_CONFIG_NO_CFG_RESTORE],
                .mnh_pci_suspend dev]⟩)
      else
        (env.ret (s.trace ++ [.mnh_pci_suspend dev, .pci_prepare_to_sleep dev])
            (.msm_pcie_pm_control .MSM_PCIE_SUSPEND dev.bus_number dev
              [.MSM_PCIE_CONFIG_LINKDOWN]),
          ⟨s.mnh_pwr, s.trace ++
            [.mnh_pci_suspend dev, .pci_prepare_to_sleep dev,
              .msm_pcie_pm_control .MSM_PCIE_SUSPEND dev.bus_number dev
                [.MSM_PCIE_CONFIG_LINKDOWN]]⟩) :=
  mnh_pwr_pcie_suspend_eq env s dev hdev

/-- Witness of C23: the link suspend at full power with the flag not set, when
`mnh_pci_suspend` returns -5; the failure is ignored and 0 is returned. -/
theorem link_suspend_call_order_witness :
    sys_S0.mnh_pwr.pcidev = some mnh_dev ∧
    mnh_pwr_pcie_suspend (env_fail (.mnh_pci_suspend mnh_dev) (-5)) sys_S0 =
      (0, ⟨sys_S0.mnh_pwr,
        [.mnh_pci_suspend mnh_dev, .pci_prepare_to_sleep mnh_dev,
          .msm_pcie_pm_control .MSM_PCIE_SUSPEND 1 mnh_dev [.MSM_PCIE_CONFIG_LINKDOWN]]⟩) :=
  ⟨rfl, (link_suspend_call_order (env_fail (.mnh_pci_suspend mnh_dev) (-5)) sys_S0 mnh_dev
    rfl).trans (by decide)⟩

/-- C24, counterexample: in PCIe boot mode, with every call succeeding, a
set_state(S3) made from the initial record, in which no link device is recorded,
does not assert the reset line: the link suspend returns -ENODEV, the transition
is unwound and set_state returns -19 in state S4. -/
theorem suspend_without_link_device_fails :
    sys_init.mnh_pwr.pcidev = none ∧
    mnh_pwr_set_state env_ok .MNH_PWR_S3 sys_init =
      (-19, ⟨sys_init.mnh_pwr,
        [.gpiod_set_value_cansleep 0,
          .regulator_is_enabled .sdsr_supply, .regulator_disable .sdsr_supply,
          .regulator_is_enabled .asr_supply, .regulator_disable .asr_supply,
          .regulator_is_enabled .ioldo_supply, .regulator_disable .ioldo_supply,
          .regulator_is_enabled .sdldo_supply, .regulator_disable .sdldo_supply]⟩) := by
  decide

/-- C24, amended: a set_state(S3) made from a state other than S3.  In a boot
mode other than PCIe, whether or not a link device is recorded, the first call
asserts the reset line, no link suspend is attempted, and the pin write, the
clock disables and the disable of the asr rail follow: the transition does not
fail at the link step; when the asr disable fails its error is returned, and
when the asr and ioldo disables both return 0 the result is 0 in state S3.  In
PCIe boot mode with no link device recorded, the link suspend returns -ENODEV
without a call, and set_state returns -ENODEV after the unwind (pin low, clocks
disabled, rail sweep) in state S4. -/
theorem suspend_link_step_follows_boot_mode (env : Env) (s : Sys)
    (hne : s.mnh_pwr.state ≠ .MNH_PWR_S3) :
    (env.boot_mode s.trace ≠ .MNH_BOOT_MODE_PCIE →
      ∃ clks rest : List Call,
        (∀ c ∈ clks, ∃ k, c = Call.clk_disable_unprepare k) ∧
        (mnh_pwr_set_state env .MNH_PWR_S3 s).2.trace =
          s.trace ++ [.msm_pcie_set_reset MNH_PCIE_RC_INDEX true,
            .gpiod_set_value_cansleep 0] ++ clks ++ [.regulator_disable .asr_supply] ++ rest ∧
        (env.ret (s.trace ++ [.msm_pcie_set_reset MNH_PCIE_RC_INDEX true,
            .gpiod_set_value_cansleep 0] ++ clks) (.regulator_disable .asr_supply) ≠ 0 →
          (mnh_pwr_set_state env .MNH_PWR_S3 s).1 =
            env.ret (s.trace ++ [.msm_pcie_set_reset MNH_PCIE_RC_INDEX true,
              .gpiod_set_value_cansleep 0] ++ clks) (.regulator_disable .asr_supply)) ∧
        (env.ret (s.trace ++ [.msm_pcie_set_reset MNH_PCIE_RC_INDEX true,
            .gpiod_set_value_cansleep 0] ++ clks) (.regulator_disable .asr_supply) = 0 →
          env.ret (s.trace ++ [.msm_pcie_set_reset MNH_PCIE_RC_INDEX true,
            .gpiod_set_value_cansleep 0] ++ clks ++ [.regulator_disable .asr_supply])
            (.regulator_disable .ioldo_supply) = 0 →
          (mnh_pwr_set_state env .MNH_PWR_S3 s).1 = 0 ∧
          (mnh_pwr_set_state env .MNH_PWR_S3 s).2.mnh_pwr.state = .MNH_PWR_S3)) ∧
    (env.boot_mode s.trace = .MNH_BOOT_MODE_PCIE → s.mnh_pwr.pcidev = none →
      mnh_pwr_set_state env .MNH_PWR_S3 s =
        (-ENODEV, ⟨{ s.mnh_pwr with
            ref_clk_enabled := false, sleep_clk_enabled := false, state := .MNH_PWR_S4 },
          rail_sweep env (s.trace ++ [.gpiod_set_value_cansleep 0] ++
            clk_off_calls s.mnh_pwr true)⟩)) := by
  unfold mnh_pwr_set_state
  rw [if_pos (Ne.symm hne)]
  simp only
  rw [mnh_pwr_suspend_eq]
  constructor
  · intro hb
    rw [if_neg hb]
    refine ⟨clk_off_calls s.mnh_pwr false, ?_⟩
    simp only [hw_void_eq, List.append_assoc, List.cons_append, List.nil_append]
    split_ifs with h1 h2
    · exact absurd rfl h1
    · obtain ⟨l, hl, _⟩ := rail_sweep_eq_append env (s.trace ++
        (Call.msm_pcie_set_reset MNH_PCIE_RC_INDEX true :: Call.gpiod_set_value_cansleep 0 ::
          (clk_off_calls s.mnh_pwr false ++ [Call.regulator_disable regulator.asr_supply])))
      refine ⟨l, clk_off_calls_are_disables _ _, ?_, fun _ => rfl, fun h => absurd h h2⟩
      simp only [hl, List.append_assoc, List.cons_append, List.nil_append]
    · exact ⟨[.regulator_disable .ioldo_supply], clk_off_calls_are_disables _ _, by simp,
        fun h => absurd h h2, fun _ _ => ⟨rfl, rfl⟩⟩
  · intro hb hnone
    rw [if_pos hb]
    unfold mnh_pwr_pcie_suspend
    rw [hnone]
    simp only
    rw [if_pos (by decide), hnone]

/-- Witness of C24: the suspend from full power in SPI boot mode with every call
succeeding, which asserts the reset line and ends in S3, and the suspend from
the initial record in PCIe boot mode, which fails with -ENODEV. -/
theorem suspend_link_step_follows_boot_mode_witness :
    sys_S0.mnh_pwr.state ≠ .MNH_PWR_S3 ∧ sys_init.mnh_pwr.state ≠ .MNH_PWR_S3 ∧
    (∃ clks rest : List Call,
      (∀ c ∈ clks, ∃ k, c = Call.clk_disable_unprepare k) ∧
      (mnh_pwr_set_state (env_fail_spi (.regulator_disable .sdsr_supply) (-5)) .MNH_PWR_S3
          sys_S0).2.trace =
        sys_S0.trace ++ [.msm_pcie_set_reset MNH_PCIE_RC_INDEX true,
          .gpiod_set_value_cansleep 0] ++ clks ++ [.regulator_disable .asr_supply] ++ rest) ∧
    (mnh_pwr_set_state (env_fail_spi (.regulator_disable .sdsr_supply) (-5)) .MNH_PWR_S3
      sys_S0).1 = 0 ∧
    (mnh_pwr_set_state (env_fail_spi (.regulator_disable .sdsr_supply) (-5)) .MNH_PWR_S3
      sys_S0).2.mnh_pwr.state = .MNH_PWR_S3 ∧
    mnh_pwr_set_state env_ok .MNH_PWR_S3 sys_init =
      (-ENODEV, ⟨{ sys_init.mnh_pwr with
          ref_clk_enabled := false, sleep_clk_enabled := false, state := .MNH_PWR_S4 },
        rail_sweep env_ok (sys_init.trace ++ [.gpiod_set_value_cansleep 0] ++
          clk_off_calls sys_init.mnh_pwr true)⟩) :=
  have h1 := (suspend_link_step_follows_boot_mode
    (env_fail_spi (.regulator_disable .sdsr_supply) (-5)) sys_S0 (by decide)).1 (by decide)
  have h2 := (suspend_link_step_follows_boot_mode env_ok sys_init (by decide)).2 rfl rfl
  ⟨by decide, by decide,
    (let ⟨clks, rest, q1, q2, _, _⟩ := h1; ⟨clks, rest, q1, q2⟩), by decide, by decide, h2⟩

/-- C25: the pending-fault flag `pcie_failure` after a link operation, for every
state and every answer of the collaborators: after `mnh_pwr_pcie_suspend` and
after `mnh_pwr_pcie_resume` (first bring-up or later resume) the flag is false
when the operation returned 0, and has the value it had before the call when
the operation returned an error. -/
theorem pending_fault_cleared_on_success (env : Env) (s : Sys) :
    (mnh_pwr_pcie_suspend env s).2.mnh_pwr.pcie_failure =
      (if (mnh_pwr_pcie_suspend env s).1 = 0 then false else s.mnh_pwr.pcie_failure) ∧
    (mnh_pwr_pcie_resume env s).2.mnh_pwr.pcie_failure =
      (if (mnh_pwr_pcie_resume env s).1 = 0 then false else s.mnh_pwr.pcie_failure) :=
  ⟨mnh_pwr_pcie_suspend_flag env s, mnh_pwr_pcie_resume_flag env s⟩

/-- C26, counterexample: at full power with the flag not set, the asr notifier
called with REGULATOR_EVENT_DISABLE, which is not the failure event, sets the
pending-fault flag; the set_state(S3) that follows then suspends the link in the
rescue order, the platform call with MSM_PCIE_CONFIG_NO_CFG_RESTORE first. -/
theorem non_failure_event_raises_pending_fault :
    REGULATOR_EVENT_DISABLE ≠ REGULATOR_EVENT_FAIL ∧
    sys_S0.mnh_pwr.pcie_failure = false ∧
    (mnh_pwr_asr_notifier_cb REGULATOR_EVENT_DISABLE sys_S0).2.mnh_pwr.pcie_failure = true ∧
    (mnh_pwr_set_state env_ok .MNH_PWR_S3
        (mnh_pwr_asr_notifier_cb REGULATOR_EVENT_DISABLE sys_S0).2).2.trace =
      [.msm_pcie_pm_control .MSM_PCIE_SUSPEND 1 mnh_dev
          [.MSM_PCIE_CONFIG_LINKDOWN, .MSM_PCIE_CONFIG_NO_CFG_RESTORE],
        .mnh_pci_suspend mnh_dev, .gpiod_set_value_cansleep 0,
        .clk_disable_unprepare .ref_clk, .clk_disable_unprepare .sleep_clk,
        .regulator_disable .asr_supply, .regulator_disable .ioldo_supply] := by
  decide

/-- C26, amended: each of the four regulator notifiers (asr, sdsr, ioldo, sdldo),
called with any event other than REGULATOR_EVENT_FAIL in any state, returns 0
and sets the pending-fault flag `pcie_failure`; it changes nothing else: the
power state, the pending bit of the emergency task and the history of calls are
as before. -/
theorem regulator_event_raises_pending_fault (s : Sys) (event : Nat)
    (hev : event ≠ REGULATOR_EVENT_FAIL) :
    mnh_pwr_asr_notifier_cb event s =
      (0, ⟨{ s.mnh_pwr with pcie_failure := true }, s.trace⟩) ∧
    mnh_pwr_sdsr_notifier_cb event s =
      (0, ⟨{ s.mnh_pwr with pcie_failure := true }, s.trace⟩) ∧
    mnh_pwr_ioldo_notifier_cb event s =
      (0, ⟨{ s.mnh_pwr with pcie_failure := true }, s.trace⟩) ∧
    mnh_pwr_sdldo_notifier_cb event s =
      (0, ⟨{ s.mnh_pwr with pcie_failure := true }, s.trace⟩) := by
  simp [mnh_pwr_asr_notifier_cb, mnh_pwr_sdsr_notifier_cb, mnh_pwr_ioldo_notifier_cb,
    mnh_pwr_sdldo_notifier_cb, hev]

/-- Witness of C26: the event REGULATOR_EVENT_DISABLE at full power. -/
theorem regulator_event_raises_pending_fault_witness :
    REGULATOR_EVENT_DISABLE ≠ REGULATOR_EVENT_FAIL ∧
    mnh_pwr_asr_notifier_cb REGULATOR_EVENT_DISABLE sys_S0 =
      (0, ⟨{ sys_S0.mnh_pwr with pcie_failure := true }, sys_S0.trace⟩) ∧
    mnh_pwr_sdsr_notifier_cb REGULATOR_EVENT_DISABLE sys_S0 =
      (0, ⟨{ sys_S0.mnh_pwr with pcie_failure := true }, sys_S0.trace⟩) ∧
    mnh_pwr_ioldo_notifier_cb REGULATOR_EVENT_DISABLE sys_S0 =
      (0, ⟨{ sys_S0.mnh_pwr with pcie_failure := true }, sys_S0.trace⟩) ∧
    mnh_pwr_sdldo_notifier_cb REGULATOR_EVENT_DISABLE sys_S0 =
      (0, ⟨{ sys_S0.mnh_pwr with pcie_failure := true }, sys_S0.trace⟩) :=
  ⟨by decide, regulator_event_raises_pending_fault sys_S0 REGULATOR_EVENT_DISABLE (by decide)⟩

/-- C27: once a link device `dev` is recorded, after every sequence of set_state
calls, regulator and link notifications and runs of the emergency task, under
any answers of the collaborators, the recorded device is still `dev`, the saved
pristine state is the one stored with it, and none of the calls made is
`msm_pcie_enumerate`; as every first bring-up starts with that call, every link
bring-up of the sequence took the resume path, and a bring-up started afterwards
starts with `msm_pcie_pm_control(MSM_PCIE_RESUME)` on `dev`.  Moreover in every
state reached from the initial record a recorded device comes with a stored
pristine state. -/
theorem link_session_persists (env : Env) (s : Sys) (evs : List Event) (dev : pci_dev)
    (hdev : s.mnh_pwr.pcidev = some dev) :
    (run env s evs).mnh_pwr.pcidev = some dev ∧
    (run env s evs).mnh_pwr.pristine_state = s.mnh_pwr.pristine_state ∧
    (∃ added : List Call, (run env s evs).trace = s.trace ++ added ∧
      ∀ c ∈ added, ∀ rc, c ≠ Call.msm_pcie_enumerate rc) ∧
    (∃ rest : List Call, (mnh_pwr_pcie_resume env (run env s evs)).2.trace =
      (run env s evs).trace ++
        [.msm_pcie_pm_control .MSM_PCIE_RESUME dev.bus_number dev
          [.MSM_PCIE_CONFIG_NO_CFG_FREE]] ++ rest) ∧
    ∀ evs0 : List Event, (run env sys_init evs0).mnh_pwr.pcidev ≠ none →
      (run env sys_init evs0).mnh_pwr.pristine_state ≠ none := by
  obtain ⟨h1, h2, added, h3, h4⟩ := session_kept_run env s evs
    (by rw [hdev]; exact Option.some_ne_none dev)
  have hd : (run env s evs).mnh_pwr.pcidev = some dev := h1.trans hdev
  refine ⟨hd, h2, ⟨added, h3, ?_⟩, resume_starts_with_resume_control env _ dev hd, ?_⟩
  · intro c hc rc he
    have := h4 c hc
    rw [he] at this
    exact Bool.false_ne_true this
  · intro evs0
    exact device_has_state_run env sys_init evs0 (fun h => absurd rfl h)

/-- Witness of C27: the full-power record through a suspend, a regulator
failure, the emergency task and a power-up, every call succeeding. -/
theorem link_session_persists_witness :
    (fun (env : Env) (s : Sys) (evs : List Event) (dev : pci_dev) =>
      s.mnh_pwr.pcidev = some dev ∧
      (run env s evs).mnh_pwr.pcidev = some dev ∧
      (run env s evs).mnh_pwr.pristine_state = s.mnh_pwr.pristine_state ∧
      (∃ added : List Call, (run env s evs).trace = s.trace ++ added ∧
        ∀ c ∈ added, ∀ rc, c ≠ Call.msm_pcie_enumerate rc) ∧
      (∃ rest : List Call, (mnh_pwr_pcie_resume env (run env s evs)).2.trace =
        (run env s evs).trace ++
          [.msm_pcie_pm_control .MSM_PCIE_RESUME dev.bus_number dev
            [.MSM_PCIE_CONFIG_NO_CFG_FREE]] ++ rest) ∧
      ∀ evs0 : List Event, (run env sys_init evs0).mnh_pwr.pcidev ≠ none →
        (run env sys_init evs0).mnh_pwr.pristine_state ≠ none)
      env_ok sys_S0
      [.set_state .MNH_PWR_S3, .regulator_event .asr_supply REGULATOR_EVENT_FAIL,
        .shutdown_work, .set_state .MNH_PWR_S0]
      mnh_dev :=
  ⟨rfl, link_session_persists env_ok sys_S0
    [.set_state .MNH_PWR_S3, .regulator_event .asr_supply REGULATOR_EVENT_FAIL,
      .shutdown_work, .set_state .MNH_PWR_S0] mnh_dev rfl⟩

/-- C28: after every sequence of set_state calls, regulator and link
notifications and runs of the emergency task from the initial record, under any
answers of the collaborators, if the state is S0 then both clock flags are true
and the power-good pin was last written high. -/
theorem full_power_has_clocks_and_pin (env : Env) (evs : List Event)
    (hstate : (run env sys_init evs).mnh_pwr.state = .MNH_PWR_S0) :
    (run env sys_init evs).mnh_pwr.ref_clk_enabled = true ∧
    (run env sys_init evs).mnh_pwr.sleep_clk_enabled = true ∧
    pin_level (run env sys_init evs).trace = some 1 :=
  powered_in_S0_run env evs sys_init (fun h => mnh_pwr_state.noConfusion h) hstate

/-- Witness of C28: the state after a power-up, a link-down notification that is
not yet served, a partial retention and a second power-up, every call
succeeding. -/
theorem full_power_has_clocks_and_pin_witness :
    (fun evs : List Event =>
      (run env_ok sys_init evs).mnh_pwr.state = .MNH_PWR_S0 ∧
      (run env_ok sys_init evs).mnh_pwr.ref_clk_enabled = true ∧
      (run env_ok sys_init evs).mnh_pwr.sleep_clk_enabled = true ∧
      pin_level (run env_ok sys_init evs).trace = some 1)
      [.set_state .MNH_PWR_S0, .link_event .MSM_PCIE_EVENT_LINKDOWN,
        .set_state .MNH_PWR_S1, .set_state .MNH_PWR_S0] :=
  ⟨by decide, full_power_has_clocks_and_pin env_ok
    [.set_state .MNH_PWR_S0, .link_event .MSM_PCIE_EVENT_LINKDOWN,
      .set_state .MNH_PWR_S1, .set_state .MNH_PWR_S0] (by decide)⟩

/-- C29: a link resume with a recorded link device `dev`.  If
`msm_pcie_pm_control(MSM_PCIE_RESUME)` fails, its error is returned and no other
call is made.  If `pci_back_from_sleep` fails, the one compensating call is the
platform suspend.  If `pci_load_saved_state` or, after `pci_restore_state`,
`mnh_pci_resume` fails, the compensating calls are `pci_prepare_to_sleep` and
then the platform suspend.  In each failing case the value returned is the error
of the failing step, the results of the compensating calls are not read, and
the device record, the pending-fault flag included, is as before the call.  If
no step fails the flag is cleared and 0 is returned. -/
theorem link_resume_failure_compensation (env : Env) (s : Sys) (dev : pci_dev)
    (hdev : s.mnh_pwr.pcidev = some dev) :
    mnh_pwr_pcie_resume env s =
      if env.ret s.trace
          (.msm_pcie_pm_control .MSM_PCIE_RESUME dev.bus_number dev
            [.MSM_PCIE_CONFIG_NO_CFG_FREE]) ≠ 0 then
        (env.ret s.trace
            (.msm_pcie_pm_control .MSM_PCIE_RESUME dev.bus_number dev
              [.MSM_PCIE_CONFIG_NO_CFG_FREE]),
          ⟨s.mnh_pwr, s.trace ++
            [.msm_pcie_pm_control .MSM_PCIE_RESUME dev.bus_number dev
              [.MSM_PCIE_CONFIG_NO_CFG_FREE]]⟩)
      else if env.ret (s.trace ++
          [.msm_pcie_pm_control .MSM_PCIE_RESUME dev.bus_number dev
            [.MSM_PCIE_CONFIG_NO_CFG_FREE]])
          (.pci_back_from_sleep dev) ≠ 0 then
        (env.ret (s.trace ++
            [.msm_pcie_pm_control .MSM_PCIE_RESUME dev.bus_number dev
              [.MSM_PCIE_CONFIG_NO_CFG_FREE]])
            (.pci_back_from_sleep dev),
          ⟨s.mnh_pwr, s.trace ++
            [.msm_pcie_pm_control .MSM_PCIE_RESUME dev.bus_number dev
              [.MSM_PCIE_CONFIG_NO_CFG_FREE],
              .pci_back_from_sleep dev,
              .msm_pcie_pm_control .MSM_PCIE_SUSPEND dev.bus_number dev
                [.MSM_PCIE_CONFIG_LINKDOWN]]⟩)
      else if env.ret (s.trace ++
          [.msm_pcie_pm_control .MSM_PCIE_RESUME dev.bus_number dev
            [.MSM_PCIE_CONFIG_NO_CFG_FREE],
            .pci_back_from_sleep dev])
          (.pci_load_saved_state dev s.mnh_pwr.pristine_state) ≠ 0 then
        (env.ret (s.trace ++
            [.msm_pcie_pm_control .MSM_PCIE_RESUME dev.bus_number dev
              [.MSM_PCIE_CONFIG_NO_CFG_FREE],
              .pci_back_from_sleep dev])
            (.pci_load_saved_state dev s.mnh_pwr.pristine_state),
          ⟨s.mnh_pwr, s.trace ++
            [.msm_pcie_pm_control .MSM_PCIE_RESUME dev.bus_number dev
              [.MSM_PCIE_CONFIG_NO_CFG_FREE],
              .pci_back_from_sleep dev,
              .pci_load_saved_state dev s.mnh_pwr.pristine_state,
              .pci_prepare_to_sleep dev,
              .msm_pcie_pm_control .MSM_PCIE_SUSPEND dev.bus_number dev
                [.MSM_PCIE_CONFIG_LINKDOWN]]⟩)
      else if env.ret (s.trace ++
          [.msm_pcie_pm_control .MSM_PCIE_RESUME dev.bus_number dev
            [.MSM_PCIE_CONFIG_NO_CFG_FREE],
            .pci_back_from_sleep dev,
            .pci_load_saved_state dev s.mnh_pwr.pristine_state,
            .pci_restore_state dev])
          (.mnh_pci_resume dev) ≠ 0 then
        (env.ret (s.trace ++
            [.msm_pcie_pm_control .MSM_PCIE_RESUME dev.bus_number dev
              [.MSM_PCIE_CONFIG_NO_CFG_FREE],
              .pci_back_from_sleep dev,
              .pci_load_saved_state dev s.mnh_pwr.pristine_state,
              .pci_restore_state dev])
            (.mnh_pci_resume dev),
          ⟨s.mnh_pwr, s.trace ++
            [.msm_pcie_pm_control .MSM_PCIE_RESUME dev.bus_number dev
              [.MSM_PCIE_CONFIG_NO_CFG_FREE],
              .pci_back_from_sleep dev,
              .pci_load_saved_state dev s.mnh_pwr.pristine_state,
              .pci_restore_state dev,
              .mnh_pci_resume dev,
              .pci_prepare_to_sleep dev,
              .msm_pcie_pm_control .MSM_PCIE_SUSPEND dev.bus_number dev
                [.MSM_PCIE_CONFIG_LINKDOWN]]⟩)
      else
        (0, ⟨{ s.mnh_pwr with pcie_failure := false }, s.trace ++
            [.msm_pcie_pm_control .MSM_PCIE_RESUME dev.bus_number dev
              [.MSM_PCIE_CONFIG_NO_CFG_FREE],
              .pci_back_from_sleep dev,
              .pci_load_saved_state dev s.mnh_pwr.pristine_state,
              .pci_restore_state dev,
              .mnh_pci_resume dev]⟩) :=
  mnh_pwr_pcie_resume_eq env s dev hdev

/-- Witness of C29: the resume at full power with the flag set, when
`pci_load_saved_state` returns -5 and the compensating calls succeed. -/
theorem link_resume_failure_compensation_witness :
    (⟨{ sys_S0.mnh_pwr with pcie_failure := true }, []⟩ : Sys).mnh_pwr.pcidev = some mnh_dev ∧
    mnh_pwr_pcie_resume (env_fail (.pci_load_saved_state mnh_dev (some 1)) (-5))
        ⟨{ sys_S0.mnh_pwr with pcie_failure := true }, []⟩ =
      (-5, ⟨{ sys_S0.mnh_pwr with pcie_failure := true },
        [.msm_pcie_pm_control .MSM_PCIE_RESUME 1 mnh_dev [.MSM_PCIE_CONFIG_NO_CFG_FREE],
          .pci_back_from_sleep mnh_dev, .pci_load_saved_state mnh_dev (some 1),
          .pci_prepare_to_sleep mnh_dev,
          .msm_pcie_pm_control .MSM_PCIE_SUSPEND 1 mnh_dev [.MSM_PCIE_CONFIG_LINKDOWN]]⟩) :=
  ⟨rfl, (link_resume_failure_compensation
    (env_fail (.pci_load_saved_state mnh_dev (some 1)) (-5))
    ⟨{ sys_S0.mnh_pwr with pcie_failure := true }, []⟩ mnh_dev rfl).trans (by decide)⟩

end MnhPwr
